import Mathlib

/-! LODManager: the frame-rate driven level-of-detail controller.

Shallow embedding of `interface/src/LODManager.cpp`.

Conventions of the embedding:

* C++ `float` values are exact rationals (`ℚ`): rounding, infinities and NaN are not represented.
* `quint64` timestamps are natural numbers; the unsigned subtraction `a - b` of the source is
  `sub64 a b`, taken modulo `2 ^ 64`.
* The constants declared in `LODManager.h` are the fields of `Constants`; nothing is assumed
  about their values except where a theorem says so.
* Clock readings are below `2 ^ 64`.
* `qCDebug` logging is dropped; Qt signals and the `reloadSliders` call on the LOD tools dialog
  are recorded in the `Outcome` of a call.
-/

namespace LODManager

/-- Unsigned 64-bit subtraction `a - b` on `quint64`. -/
def sub64 (a b : Nat) : Nat := (a % 2 ^ 64 + (2 ^ 64 - b % 2 ^ 64)) % 2 ^ 64

/-- Constants used by `LODManager.cpp` and declared in its headers.
`incorporate span average numSamples sample` is the running average a window of the given span
holds after one more sample. -/
structure Constants where
  ADJUST_LOD_MIN_SIZE_SCALE : ℚ
  ADJUST_LOD_MAX_SIZE_SCALE : ℚ
  ADJUST_LOD_DOWN_BY : ℚ
  ADJUST_LOD_UP_BY : ℚ
  ASSUMED_FPS : ℚ
  START_SHIFT_ELPASED : ℚ
  DOWN_SHIFT_ELPASED : ℚ
  UP_SHIFT_ELPASED : ℚ
  AVATAR_TO_ENTITY_RATIO : ℚ
  DEFAULT_OCTREE_SIZE_SCALE : ℚ
  TREE_SCALE : ℚ
  incorporate : ℚ → ℚ → Nat → ℚ → ℚ

/-- Modelled from the spec: the moving-average window (`SimpleMovingAverage`, a class of
the shared library): a running average, a sample count and a window span. -/
structure SimpleMovingAverage where
  average : ℚ
  numSamples : Nat
  span : ℚ
deriving DecidableEq, Repr

namespace SimpleMovingAverage

/-- Modelled from the spec: `update(sample)` incorporates one new measurement and increments
the sample count. -/
def updateAverage (K : Constants) (w : SimpleMovingAverage) (sample : ℚ) : SimpleMovingAverage :=
  { w with average := K.incorporate w.span w.average w.numSamples sample,
           numSamples := w.numSamples + 1 }

/-- Modelled from the spec: `getAverage()` returns the current running average. -/
def getAverage (w : SimpleMovingAverage) : ℚ := w.average

/-- Modelled from the spec: `getSampleCount()` returns the samples seen since the last reset. -/
def getSampleCount (w : SimpleMovingAverage) : Nat := w.numSamples

/-- Modelled from the spec: `reset()` clears the sample count and forgets history. -/
def reset (w : SimpleMovingAverage) : SimpleMovingAverage :=
  { w with average := 0, numSamples := 0 }

end SimpleMovingAverage

/-- The member variables of `LODManager`. The four FPS thresholds are what the getters
`getDesktopLODDecreaseFPS`, `getHMDLODDecreaseFPS`, `getDesktopLODIncreaseFPS` and
`getHMDLODIncreaseFPS` of the header return (modelled from the spec: four independent scalar
settings, two modes times two thresholds). `_shouldRenderTable` is the `QMap<float, float>`,
kept as its list of (key, value) pairs in ascending key order. -/
structure State where
  _automaticLODAdjust : Bool
  desktopLODDecreaseFPS : ℚ
  hmdLODDecreaseFPS : ℚ
  desktopLODIncreaseFPS : ℚ
  hmdLODIncreaseFPS : ℚ
  _octreeSizeScale : ℚ
  _boundaryLevelAdjust : Int
  _avatarLODDistanceMultiplier : ℚ
  _lastDownShift : Nat
  _lastUpShift : Nat
  _lastStable : Nat
  _isDownshifting : Bool
  _fpsAverageStartWindow : SimpleMovingAverage
  _fpsAverageDownWindow : SimpleMovingAverage
  _fpsAverageUpWindow : SimpleMovingAverage
  _shouldRenderTableNeedsRebuilding : Bool
  _shouldRenderTable : List (ℚ × ℚ)
deriving DecidableEq, Repr

/-- What one call of `autoAdjustLOD` reads from its environment: the reported frame rate, the
two readings of `usecTimestampNow()` (the first one is only taken during warm-up), whether the
application is in HMD mode, and whether a LOD tools dialog exists. -/
structure Frame where
  currentFPS : ℚ
  warmupClock : Nat
  now : Nat
  isHMDMode : Bool
  hasLodToolsDialog : Bool
deriving DecidableEq, Repr

/-- The Qt signals of `LODManager`. -/
inductive Signal where
  | LODIncreased
  | LODDecreased
deriving DecidableEq, Repr

/-- Result of one call of `autoAdjustLOD`: the new member variables, the signals emitted in
order, and whether `reloadSliders` was called on the LOD tools dialog. -/
structure Outcome where
  state : State
  emitted : List Signal
  slidersReloaded : Bool
deriving DecidableEq, Repr

/-- `LODManager::getLODDecreaseFPS`. -/
def getLODDecreaseFPS (m : State) (isHMDMode : Bool) : ℚ :=
  if isHMDMode then m.hmdLODDecreaseFPS else m.desktopLODDecreaseFPS

/-- `LODManager::getLODIncreaseFPS`. -/
def getLODIncreaseFPS (m : State) (isHMDMode : Bool) : ℚ :=
  if isHMDMode then m.hmdLODIncreaseFPS else m.desktopLODIncreaseFPS

/-- `LODManager::calculateAvatarLODDistanceMultiplier`. -/
def calculateAvatarLODDistanceMultiplier (K : Constants) (m : State) : State :=
  { m with _avatarLODDistanceMultiplier :=
      K.AVATAR_TO_ENTITY_RATIO / (m._octreeSizeScale / K.DEFAULT_OCTREE_SIZE_SCALE) }

/-- `LODManager::setOctreeSizeScale`. -/
def setOctreeSizeScale (K : Constants) (m : State) (sizeScale : ℚ) : State :=
  { calculateAvatarLODDistanceMultiplier K { m with _octreeSizeScale := sizeScale } with
    _shouldRenderTableNeedsRebuilding := true }

/-- `LODManager::setBoundaryLevelAdjust`. -/
def setBoundaryLevelAdjust (m : State) (boundaryLevelAdjust : Int) : State :=
  { m with _boundaryLevelAdjust := boundaryLevelAdjust,
           _shouldRenderTableNeedsRebuilding := true }

/-- `LODManager::resetLODAdjust`, with `clock` the reading of `usecTimestampNow()`. -/
def resetLODAdjust (m : State) (clock : Nat) : State :=
  { m with _fpsAverageStartWindow := m._fpsAverageStartWindow.reset,
           _fpsAverageDownWindow := m._fpsAverageDownWindow.reset,
           _fpsAverageUpWindow := m._fpsAverageUpWindow.reset,
           _lastUpShift := clock, _lastDownShift := clock,
           _isDownshifting := false }

/-- The local constant `IGNORE_THESE_SAMPLES` of `autoAdjustLOD`. -/
def IGNORE_THESE_SAMPLES : Nat := 100

/-- Whether the call is a warm-up call: the condition of the first `if` of `autoAdjustLOD`. -/
def inWarmup (m : State) : Bool :=
  decide (m._fpsAverageUpWindow.getSampleCount < IGNORE_THESE_SAMPLES)

/-- The value of `currentFPS` after the warm-up substitution. -/
def sampleFed (K : Constants) (m : State) (f : Frame) : ℚ :=
  if inWarmup m then K.ASSUMED_FPS else f.currentFPS

/-- First part of `autoAdjustLOD`: the warm-up reset of the three timestamps and the update of
the three windows. -/
def feedWindows (K : Constants) (m : State) (f : Frame) : State :=
  let currentFPS := sampleFed K m f
  let m1 : State :=
    if inWarmup m then
      { m with _lastStable := f.warmupClock, _lastUpShift := f.warmupClock,
               _lastDownShift := f.warmupClock }
    else m
  { m1 with
    _fpsAverageStartWindow := m1._fpsAverageStartWindow.updateAverage K currentFPS,
    _fpsAverageDownWindow := m1._fpsAverageDownWindow.updateAverage K currentFPS,
    _fpsAverageUpWindow := m1._fpsAverageUpWindow.updateAverage K currentFPS }

/-- The local `elapsedSinceDownShift` of `autoAdjustLOD`, from the state after `feedWindows`. -/
def elapsedSinceDownShift (m : State) (now : Nat) : Nat := sub64 now m._lastDownShift

/-- The local `elapsedSinceUpShift` of `autoAdjustLOD`. -/
def elapsedSinceUpShift (m : State) (now : Nat) : Nat := sub64 now m._lastUpShift

/-- The local `elapsedSinceStableOrUpShift` of `autoAdjustLOD`. -/
def elapsedSinceStableOrUpShift (m : State) (now : Nat) : Nat :=
  sub64 now (max m._lastUpShift m._lastStable)

/-- The value of the local `doDownShift` of `autoAdjustLOD` once the down-shift evaluation is
done, from the state after `feedWindows`. -/
def doDownShift (K : Constants) (m : State) (now : Nat) (isHMDMode : Bool) : Bool :=
  if m._isDownshifting then
    if (elapsedSinceDownShift m now : ℚ) > K.DOWN_SHIFT_ELPASED then
      decide (m._fpsAverageDownWindow.getAverage < getLODDecreaseFPS m isHMDMode)
    else false
  else
    decide ((elapsedSinceStableOrUpShift m now : ℚ) > K.START_SHIFT_ELPASED)
      && decide (m._fpsAverageStartWindow.getAverage < getLODDecreaseFPS m isHMDMode)

/-- The state change of the down-shift evaluation: leaving the down-shifting mode when the
cool-down has elapsed and the down window no longer asks for a down-shift. -/
def doneDownShifting (K : Constants) (m : State) (now : Nat) (isHMDMode : Bool) : State :=
  if m._isDownshifting then
    if (elapsedSinceDownShift m now : ℚ) > K.DOWN_SHIFT_ELPASED then
      if !(doDownShift K m now isHMDMode) then
        { m with _isDownshifting := false, _lastStable := now }
      else m
    else m
  else m

/-- The stepwise downward adjustment of `_octreeSizeScale`; the second component is the value
of `changed`. -/
def stepDown (K : Constants) (m : State) : State × Bool :=
  if m._octreeSizeScale > K.ADJUST_LOD_MIN_SIZE_SCALE then
    let scale := m._octreeSizeScale * K.ADJUST_LOD_DOWN_BY
    let scale := if scale < K.ADJUST_LOD_MIN_SIZE_SCALE then K.ADJUST_LOD_MIN_SIZE_SCALE else scale
    ({ m with _octreeSizeScale := scale }, true)
  else (m, false)

/-- The stepwise upward adjustment of `_octreeSizeScale`; the second component is the value
of `changed`. -/
def stepUp (K : Constants) (m : State) : State × Bool :=
  if m._octreeSizeScale < K.ADJUST_LOD_MAX_SIZE_SCALE then
    let scale :=
      if m._octreeSizeScale < K.ADJUST_LOD_MIN_SIZE_SCALE then K.ADJUST_LOD_MIN_SIZE_SCALE
      else m._octreeSizeScale * K.ADJUST_LOD_UP_BY
    let scale := if scale > K.ADJUST_LOD_MAX_SIZE_SCALE then K.ADJUST_LOD_MAX_SIZE_SCALE else scale
    ({ m with _octreeSizeScale := scale }, true)
  else (m, false)

/-- The final `if (changed)` block of `autoAdjustLOD`. -/
def afterChange (K : Constants) (m : State) (emitted : List Signal) (changed : Bool)
    (hasLodToolsDialog : Bool) : Outcome :=
  if changed then
    { state := { calculateAvatarLODDistanceMultiplier K m with
                 _shouldRenderTableNeedsRebuilding := true },
      emitted := emitted,
      slidersReloaded := hasLodToolsDialog }
  else { state := m, emitted := emitted, slidersReloaded := false }

/-- `LODManager::autoAdjustLOD`. -/
def autoAdjustLOD (K : Constants) (m : State) (f : Frame) : Outcome :=
  let m1 := feedWindows K m f
  let now := f.now
  if m1._automaticLODAdjust then
    let down := doDownShift K m1 now f.isHMDMode
    let m2 := doneDownShifting K m1 now f.isHMDMode
    if down then
      let (m3, changed) := stepDown K m2
      if changed then
        afterChange K { m3 with _lastDownShift := now, _isDownshifting := true }
          [Signal.LODDecreased] true f.hasLodToolsDialog
      else afterChange K m3 [] false f.hasLodToolsDialog
    else
      if (elapsedSinceUpShift m1 now : ℚ) > K.UP_SHIFT_ELPASED then
        let (m3, changed) :=
          if m2._fpsAverageUpWindow.getAverage > getLODIncreaseFPS m2 f.isHMDMode then stepUp K m2
          else (m2, false)
        if changed then
          afterChange K { m3 with _lastUpShift := now, _isDownshifting := false }
            [Signal.LODIncreased] true f.hasLodToolsDialog
        else afterChange K m3 [] false f.hasLodToolsDialog
      else afterChange K m2 [] false f.hasLodToolsDialog
  else { state := m1, emitted := [], slidersReloaded := false }

/-- The up-shift trigger of a call: the up cool-down has elapsed and the up window average is
above the increase threshold (both read after the windows were fed). -/
def upShiftTriggers (K : Constants) (m : State) (f : Frame) : Bool :=
  decide ((elapsedSinceUpShift (feedWindows K m f) f.now : ℚ) > K.UP_SHIFT_ELPASED)
    && decide ((feedWindows K m f)._fpsAverageUpWindow.getAverage
        > getLODIncreaseFPS (feedWindows K m f) f.isHMDMode)

/-- The states after each call of a sequence of `autoAdjustLOD` calls, in order. -/
def autoAdjustLODRun (K : Constants) : State → List Frame → List State
  | _, [] => []
  | m, f :: fs => (autoAdjustLOD K m f).state :: autoAdjustLODRun K (autoAdjustLOD K m f).state fs

/-- Sample values of the constants, used to evaluate the definitions on concrete inputs: an
exponentially weighted running average, a scale range of `[1, 6553600]`, and shift factors
`0.9` and `1.1`. -/
def sampleConstants : Constants where
  ADJUST_LOD_MIN_SIZE_SCALE := 1
  ADJUST_LOD_MAX_SIZE_SCALE := 6553600
  ADJUST_LOD_DOWN_BY := 9 / 10
  ADJUST_LOD_UP_BY := 11 / 10
  ASSUMED_FPS := 60
  START_SHIFT_ELPASED := 3000000
  DOWN_SHIFT_ELPASED := 500000
  UP_SHIFT_ELPASED := 2500000
  AVATAR_TO_ENTITY_RATIO := 2
  DEFAULT_OCTREE_SIZE_SCALE := 6553600
  TREE_SCALE := 16384
  incorporate := fun span average numSamples sample =>
    if numSamples = 0 then sample else (1 - 1 / span) * average + (1 / span) * sample

/-- The sample constants with the up factor raised to `5/4`, so that `DOWN * UP ≥ 1`. -/
def recoveringConstants : Constants := { sampleConstants with ADJUST_LOD_UP_BY := 5 / 4 }

/-- A window of the given span holding `n` samples of average `a`. -/
def sampleWindow (span a : ℚ) (n : Nat) : SimpleMovingAverage :=
  { average := a, numSamples := n, span := span }

/-- A sample state: automatic adjustment on, thresholds 15/30 and 30/45 FPS, all timestamps 0,
stable, windows past warm-up with the three given averages, table dirty and empty. -/
def sampleState (scale : ℚ) (downshifting : Bool) (startAvg downAvg upAvg : ℚ) : State where
  _automaticLODAdjust := true
  desktopLODDecreaseFPS := 15
  hmdLODDecreaseFPS := 30
  desktopLODIncreaseFPS := 30
  hmdLODIncreaseFPS := 45
  _octreeSizeScale := scale
  _boundaryLevelAdjust := 0
  _avatarLODDistanceMultiplier := 2 / (scale / 6553600)
  _lastDownShift := 0
  _lastUpShift := 0
  _lastStable := 0
  _isDownshifting := downshifting
  _fpsAverageStartWindow := sampleWindow 180 startAvg 200
  _fpsAverageDownWindow := sampleWindow 30 downAvg 200
  _fpsAverageUpWindow := sampleWindow 150 upAvg 200
  _shouldRenderTableNeedsRebuilding := true
  _shouldRenderTable := []

/-- A sample frame at time `now` reporting `fps` in desktop mode without a tools dialog. -/
def sampleFrame (fps : ℚ) (now : Nat) : Frame where
  currentFPS := fps
  warmupClock := now
  now := now
  isHMDMode := false
  hasLodToolsDialog := false

/-- `_octreeSizeScale` lies in `[ADJUST_LOD_MIN_SIZE_SCALE, ADJUST_LOD_MAX_SIZE_SCALE]`. -/
def scaleInBounds (K : Constants) (m : State) : Prop :=
  K.ADJUST_LOD_MIN_SIZE_SCALE ≤ m._octreeSizeScale ∧
    m._octreeSizeScale ≤ K.ADJUST_LOD_MAX_SIZE_SCALE

instance (K : Constants) (m : State) : Decidable (scaleInBounds K m) := by
  unfold scaleInBounds; infer_instance

/-- The assumptions on the constants: `0 < MIN ≤ MAX` and `0 < DOWN < 1 < UP`. -/
def ConstantsOK (K : Constants) : Prop :=
  0 < K.ADJUST_LOD_MIN_SIZE_SCALE ∧ K.ADJUST_LOD_MIN_SIZE_SCALE ≤ K.ADJUST_LOD_MAX_SIZE_SCALE ∧
    0 < K.ADJUST_LOD_DOWN_BY ∧ K.ADJUST_LOD_DOWN_BY < 1 ∧ 1 < K.ADJUST_LOD_UP_BY

instance (K : Constants) : Decidable (ConstantsOK K) := by
  unfold ConstantsOK; infer_instance

/-- Qt's `QMap<float, float>::operator[]` followed by an assignment, on the list of
(key, value) pairs in ascending key order: the value of an existing key is replaced, a new key
is inserted at its place. -/
def mapInsert : List (ℚ × ℚ) → ℚ → ℚ → List (ℚ × ℚ)
  | [], k, v => [(k, v)]
  | (k', v') :: rest, k, v =>
    if k < k' then (k, v) :: (k', v') :: rest
    else if k = k' then (k, v) :: rest
    else (k', v') :: mapInsert rest k v

/-- Qt's `QMap::lowerBound`: the first item whose key is not less than `key`; `none` stands
for `constEnd()`. -/
def lowerBound (table : List (ℚ × ℚ)) (key : ℚ) : Option (ℚ × ℚ) :=
  table.find? (fun e => decide (key ≤ e.1))

/-- The local `SMALLEST_SCALE_IN_TABLE` of `shouldRender` and `shouldRenderMesh`. -/
def SMALLEST_SCALE_IN_TABLE : ℚ := 1 / 1000

/-- The `while (scale > SMALLEST_SCALE_IN_TABLE)` loop of `shouldRender` and of
`shouldRenderMesh`: each turn halves `scale` and the value that goes with it (the factor, or
the visible distance) and stores the pair in the table. -/
def halvingLoop (scale value : ℚ) (table : List (ℚ × ℚ)) : List (ℚ × ℚ) :=
  if scale > SMALLEST_SCALE_IN_TABLE then
    halvingLoop (scale / 2) (value / 2) (mapInsert table (scale / 2) (value / 2))
  else table
termination_by ⌈scale * 1000⌉₊
decreasing_by
  rename_i h
  unfold SMALLEST_SCALE_IN_TABLE at h
  rw [Nat.lt_ceil]
  by_cases h2 : scale * 1000 < 2
  · have : ⌈scale / 2 * 1000⌉₊ ≤ 1 := by
      rw [Nat.ceil_le]; push_cast; linarith
    have h3 : ((⌈scale / 2 * 1000⌉₊ : ℕ) : ℚ) ≤ 1 := by exact_mod_cast this
    linarith
  · have h3 := Nat.ceil_lt_add_one (show (0 : ℚ) ≤ scale / 2 * 1000 by linarith)
    linarith

/-- The local `visibleDistanceAtMaxScale` of `shouldRender` and `shouldRenderMesh`;
`boundaryDistanceForRenderLevel` is the octree library function of that name, and
`octreeToMeshRatio` is `4.0f`. -/
def visibleDistanceAtMaxScale (boundaryDistanceForRenderLevel : Int → ℚ → ℚ)
    (boundaryLevelAdjust : Int) (octreeSizeScale : ℚ) : ℚ :=
  boundaryDistanceForRenderLevel boundaryLevelAdjust octreeSizeScale / 4

/-- The lookup of `shouldRenderMesh`: `closestScale` and `visibleDistanceAtClosestScale`
before the correction. -/
def closestMeshEntry (table : List (ℚ × ℚ)) (maxScale visibleDistanceAtMaxScale
    largestDimension : ℚ) : ℚ × ℚ :=
  match lowerBound table largestDimension with
  | some e => (e.1, e.2)
  | none => (maxScale, visibleDistanceAtMaxScale)

/-- The lookup of `shouldRender`: `closestScale` and `visibleDistanceAtClosestScale` before
the correction; the table holds factors, multiplied by `visibleDistanceAtMaxScale`. -/
def closestFactorEntry (table : List (ℚ × ℚ)) (maxScale visibleDistanceAtMaxScale
    largestDimension : ℚ) : ℚ × ℚ :=
  match lowerBound table largestDimension with
  | some e => (e.1, visibleDistanceAtMaxScale * e.2)
  | none => (maxScale, visibleDistanceAtMaxScale)

/-- The correction `if (closestScale < largestDimension) visibleDistanceAtClosestScale *= 2`
applied to a looked-up pair. -/
def correctedVisibleDistance (e : ℚ × ℚ) (largestDimension : ℚ) : ℚ :=
  if e.1 < largestDimension then e.2 * 2 else e.2

/-- `LODManager::shouldRenderMesh`: the returned boolean and the member variables after the
call. The getters `getOctreeSizeScale` and `getBoundaryLevelAdjust` read the member
variables. -/
def shouldRenderMesh (K : Constants) (boundaryDistanceForRenderLevel : Int → ℚ → ℚ)
    (m : State) (largestDimension distanceToCamera : ℚ) : Bool × State :=
  let octreeSizeScale := m._octreeSizeScale
  let boundaryLevelAdjust := m._boundaryLevelAdjust
  let maxScale := K.TREE_SCALE
  let visibleDistanceAtMaxScale :=
    visibleDistanceAtMaxScale boundaryDistanceForRenderLevel boundaryLevelAdjust octreeSizeScale
  let m1 : State :=
    if m._shouldRenderTableNeedsRebuilding then
      { m with _shouldRenderTable := halvingLoop maxScale visibleDistanceAtMaxScale [],
               _shouldRenderTableNeedsRebuilding := false }
    else m
  let e := closestMeshEntry m1._shouldRenderTable maxScale visibleDistanceAtMaxScale
    largestDimension
  (decide (distanceToCamera ≤ correctedVisibleDistance e largestDimension), m1)

/-- The function-local statics of `shouldRender`. -/
structure ShouldRenderStatics where
  shouldRenderTableNeedsBuilding : Bool
  shouldRenderTable : List (ℚ × ℚ)
deriving DecidableEq, Repr

/-- The statics of `shouldRender` before its first call. -/
def ShouldRenderStatics.initial : ShouldRenderStatics :=
  { shouldRenderTableNeedsBuilding := true, shouldRenderTable := [] }

/-- `LODManager::shouldRender`: the returned boolean and the statics after the call. The
arguments are `args->_sizeScale`, `args->_boundaryLevelAdjust`, and the two values the function
computes from `bounds` and the view frustum with the vector library, `largestDimension` and
`distanceToCamera`. -/
def shouldRender (K : Constants) (boundaryDistanceForRenderLevel : Int → ℚ → ℚ)
    (st : ShouldRenderStatics) (sizeScale : ℚ) (boundaryLevelAdjust : Int)
    (largestDimension distanceToCamera : ℚ) : Bool × ShouldRenderStatics :=
  let maxScale := K.TREE_SCALE
  let visibleDistanceAtMaxScale :=
    visibleDistanceAtMaxScale boundaryDistanceForRenderLevel boundaryLevelAdjust sizeScale
  let st1 : ShouldRenderStatics :=
    if st.shouldRenderTableNeedsBuilding then
      { shouldRenderTable := halvingLoop maxScale 1 st.shouldRenderTable,
        shouldRenderTableNeedsBuilding := false }
    else st
  let e := closestFactorEntry st1.shouldRenderTable maxScale visibleDistanceAtMaxScale
    largestDimension
  (decide (distanceToCamera ≤ correctedVisibleDistance e largestDimension), st1)

/-- One call on the `LODManager` object, with its arguments. -/
inductive Call where
  | setOctreeSizeScale (sizeScale : ℚ)
  | setBoundaryLevelAdjust (boundaryLevelAdjust : Int)
  | autoAdjustLOD (f : Frame)
  | shouldRenderMesh (largestDimension distanceToCamera : ℚ)
deriving DecidableEq, Repr

/-- The member variables after one call. -/
def applyCall (K : Constants) (boundaryDistanceForRenderLevel : Int → ℚ → ℚ) (m : State) :
    Call → State
  | Call.setOctreeSizeScale x => setOctreeSizeScale K m x
  | Call.setBoundaryLevelAdjust b => setBoundaryLevelAdjust m b
  | Call.autoAdjustLOD f => (autoAdjustLOD K m f).state
  | Call.shouldRenderMesh ld d => (shouldRenderMesh K boundaryDistanceForRenderLevel m ld d).2

/-- The member variables after a sequence of calls. -/
def applyCalls (K : Constants) (boundaryDistanceForRenderLevel : Int → ℚ → ℚ) :
    State → List Call → State
  | m, [] => m
  | m, c :: cs =>
    applyCalls K boundaryDistanceForRenderLevel (applyCall K boundaryDistanceForRenderLevel m c) cs

/-- The table a rebuild produces from the current scale and boundary level adjust. -/
def freshTable (K : Constants) (boundaryDistanceForRenderLevel : Int → ℚ → ℚ) (m : State) :
    List (ℚ × ℚ) :=
  halvingLoop K.TREE_SCALE
    (visibleDistanceAtMaxScale boundaryDistanceForRenderLevel m._boundaryLevelAdjust
      m._octreeSizeScale) []

/-- The cached table is usable: whenever the dirty flag is clear, the table is the one a
rebuild would produce from the current scale and boundary level adjust. -/
def TableInv (K : Constants) (boundaryDistanceForRenderLevel : Int → ℚ → ℚ) (m : State) : Prop :=
  m._shouldRenderTableNeedsRebuilding = false →
    m._shouldRenderTable = freshTable K boundaryDistanceForRenderLevel m

/-- The statics of `shouldRender` are as some sequence of calls leaves them: not built yet and
empty, or built from the world scale. -/
def StaticsInv (K : Constants) (st : ShouldRenderStatics) : Prop :=
  (st.shouldRenderTableNeedsBuilding = true ∧ st.shouldRenderTable = [])
    ∨ (st.shouldRenderTableNeedsBuilding = false
        ∧ st.shouldRenderTable = halvingLoop K.TREE_SCALE 1 [])

/-- The number of turns of the halving loop from `scale`. -/
def halvings (scale : ℚ) : Nat :=
  if scale > SMALLEST_SCALE_IN_TABLE then halvings (scale / 2) + 1 else 0
termination_by ⌈scale * 1000⌉₊
decreasing_by
  rename_i h
  unfold SMALLEST_SCALE_IN_TABLE at h
  rw [Nat.lt_ceil]
  by_cases h2 : scale * 1000 < 2
  · have : ⌈scale / 2 * 1000⌉₊ ≤ 1 := by
      rw [Nat.ceil_le]; push_cast; linarith
    have h3 : ((⌈scale / 2 * 1000⌉₊ : ℕ) : ℚ) ≤ 1 := by exact_mod_cast this
    linarith
  · have h3 := Nat.ceil_lt_add_one (show (0 : ℚ) ≤ scale / 2 * 1000 by linarith)
    linarith

/-- The pairs `(scale / 2 ^ k, value / 2 ^ k)` for `k = n, ..., 1`, in this order. -/
def halvedPairs : Nat → ℚ → ℚ → List (ℚ × ℚ)
  | 0, _, _ => []
  | n + 1, scale, value => halvedPairs n (scale / 2) (value / 2) ++ [(scale / 2, value / 2)]

/-- A sample `boundaryDistanceForRenderLevel`: the size scale halved once per render level. -/
def sampleBoundaryDistance (renderLevel : Int) (voxelSizeScale : ℚ) : ℚ :=
  voxelSizeScale / 2 ^ renderLevel.toNat

/-- A sample controller in warm-up: scale 1 (the sample minimum), stable, every window holding
5 samples of 60 FPS, and a desktop decrease threshold of 100 FPS. -/
def sampleWarmupState : State :=
  { sampleState 1 false 60 60 60 with
    desktopLODDecreaseFPS := 100
    _fpsAverageStartWindow := sampleWindow 180 60 5
    _fpsAverageDownWindow := sampleWindow 30 60 5
    _fpsAverageUpWindow := sampleWindow 150 60 5 }

/-- A sample frame whose two clock readings are four seconds apart: 7 s at the warm-up
reading, 11 s at the second one. -/
def sampleStalledFrame : Frame :=
  { sampleFrame 60 11000000 with warmupClock := 7000000 }

/-- `LODManager::LODManager`: the constructor body runs on the member variables as their
initialisers leave them, `init`. -/
def construct (K : Constants) (init : State) : State :=
  calculateAvatarLODDistanceMultiplier K init

/-- The avatar distance multiplier is the one computed from the current scale. -/
def MultiplierInv (K : Constants) (m : State) : Prop :=
  m._avatarLODDistanceMultiplier
    = K.AVATAR_TO_ENTITY_RATIO / (m._octreeSizeScale / K.DEFAULT_OCTREE_SIZE_SCALE)

instance (K : Constants) (m : State) : Decidable (MultiplierInv K m) := by
  unfold MultiplierInv; infer_instance

/-- The sample state with the three timestamps given: `_lastDownShift`, `_lastUpShift` and
`_lastStable`, in this order. -/
def sampleTimedState (scale : ℚ) (downshifting : Bool) (startAvg downAvg upAvg : ℚ)
    (tDown tUp tStable : Nat) : State :=
  { sampleState scale downshifting startAvg downAvg upAvg with
    _lastDownShift := tDown
    _lastUpShift := tUp
    _lastStable := tStable }

/-- A sample frame at time `now` reporting `fps` in HMD mode without a tools dialog. -/
def sampleHMDFrame (fps : ℚ) (now : Nat) : Frame :=
  { sampleFrame fps now with isHMDMode := true }

end LODManager

/-! Physics actions: `libraries/physics/src/ObjectAction.cpp`.

Vectors have rational components. The Bullet rigid body is kept by value inside the owner
entity, so a setter returns the action with the body replaced. -/

/-- A vector of three components: `glm::vec3`, and Bullet's `btVector3`. -/
structure Vec3 where
  x : ℚ
  y : ℚ
  z : ℚ
deriving DecidableEq, Repr

/-- The vector `glm::vec3(0.0f)`. -/
def Vec3.zero : Vec3 := { x := 0, y := 0, z := 0 }

/-- The conversions `glmToBullet` and `bulletToGLM` between the two vector types, declared in
`BulletUtil.h`. -/
structure BulletUtil where
  glmToBullet : Vec3 → Vec3
  bulletToGLM : Vec3 → Vec3

/-- Sample conversions: the components are copied. -/
def BulletUtil.componentwise : BulletUtil :=
  { glmToBullet := fun v => v, bulletToGLM := fun v => v }

/-- The part of Bullet's `btRigidBody` the velocity accessors touch: the two velocities and
whether the body is active. -/
structure btRigidBody where
  linearVelocity : Vec3
  angularVelocity : Vec3
  active : Bool
deriving DecidableEq, Repr

/-- `btRigidBody::setLinearVelocity`. -/
def btRigidBody.setLinearVelocity (b : btRigidBody) (v : Vec3) : btRigidBody :=
  { b with linearVelocity := v }

/-- `btRigidBody::setAngularVelocity`. -/
def btRigidBody.setAngularVelocity (b : btRigidBody) (v : Vec3) : btRigidBody :=
  { b with angularVelocity := v }

/-- `btRigidBody::getLinearVelocity`. -/
def btRigidBody.getLinearVelocity (b : btRigidBody) : Vec3 := b.linearVelocity

/-- `btRigidBody::getAngularVelocity`. -/
def btRigidBody.getAngularVelocity (b : btRigidBody) : Vec3 := b.angularVelocity

/-- `btRigidBody::activate`. -/
def btRigidBody.activate (b : btRigidBody) : btRigidBody := { b with active := true }

/-- The motion state an entity's physics info points to; `body` is what its `getRigidBody`
returns, `none` for a null pointer. -/
structure ObjectMotionState where
  body : Option btRigidBody
deriving DecidableEq, Repr

/-- The owner entity of an action; `physicsInfo` is what `getPhysicsInfo` returns, `none` for
a null pointer. -/
structure EntityItem where
  physicsInfo : Option ObjectMotionState
deriving DecidableEq, Repr

/-- The member variables of `ObjectAction`; `_ownerEntity` is `none` for a null pointer. -/
structure ObjectAction where
  _id : Nat
  _active : Bool
  _ownerEntity : Option EntityItem
deriving DecidableEq, Repr

namespace ObjectAction

/-- `ObjectAction::getRigidBody`. -/
def getRigidBody (a : ObjectAction) : Option btRigidBody :=
  match a._ownerEntity with
  | none => none
  | some ownerEntity =>
    match ownerEntity.physicsInfo with
    | none => none
    | some motionState => motionState.body

/-- The action after the rigid body that `getRigidBody` returns has been changed through the
pointer; an action without a rigid body is unchanged. -/
def updateRigidBody (a : ObjectAction) (f : btRigidBody → btRigidBody) : ObjectAction :=
  match a._ownerEntity with
  | none => a
  | some ownerEntity =>
    match ownerEntity.physicsInfo with
    | none => a
    | some motionState =>
      let motionState1 : ObjectMotionState := { body := motionState.body.map f }
      let ownerEntity1 : EntityItem := { physicsInfo := some motionState1 }
      { a with _ownerEntity := some ownerEntity1 }

/-- `ObjectAction::getLinearVelocity`. -/
def getLinearVelocity (U : BulletUtil) (a : ObjectAction) : Vec3 :=
  match a.getRigidBody with
  | none => Vec3.zero
  | some rigidBody => U.bulletToGLM rigidBody.getLinearVelocity

/-- `ObjectAction::setLinearVelocity`: the body's linear velocity is set to the converted zero
vector, whatever `linearVelocity` is, and the body is activated. -/
def setLinearVelocity (U : BulletUtil) (a : ObjectAction) (_linearVelocity : Vec3) :
    ObjectAction :=
  match a.getRigidBody with
  | none => a
  | some _ =>
    a.updateRigidBody (fun rigidBody =>
      (rigidBody.setLinearVelocity (U.glmToBullet Vec3.zero)).activate)

/-- `ObjectAction::getAngularVelocity`. -/
def getAngularVelocity (U : BulletUtil) (a : ObjectAction) : Vec3 :=
  match a.getRigidBody with
  | none => Vec3.zero
  | some rigidBody => U.bulletToGLM rigidBody.getAngularVelocity

/-- `ObjectAction::setAngularVelocity`. -/
def setAngularVelocity (U : BulletUtil) (a : ObjectAction) (angularVelocity : Vec3) :
    ObjectAction :=
  match a.getRigidBody with
  | none => a
  | some _ =>
    a.updateRigidBody (fun rigidBody =>
      (rigidBody.setAngularVelocity (U.glmToBullet angularVelocity)).activate)

/-- A sample action whose owner entity has a rigid body at rest, not active. -/
def sampleAction : ObjectAction :=
  { _id := 1, _active := true,
    _ownerEntity := some (EntityItem.mk (some (ObjectMotionState.mk (some
      (btRigidBody.mk Vec3.zero Vec3.zero false))))) }

end ObjectAction

namespace LODManager

theorem sampleConstants_ok : ConstantsOK sampleConstants := by
  unfold ConstantsOK sampleConstants; norm_num

theorem recoveringConstants_ok : ConstantsOK recoveringConstants := by
  unfold ConstantsOK recoveringConstants sampleConstants; norm_num

/-! ## Frame lemmas for the parts of `autoAdjustLOD` -/

@[simp] theorem feedWindows_scale (K : Constants) (m : State) (f : Frame) :
    (feedWindows K m f)._octreeSizeScale = m._octreeSizeScale := by
  unfold feedWindows; split_ifs <;> rfl

@[simp] theorem feedWindows_auto (K : Constants) (m : State) (f : Frame) :
    (feedWindows K m f)._automaticLODAdjust = m._automaticLODAdjust := by
  unfold feedWindows; split_ifs <;> rfl

@[simp] theorem feedWindows_isDownshifting (K : Constants) (m : State) (f : Frame) :
    (feedWindows K m f)._isDownshifting = m._isDownshifting := by
  unfold feedWindows; split_ifs <;> rfl

@[simp] theorem feedWindows_multiplier (K : Constants) (m : State) (f : Frame) :
    (feedWindows K m f)._avatarLODDistanceMultiplier = m._avatarLODDistanceMultiplier := by
  unfold feedWindows; split_ifs <;> rfl

@[simp] theorem feedWindows_dirty (K : Constants) (m : State) (f : Frame) :
    (feedWindows K m f)._shouldRenderTableNeedsRebuilding
      = m._shouldRenderTableNeedsRebuilding := by
  unfold feedWindows; split_ifs <;> rfl

@[simp] theorem doneDownShifting_scale (K : Constants) (m : State) (now : Nat) (h : Bool) :
    (doneDownShifting K m now h)._octreeSizeScale = m._octreeSizeScale := by
  unfold doneDownShifting; split_ifs <;> rfl

@[simp] theorem doneDownShifting_dirty (K : Constants) (m : State) (now : Nat) (h : Bool) :
    (doneDownShifting K m now h)._shouldRenderTableNeedsRebuilding
      = m._shouldRenderTableNeedsRebuilding := by
  unfold doneDownShifting; split_ifs <;> rfl

@[simp] theorem doneDownShifting_lastUpShift (K : Constants) (m : State) (now : Nat) (h : Bool) :
    (doneDownShifting K m now h)._lastUpShift = m._lastUpShift := by
  unfold doneDownShifting; split_ifs <;> rfl

@[simp] theorem doneDownShifting_lastDownShift (K : Constants) (m : State) (now : Nat)
    (h : Bool) : (doneDownShifting K m now h)._lastDownShift = m._lastDownShift := by
  unfold doneDownShifting; split_ifs <;> rfl

@[simp] theorem doneDownShifting_upWindow (K : Constants) (m : State) (now : Nat) (h : Bool) :
    (doneDownShifting K m now h)._fpsAverageUpWindow = m._fpsAverageUpWindow := by
  unfold doneDownShifting; split_ifs <;> rfl

@[simp] theorem doneDownShifting_increaseFPS (K : Constants) (m : State) (now : Nat)
    (h g : Bool) :
    getLODIncreaseFPS (doneDownShifting K m now h) g = getLODIncreaseFPS m g := by
  unfold doneDownShifting getLODIncreaseFPS; split_ifs <;> rfl

/-- The scale after the downward step. -/
theorem stepDown_scale (K : Constants) (m : State) :
    (stepDown K m).1._octreeSizeScale =
      if m._octreeSizeScale > K.ADJUST_LOD_MIN_SIZE_SCALE then
        max (m._octreeSizeScale * K.ADJUST_LOD_DOWN_BY) K.ADJUST_LOD_MIN_SIZE_SCALE
      else m._octreeSizeScale := by
  unfold stepDown
  by_cases h1 : m._octreeSizeScale > K.ADJUST_LOD_MIN_SIZE_SCALE
  · by_cases h2 : m._octreeSizeScale * K.ADJUST_LOD_DOWN_BY < K.ADJUST_LOD_MIN_SIZE_SCALE
    · simp [h1, h2, max_eq_right (le_of_lt h2)]
    · simp [h1, h2, max_eq_left (not_lt.mp h2)]
  · simp [h1]

theorem stepDown_changed (K : Constants) (m : State) :
    (stepDown K m).2 = decide (m._octreeSizeScale > K.ADJUST_LOD_MIN_SIZE_SCALE) := by
  unfold stepDown
  split_ifs with h1 <;> simp [h1]

/-- The scale after the upward step. -/
theorem stepUp_scale (K : Constants) (m : State) :
    (stepUp K m).1._octreeSizeScale =
      if m._octreeSizeScale < K.ADJUST_LOD_MAX_SIZE_SCALE then
        min (if m._octreeSizeScale < K.ADJUST_LOD_MIN_SIZE_SCALE then K.ADJUST_LOD_MIN_SIZE_SCALE
          else m._octreeSizeScale * K.ADJUST_LOD_UP_BY) K.ADJUST_LOD_MAX_SIZE_SCALE
      else m._octreeSizeScale := by
  unfold stepUp
  by_cases h1 : m._octreeSizeScale < K.ADJUST_LOD_MAX_SIZE_SCALE
  · by_cases h2 : m._octreeSizeScale < K.ADJUST_LOD_MIN_SIZE_SCALE
    · by_cases h3 : K.ADJUST_LOD_MIN_SIZE_SCALE > K.ADJUST_LOD_MAX_SIZE_SCALE
      · simp [h1, h2, h3, min_eq_right (le_of_lt h3)]
      · simp [h1, h2, h3, min_eq_left (not_lt.mp h3)]
    · by_cases h3 : m._octreeSizeScale * K.ADJUST_LOD_UP_BY > K.ADJUST_LOD_MAX_SIZE_SCALE
      · simp [h1, h2, h3, min_eq_right (le_of_lt h3)]
      · simp [h1, h2, h3, min_eq_left (not_lt.mp h3)]
  · simp [h1]

theorem stepUp_changed (K : Constants) (m : State) :
    (stepUp K m).2 = decide (m._octreeSizeScale < K.ADJUST_LOD_MAX_SIZE_SCALE) := by
  unfold stepUp
  split_ifs with h1 <;> simp [h1]

@[simp] theorem afterChange_scale (K : Constants) (m : State) (e : List Signal) (c d : Bool) :
    (afterChange K m e c d).state._octreeSizeScale = m._octreeSizeScale := by
  unfold afterChange calculateAvatarLODDistanceMultiplier; split_ifs <;> rfl

@[simp] theorem afterChange_emitted (K : Constants) (m : State) (e : List Signal) (c d : Bool) :
    (afterChange K m e c d).emitted = e := by
  unfold afterChange; split_ifs <;> rfl

theorem doneDownShifting_of_doDownShift (K : Constants) (m : State) (now : Nat) (h : Bool)
    (hd : doDownShift K m now h = true) : doneDownShifting K m now h = m := by
  unfold doneDownShifting; simp [hd]

/-! ## The five paths through `autoAdjustLOD` -/

/-- Automatic adjustment off: only the windows (and warm-up timestamps) are touched. -/
theorem autoAdjustLOD_disabled (K : Constants) (m : State) (f : Frame)
    (ha : m._automaticLODAdjust = false) :
    autoAdjustLOD K m f = { state := feedWindows K m f, emitted := [], slidersReloaded := false } := by
  unfold autoAdjustLOD; simp [ha]

/-- Down-shift requested above the floor: the scale is stepped down. -/
theorem autoAdjustLOD_down (K : Constants) (m : State) (f : Frame)
    (ha : m._automaticLODAdjust = true)
    (hd : doDownShift K (feedWindows K m f) f.now f.isHMDMode = true)
    (hs : m._octreeSizeScale > K.ADJUST_LOD_MIN_SIZE_SCALE) :
    autoAdjustLOD K m f =
      afterChange K { (stepDown K (feedWindows K m f)).1 with
                      _lastDownShift := f.now, _isDownshifting := true }
        [Signal.LODDecreased] true f.hasLodToolsDialog := by
  have hc : (stepDown K (feedWindows K m f)).2 = true := by
    rw [stepDown_changed]; simpa using hs
  unfold autoAdjustLOD
  simp [ha, hd, doneDownShifting_of_doDownShift, hc]

/-- Down-shift requested at or below the floor: nothing happens. -/
theorem autoAdjustLOD_down_floor (K : Constants) (m : State) (f : Frame)
    (ha : m._automaticLODAdjust = true)
    (hd : doDownShift K (feedWindows K m f) f.now f.isHMDMode = true)
    (hs : m._octreeSizeScale ≤ K.ADJUST_LOD_MIN_SIZE_SCALE) :
    autoAdjustLOD K m f =
      { state := feedWindows K m f, emitted := [], slidersReloaded := false } := by
  have hc : stepDown K (feedWindows K m f) = (feedWindows K m f, false) := by
    unfold stepDown; simp [not_lt.mpr hs]
  unfold autoAdjustLOD
  simp [ha, hd, doneDownShifting_of_doDownShift, hc, afterChange]

/-- No down-shift requested, up-shift triggered below the ceiling: the scale is stepped up. -/
theorem autoAdjustLOD_up (K : Constants) (m : State) (f : Frame)
    (ha : m._automaticLODAdjust = true)
    (hd : doDownShift K (feedWindows K m f) f.now f.isHMDMode = false)
    (hu : upShiftTriggers K m f = true)
    (hs : m._octreeSizeScale < K.ADJUST_LOD_MAX_SIZE_SCALE) :
    autoAdjustLOD K m f =
      afterChange K { (stepUp K (doneDownShifting K (feedWindows K m f) f.now f.isHMDMode)).1 with
                      _lastUpShift := f.now, _isDownshifting := false }
        [Signal.LODIncreased] true f.hasLodToolsDialog := by
  have hc : (stepUp K (doneDownShifting K (feedWindows K m f) f.now f.isHMDMode)).2 = true := by
    rw [stepUp_changed]; simpa using hs
  unfold upShiftTriggers at hu
  simp only [Bool.and_eq_true, decide_eq_true_eq] at hu
  unfold autoAdjustLOD
  simp [ha, hd, hc, hu.1, hu.2]

/-- No down-shift requested and no up-shift possible: only the down-shift evaluation may have
left the down-shifting mode. -/
theorem autoAdjustLOD_idle (K : Constants) (m : State) (f : Frame)
    (ha : m._automaticLODAdjust = true)
    (hd : doDownShift K (feedWindows K m f) f.now f.isHMDMode = false)
    (hu : upShiftTriggers K m f = false ∨ K.ADJUST_LOD_MAX_SIZE_SCALE ≤ m._octreeSizeScale) :
    autoAdjustLOD K m f =
      { state := doneDownShifting K (feedWindows K m f) f.now f.isHMDMode,
        emitted := [], slidersReloaded := false } := by
  unfold upShiftTriggers at hu
  unfold autoAdjustLOD
  simp only [feedWindows_auto, ha, hd, if_true]
  by_cases h1 : (elapsedSinceUpShift (feedWindows K m f) f.now : ℚ) > K.UP_SHIFT_ELPASED
  · by_cases h2 : (feedWindows K m f)._fpsAverageUpWindow.getAverage
        > getLODIncreaseFPS (feedWindows K m f) f.isHMDMode
    · have h3 : K.ADJUST_LOD_MAX_SIZE_SCALE ≤ m._octreeSizeScale := by
        rcases hu with hu | hu
        · simp [h1, h2] at hu
        · exact hu
      have hc : stepUp K (doneDownShifting K (feedWindows K m f) f.now f.isHMDMode)
          = (doneDownShifting K (feedWindows K m f) f.now f.isHMDMode, false) := by
        unfold stepUp; simp [not_lt.mpr h3]
      simp [h1, h2, hc, afterChange]
    · simp [h1, h2, afterChange]
  · simp [h1, afterChange]

@[simp] theorem afterChange_dirty (K : Constants) (m : State) (e : List Signal) (c d : Bool) :
    (afterChange K m e c d).state._shouldRenderTableNeedsRebuilding
      = (c || m._shouldRenderTableNeedsRebuilding) := by
  unfold afterChange calculateAvatarLODDistanceMultiplier; cases c <;> simp

@[simp] theorem afterChange_isDownshifting (K : Constants) (m : State) (e : List Signal)
    (c d : Bool) : (afterChange K m e c d).state._isDownshifting = m._isDownshifting := by
  unfold afterChange calculateAvatarLODDistanceMultiplier; split_ifs <;> rfl

@[simp] theorem afterChange_lastDownShift (K : Constants) (m : State) (e : List Signal)
    (c d : Bool) : (afterChange K m e c d).state._lastDownShift = m._lastDownShift := by
  unfold afterChange calculateAvatarLODDistanceMultiplier; split_ifs <;> rfl

@[simp] theorem afterChange_lastUpShift (K : Constants) (m : State) (e : List Signal)
    (c d : Bool) : (afterChange K m e c d).state._lastUpShift = m._lastUpShift := by
  unfold afterChange calculateAvatarLODDistanceMultiplier; split_ifs <;> rfl

@[simp] theorem afterChange_lastStable (K : Constants) (m : State) (e : List Signal)
    (c d : Bool) : (afterChange K m e c d).state._lastStable = m._lastStable := by
  unfold afterChange calculateAvatarLODDistanceMultiplier; split_ifs <;> rfl

/-- Summary of one call: either nothing about the scale changes and nothing is emitted, or the
call is a down-shift, or it is an up-shift. -/
theorem autoAdjustLOD_cases (K : Constants) (m : State) (f : Frame) :
    ((autoAdjustLOD K m f).state._octreeSizeScale = m._octreeSizeScale
        ∧ (autoAdjustLOD K m f).emitted = []
        ∧ (autoAdjustLOD K m f).state._shouldRenderTableNeedsRebuilding
            = m._shouldRenderTableNeedsRebuilding)
    ∨ (m._automaticLODAdjust = true
        ∧ doDownShift K (feedWindows K m f) f.now f.isHMDMode = true
        ∧ m._octreeSizeScale > K.ADJUST_LOD_MIN_SIZE_SCALE
        ∧ (autoAdjustLOD K m f).state._octreeSizeScale
            = max (m._octreeSizeScale * K.ADJUST_LOD_DOWN_BY) K.ADJUST_LOD_MIN_SIZE_SCALE
        ∧ (autoAdjustLOD K m f).emitted = [Signal.LODDecreased]
        ∧ (autoAdjustLOD K m f).state._shouldRenderTableNeedsRebuilding = true)
    ∨ (m._automaticLODAdjust = true
        ∧ doDownShift K (feedWindows K m f) f.now f.isHMDMode = false
        ∧ upShiftTriggers K m f = true
        ∧ m._octreeSizeScale < K.ADJUST_LOD_MAX_SIZE_SCALE
        ∧ (autoAdjustLOD K m f).state._octreeSizeScale
            = min (if m._octreeSizeScale < K.ADJUST_LOD_MIN_SIZE_SCALE
                    then K.ADJUST_LOD_MIN_SIZE_SCALE
                    else m._octreeSizeScale * K.ADJUST_LOD_UP_BY) K.ADJUST_LOD_MAX_SIZE_SCALE
        ∧ (autoAdjustLOD K m f).emitted = [Signal.LODIncreased]
        ∧ (autoAdjustLOD K m f).state._shouldRenderTableNeedsRebuilding = true) := by
  cases ha : m._automaticLODAdjust
  · left
    rw [autoAdjustLOD_disabled K m f ha]; simp
  · cases hd : doDownShift K (feedWindows K m f) f.now f.isHMDMode
    · by_cases hu : upShiftTriggers K m f = true
          ∧ m._octreeSizeScale < K.ADJUST_LOD_MAX_SIZE_SCALE
      · right; right
        rw [autoAdjustLOD_up K m f ha hd hu.1 hu.2]
        simp [stepUp_scale, hu.1, hu.2]
      · left
        have hu2 : upShiftTriggers K m f = false
            ∨ K.ADJUST_LOD_MAX_SIZE_SCALE ≤ m._octreeSizeScale := by
          by_cases h : upShiftTriggers K m f = true
          · right; exact not_lt.mp (fun h2 => hu ⟨h, h2⟩)
          · left; simpa using h
        rw [autoAdjustLOD_idle K m f ha hd hu2]; simp
    · by_cases hs : m._octreeSizeScale > K.ADJUST_LOD_MIN_SIZE_SCALE
      · right; left
        rw [autoAdjustLOD_down K m f ha hd hs]
        simp [stepDown_scale, hs]
      · left
        rw [autoAdjustLOD_down_floor K m f ha hd (not_lt.mp hs)]; simp

/-- One call keeps the scale within its bounds. -/
theorem autoAdjustLOD_preserves_bounds (K : Constants) (hK : ConstantsOK K) (m : State)
    (hm : scaleInBounds K m) (f : Frame) : scaleInBounds K (autoAdjustLOD K m f).state := by
  obtain ⟨hmin, hle, hd0, hd1, hu1⟩ := hK
  obtain ⟨h1, h2⟩ := hm
  unfold scaleInBounds
  rcases autoAdjustLOD_cases K m f with h | h | h
  · rw [h.1]; exact ⟨h1, h2⟩
  · obtain ⟨-, -, hs, he, -, -⟩ := h
    rw [he]
    refine ⟨le_max_right _ _, max_le ?_ hle⟩
    have hpos : 0 < m._octreeSizeScale := lt_of_lt_of_le hmin h1
    nlinarith
  · obtain ⟨-, -, -, hs, he, -, -⟩ := h
    rw [he, if_neg (not_lt.mpr h1)]
    refine ⟨le_min ?_ hle, min_le_right _ _⟩
    have hpos : 0 < m._octreeSizeScale := lt_of_lt_of_le hmin h1
    nlinarith

/-- C1: with `0 < MIN ≤ MAX` and `0 < DOWN < 1 < UP`, from any state whose scale lies in
`[MIN, MAX]` one call of `autoAdjustLOD` (any frame rate, clock readings, window contents,
thresholds and automatic-adjust flag) leaves the scale in `[MIN, MAX]`, and so does every call
of any sequence of calls. -/
theorem autoAdjustLOD_scale_bounded (K : Constants) (hK : ConstantsOK K) (m : State)
    (hm : scaleInBounds K m) :
    (∀ f : Frame, scaleInBounds K (autoAdjustLOD K m f).state)
      ∧ ∀ fs : List Frame, ∀ m' ∈ autoAdjustLODRun K m fs, scaleInBounds K m' := by
  refine ⟨autoAdjustLOD_preserves_bounds K hK m hm, ?_⟩
  intro fs
  induction fs generalizing m with
  | nil => intro m' h; simp [autoAdjustLODRun] at h
  | cons f fs ih =>
    intro m' h
    simp only [autoAdjustLODRun, List.mem_cons] at h
    rcases h with h | h
    · rw [h]; exact autoAdjustLOD_preserves_bounds K hK m hm f
    · exact ih _ (autoAdjustLOD_preserves_bounds K hK m hm f) m' h

/-- C1 on concrete inputs: constants `sampleConstants`, a stable state of scale 100 whose
windows average 10 FPS, and two frames at 4 s and 5 s. -/
theorem autoAdjustLOD_scale_bounded_witness :
    ConstantsOK sampleConstants ∧ scaleInBounds sampleConstants (sampleState 100 false 10 10 10)
      ∧ ((∀ f : Frame, scaleInBounds sampleConstants
            (autoAdjustLOD sampleConstants (sampleState 100 false 10 10 10) f).state)
        ∧ ∀ fs : List Frame,
            ∀ m' ∈ autoAdjustLODRun sampleConstants (sampleState 100 false 10 10 10) fs,
              scaleInBounds sampleConstants m') :=
  ⟨sampleConstants_ok, by norm_num [scaleInBounds, sampleState, sampleConstants],
    autoAdjustLOD_scale_bounded sampleConstants sampleConstants_ok
      (sampleState 100 false 10 10 10)
      (by norm_num [scaleInBounds, sampleState, sampleConstants])⟩

/-- C2 fails as stated: `setOctreeSizeScale 0` stores 0, below the minimum 1. -/
theorem setter_stores_out_of_range_scale :
    ¬ scaleInBounds sampleConstants
        (setOctreeSizeScale sampleConstants (sampleState 100 false 60 60 60) 0) := by
  norm_num [scaleInBounds, setOctreeSizeScale, calculateAvatarLODDistanceMultiplier,
    sampleConstants]

/-- C2 amended: `setOctreeSizeScale x` stores `x` unchanged (no clamping) and sets the dirty
flag; the stored scale lies in `[MIN, MAX]` exactly when `x` does. -/
theorem setOctreeSizeScale_stores (K : Constants) (m : State) (x : ℚ) :
    (setOctreeSizeScale K m x)._octreeSizeScale = x
      ∧ (setOctreeSizeScale K m x)._shouldRenderTableNeedsRebuilding = true
      ∧ (scaleInBounds K (setOctreeSizeScale K m x)
          ↔ K.ADJUST_LOD_MIN_SIZE_SCALE ≤ x ∧ x ≤ K.ADJUST_LOD_MAX_SIZE_SCALE) := by
  refine ⟨rfl, rfl, ?_⟩
  unfold scaleInBounds
  exact Iff.rfl

/-- The local `doDownShift` spelled out: stable with the start delay elapsed and the start
window below the threshold, or down-shifting with the cool-down elapsed and the down window
below the threshold. -/
theorem doDownShift_iff (K : Constants) (m : State) (now : Nat) (h : Bool) :
    doDownShift K m now h = true ↔
      (m._isDownshifting = false
          ∧ (elapsedSinceStableOrUpShift m now : ℚ) > K.START_SHIFT_ELPASED
          ∧ m._fpsAverageStartWindow.getAverage < getLODDecreaseFPS m h)
      ∨ (m._isDownshifting = true
          ∧ (elapsedSinceDownShift m now : ℚ) > K.DOWN_SHIFT_ELPASED
          ∧ m._fpsAverageDownWindow.getAverage < getLODDecreaseFPS m h) := by
  unfold doDownShift
  cases hd : m._isDownshifting
  · simp
  · by_cases he : (elapsedSinceDownShift m now : ℚ) > K.DOWN_SHIFT_ELPASED
    · simp [he]
    · simp [he]

/-- The down-shift rule in terms of the locals of the call: the scale gets smaller exactly
when it is above `MIN` and `doDownShift` holds, spelled out on the state after the windows
were fed; the effects of the down-shift follow. -/
theorem downshift_by_locals (K : Constants) (hK : ConstantsOK K) (m : State)
    (f : Frame) (ha : m._automaticLODAdjust = true) :
    ((autoAdjustLOD K m f).state._octreeSizeScale < m._octreeSizeScale ↔
        m._octreeSizeScale > K.ADJUST_LOD_MIN_SIZE_SCALE
        ∧ ((m._isDownshifting = false
            ∧ (elapsedSinceStableOrUpShift (feedWindows K m f) f.now : ℚ) > K.START_SHIFT_ELPASED
            ∧ (feedWindows K m f)._fpsAverageStartWindow.getAverage
                < getLODDecreaseFPS (feedWindows K m f) f.isHMDMode)
          ∨ (m._isDownshifting = true
            ∧ (elapsedSinceDownShift (feedWindows K m f) f.now : ℚ) > K.DOWN_SHIFT_ELPASED
            ∧ (feedWindows K m f)._fpsAverageDownWindow.getAverage
                < getLODDecreaseFPS (feedWindows K m f) f.isHMDMode)))
    ∧ ((autoAdjustLOD K m f).state._octreeSizeScale < m._octreeSizeScale →
        (autoAdjustLOD K m f).state._octreeSizeScale
            = max (m._octreeSizeScale * K.ADJUST_LOD_DOWN_BY) K.ADJUST_LOD_MIN_SIZE_SCALE
        ∧ (autoAdjustLOD K m f).state._isDownshifting = true
        ∧ (autoAdjustLOD K m f).state._lastDownShift = f.now
        ∧ (autoAdjustLOD K m f).state._shouldRenderTableNeedsRebuilding = true
        ∧ (autoAdjustLOD K m f).emitted = [Signal.LODDecreased]) := by
  obtain ⟨hmin, hle, hd0, hd1, hu1⟩ := hK
  have hiff := doDownShift_iff K (feedWindows K m f) f.now f.isHMDMode
  rw [feedWindows_isDownshifting] at hiff
  -- a strictly smaller scale forces the down-shift path
  have key : (autoAdjustLOD K m f).state._octreeSizeScale < m._octreeSizeScale →
      doDownShift K (feedWindows K m f) f.now f.isHMDMode = true
        ∧ m._octreeSizeScale > K.ADJUST_LOD_MIN_SIZE_SCALE := by
    intro hlt
    rcases autoAdjustLOD_cases K m f with h | h | h
    · rw [h.1] at hlt; exact absurd hlt (lt_irrefl _)
    · exact ⟨h.2.1, h.2.2.1⟩
    · obtain ⟨-, -, -, hs, he, -, -⟩ := h
      rw [he] at hlt
      exfalso
      by_cases hb : m._octreeSizeScale < K.ADJUST_LOD_MIN_SIZE_SCALE
      · rw [if_pos hb] at hlt
        exact absurd hlt (not_lt.mpr (le_min (le_of_lt hb) (le_of_lt hs)))
      · rw [if_neg hb] at hlt
        have hpos : 0 < m._octreeSizeScale := lt_of_lt_of_le hmin (not_lt.mp hb)
        refine absurd hlt (not_lt.mpr (le_min ?_ (le_of_lt hs)))
        nlinarith
  have down : doDownShift K (feedWindows K m f) f.now f.isHMDMode = true →
      m._octreeSizeScale > K.ADJUST_LOD_MIN_SIZE_SCALE →
      (autoAdjustLOD K m f).state._octreeSizeScale
            = max (m._octreeSizeScale * K.ADJUST_LOD_DOWN_BY) K.ADJUST_LOD_MIN_SIZE_SCALE
        ∧ (autoAdjustLOD K m f).state._isDownshifting = true
        ∧ (autoAdjustLOD K m f).state._lastDownShift = f.now
        ∧ (autoAdjustLOD K m f).state._shouldRenderTableNeedsRebuilding = true
        ∧ (autoAdjustLOD K m f).emitted = [Signal.LODDecreased] := by
    intro hd hs
    rw [autoAdjustLOD_down K m f ha hd hs]
    simp [stepDown_scale, hs]
  refine ⟨⟨fun hlt => ⟨(key hlt).2, hiff.mp (key hlt).1⟩, ?_⟩,
    fun hlt => down (key hlt).1 (key hlt).2⟩
  rintro ⟨hs, hc⟩
  rw [(down (hiff.mpr hc) hs).1]
  have hpos : 0 < m._octreeSizeScale := lt_trans hmin hs
  exact max_lt (by nlinarith) hs

/-- The upward step only writes `_octreeSizeScale`. -/
theorem stepUp_fst (K : Constants) (m : State) :
    (stepUp K m).1 = { m with _octreeSizeScale := (stepUp K m).1._octreeSizeScale } := by
  unfold stepUp; split_ifs <;> rfl

/-- The downward step only writes `_octreeSizeScale`. -/
theorem stepDown_fst (K : Constants) (m : State) :
    (stepDown K m).1 = { m with _octreeSizeScale := (stepDown K m).1._octreeSizeScale } := by
  unfold stepDown; split_ifs <;> rfl

/-- Leaving the down-shifting mode: what the down-shift evaluation writes. -/
theorem doneDownShifting_leave (K : Constants) (m : State) (now : Nat) (h : Bool)
    (hdn : m._isDownshifting = true)
    (he : (elapsedSinceDownShift m now : ℚ) > K.DOWN_SHIFT_ELPASED)
    (hav : ¬ m._fpsAverageDownWindow.getAverage < getLODDecreaseFPS m h) :
    doDownShift K m now h = false
      ∧ doneDownShifting K m now h = { m with _isDownshifting := false, _lastStable := now } := by
  have hd : doDownShift K m now h = false := by
    unfold doDownShift; simp [hdn, he, hav]
  refine ⟨hd, ?_⟩
  unfold doneDownShifting; simp [hdn, he, hd]

/-- C4 fails as stated: a down-shifting controller at scale 100 whose cool-down has elapsed and
whose down window is not below the threshold leaves the down-shifting mode, and the same call
up-shifts the scale to 110. -/
theorem leaving_downshifting_can_upshift :
    (sampleState 100 true 60 20 60)._automaticLODAdjust = true
      ∧ (sampleState 100 true 60 20 60)._isDownshifting = true
      ∧ (elapsedSinceDownShift (feedWindows sampleConstants (sampleState 100 true 60 20 60)
            (sampleFrame 60 3000000)) (sampleFrame 60 3000000).now : ℚ)
          > sampleConstants.DOWN_SHIFT_ELPASED
      ∧ ¬ ((feedWindows sampleConstants (sampleState 100 true 60 20 60)
            (sampleFrame 60 3000000))._fpsAverageDownWindow.getAverage
          < getLODDecreaseFPS (feedWindows sampleConstants (sampleState 100 true 60 20 60)
              (sampleFrame 60 3000000)) (sampleFrame 60 3000000).isHMDMode)
      ∧ (autoAdjustLOD sampleConstants (sampleState 100 true 60 20 60)
            (sampleFrame 60 3000000)).state._octreeSizeScale
          ≠ (sampleState 100 true 60 20 60)._octreeSizeScale := by
  norm_num [autoAdjustLOD, feedWindows, inWarmup, sampleFed, doDownShift, doneDownShifting,
    stepUp, stepDown, afterChange, calculateAvatarLODDistanceMultiplier, elapsedSinceDownShift,
    elapsedSinceUpShift, elapsedSinceStableOrUpShift, sub64, getLODDecreaseFPS,
    getLODIncreaseFPS, sampleState, sampleFrame, sampleConstants, sampleWindow,
    SimpleMovingAverage.getSampleCount, SimpleMovingAverage.getAverage,
    SimpleMovingAverage.updateAverage, IGNORE_THESE_SAMPLES]

/-- C4 amended: with automatic adjustment on, a down-shifting controller whose cool-down since
`_lastDownShift` has elapsed and whose down window average is not below the decrease threshold
is stable after the call, with `_lastStable` the call time and no `LODDecreased`; the scale is
unchanged unless the up-shift triggers in the same call (up cool-down elapsed, up window
average above the increase threshold, scale below `MAX`), in which case it is stepped up. -/
theorem autoAdjustLOD_leave_downshifting (K : Constants) (m : State) (f : Frame)
    (ha : m._automaticLODAdjust = true) (hdn : m._isDownshifting = true)
    (he : (elapsedSinceDownShift (feedWindows K m f) f.now : ℚ) > K.DOWN_SHIFT_ELPASED)
    (hav : ¬ (feedWindows K m f)._fpsAverageDownWindow.getAverage
              < getLODDecreaseFPS (feedWindows K m f) f.isHMDMode) :
    (autoAdjustLOD K m f).state._isDownshifting = false
      ∧ (autoAdjustLOD K m f).state._lastStable = f.now
      ∧ Signal.LODDecreased ∉ (autoAdjustLOD K m f).emitted
      ∧ (autoAdjustLOD K m f).state._octreeSizeScale =
          if upShiftTriggers K m f = true ∧ m._octreeSizeScale < K.ADJUST_LOD_MAX_SIZE_SCALE then
            min (if m._octreeSizeScale < K.ADJUST_LOD_MIN_SIZE_SCALE
                  then K.ADJUST_LOD_MIN_SIZE_SCALE
                  else m._octreeSizeScale * K.ADJUST_LOD_UP_BY) K.ADJUST_LOD_MAX_SIZE_SCALE
          else m._octreeSizeScale := by
  have hdn1 : (feedWindows K m f)._isDownshifting = true := by
    rw [feedWindows_isDownshifting]; exact hdn
  obtain ⟨hd, hdone⟩ := doneDownShifting_leave K (feedWindows K m f) f.now f.isHMDMode hdn1 he hav
  by_cases hu : upShiftTriggers K m f = true ∧ m._octreeSizeScale < K.ADJUST_LOD_MAX_SIZE_SCALE
  · rw [if_pos hu, autoAdjustLOD_up K m f ha hd hu.1 hu.2, hdone]
    refine ⟨by simp, ?_, by simp, ?_⟩
    · rw [stepUp_fst]; simp
    · simp [stepUp_scale, hu.2]
  · have hu2 : upShiftTriggers K m f = false
        ∨ K.ADJUST_LOD_MAX_SIZE_SCALE ≤ m._octreeSizeScale := by
      by_cases h : upShiftTriggers K m f = true
      · right; exact not_lt.mp (fun h2 => hu ⟨h, h2⟩)
      · left; simpa using h
    rw [if_neg hu, autoAdjustLOD_idle K m f ha hd hu2, hdone]
    simp

/-- C4 amended, on concrete inputs: the down-shifting sample controller at scale 100, called
three seconds after its last shifts with a down window at 20 FPS, ends stable. -/
theorem autoAdjustLOD_leave_downshifting_witness :
    (autoAdjustLOD sampleConstants (sampleState 100 true 60 20 60)
        (sampleFrame 60 3000000)).state._isDownshifting = false :=
  (autoAdjustLOD_leave_downshifting sampleConstants (sampleState 100 true 60 20 60)
    (sampleFrame 60 3000000) rfl rfl
    (by norm_num [elapsedSinceDownShift, feedWindows, inWarmup, sampleState, sampleFrame,
        sampleConstants, sampleWindow, SimpleMovingAverage.getSampleCount,
        IGNORE_THESE_SAMPLES, sub64])
    (by norm_num [feedWindows, inWarmup, sampleState, sampleFrame, sampleFed,
        sampleConstants, sampleWindow, SimpleMovingAverage.getSampleCount,
        SimpleMovingAverage.getAverage, SimpleMovingAverage.updateAverage,
        IGNORE_THESE_SAMPLES, getLODDecreaseFPS])).1

/-- The up-shift trigger spelled out. -/
theorem upShiftTriggers_iff (K : Constants) (m : State) (f : Frame) :
    upShiftTriggers K m f = true ↔
      (elapsedSinceUpShift (feedWindows K m f) f.now : ℚ) > K.UP_SHIFT_ELPASED
        ∧ (feedWindows K m f)._fpsAverageUpWindow.getAverage
            > getLODIncreaseFPS (feedWindows K m f) f.isHMDMode := by
  unfold upShiftTriggers; simp

/-- The up-shift rule in terms of the locals of the call: when `doDownShift` is false, the
scale grows exactly when the up cool-down has elapsed, the up window is above the increase
threshold and the scale is below `MAX`; the effects of the up-shift follow. -/
theorem upshift_by_locals (K : Constants) (hK : ConstantsOK K) (m : State)
    (f : Frame) (ha : m._automaticLODAdjust = true)
    (hd : doDownShift K (feedWindows K m f) f.now f.isHMDMode = false) :
    ((autoAdjustLOD K m f).state._octreeSizeScale > m._octreeSizeScale ↔
        (elapsedSinceUpShift (feedWindows K m f) f.now : ℚ) > K.UP_SHIFT_ELPASED
        ∧ (feedWindows K m f)._fpsAverageUpWindow.getAverage
            > getLODIncreaseFPS (feedWindows K m f) f.isHMDMode
        ∧ m._octreeSizeScale < K.ADJUST_LOD_MAX_SIZE_SCALE)
    ∧ ((autoAdjustLOD K m f).state._octreeSizeScale > m._octreeSizeScale →
        (K.ADJUST_LOD_MIN_SIZE_SCALE ≤ m._octreeSizeScale →
          (autoAdjustLOD K m f).state._octreeSizeScale
            = min (m._octreeSizeScale * K.ADJUST_LOD_UP_BY) K.ADJUST_LOD_MAX_SIZE_SCALE)
        ∧ (autoAdjustLOD K m f).state._isDownshifting = false
        ∧ (autoAdjustLOD K m f).state._lastUpShift = f.now
        ∧ (autoAdjustLOD K m f).state._shouldRenderTableNeedsRebuilding = true
        ∧ (autoAdjustLOD K m f).emitted = [Signal.LODIncreased]) := by
  obtain ⟨hmin, hle, hd0, hd1, hu1⟩ := hK
  have htrig := upShiftTriggers_iff K m f
  have key : (autoAdjustLOD K m f).state._octreeSizeScale > m._octreeSizeScale →
      upShiftTriggers K m f = true ∧ m._octreeSizeScale < K.ADJUST_LOD_MAX_SIZE_SCALE := by
    intro hgt
    rcases autoAdjustLOD_cases K m f with h | h | h
    · rw [h.1] at hgt; exact absurd hgt (lt_irrefl _)
    · rw [h.2.1] at hd; exact absurd hd (by decide)
    · exact ⟨h.2.2.1, h.2.2.2.1⟩
  have up : upShiftTriggers K m f = true →
      m._octreeSizeScale < K.ADJUST_LOD_MAX_SIZE_SCALE →
      (autoAdjustLOD K m f).state._octreeSizeScale
          = min (if m._octreeSizeScale < K.ADJUST_LOD_MIN_SIZE_SCALE
                  then K.ADJUST_LOD_MIN_SIZE_SCALE
                  else m._octreeSizeScale * K.ADJUST_LOD_UP_BY) K.ADJUST_LOD_MAX_SIZE_SCALE
        ∧ (autoAdjustLOD K m f).state._isDownshifting = false
        ∧ (autoAdjustLOD K m f).state._lastUpShift = f.now
        ∧ (autoAdjustLOD K m f).state._shouldRenderTableNeedsRebuilding = true
        ∧ (autoAdjustLOD K m f).emitted = [Signal.LODIncreased] := by
    intro hu hs
    rw [autoAdjustLOD_up K m f ha hd hu hs]
    simp [stepUp_scale, hs]
  refine ⟨⟨fun hgt => ?_, ?_⟩, fun hgt => ?_⟩
  · exact ⟨(htrig.mp (key hgt).1).1, (htrig.mp (key hgt).1).2, (key hgt).2⟩
  · rintro ⟨h1, h2, hs⟩
    rw [(up (htrig.mpr ⟨h1, h2⟩) hs).1]
    by_cases hb : m._octreeSizeScale < K.ADJUST_LOD_MIN_SIZE_SCALE
    · rw [if_pos hb]; exact lt_min hb hs
    · rw [if_neg hb]
      have hpos : 0 < m._octreeSizeScale := lt_of_lt_of_le hmin (not_lt.mp hb)
      exact lt_min (by nlinarith) hs
  · obtain ⟨h1, h2, h3, h4, h5⟩ := up (key hgt).1 (key hgt).2
    refine ⟨fun hb => ?_, h2, h3, h4, h5⟩
    rw [h1, if_neg (not_lt.mpr hb)]

/-- C6 fails as stated: an up-shift from scale 1/2, below the minimum 1, ends at 1 and not at
`min (MIN * UP) MAX = 11/10`. -/
theorem upshift_below_floor_only_snaps :
    (autoAdjustLOD sampleConstants (sampleState (1 / 2) false 60 60 60)
          (sampleFrame 60 3000000)).emitted = [Signal.LODIncreased]
      ∧ (sampleState (1 / 2) false 60 60 60)._octreeSizeScale
          < sampleConstants.ADJUST_LOD_MIN_SIZE_SCALE
      ∧ (autoAdjustLOD sampleConstants (sampleState (1 / 2) false 60 60 60)
          (sampleFrame 60 3000000)).state._octreeSizeScale
        ≠ min (sampleConstants.ADJUST_LOD_MIN_SIZE_SCALE * sampleConstants.ADJUST_LOD_UP_BY)
            sampleConstants.ADJUST_LOD_MAX_SIZE_SCALE := by
  norm_num [autoAdjustLOD, feedWindows, inWarmup, sampleFed, doDownShift, doneDownShifting,
    stepUp, stepDown, afterChange, calculateAvatarLODDistanceMultiplier, elapsedSinceDownShift,
    elapsedSinceUpShift, elapsedSinceStableOrUpShift, sub64, getLODDecreaseFPS,
    getLODIncreaseFPS, sampleState, sampleFrame, sampleConstants, sampleWindow,
    SimpleMovingAverage.getSampleCount, SimpleMovingAverage.getAverage,
    SimpleMovingAverage.updateAverage, IGNORE_THESE_SAMPLES]

/-- C6 amended: in a call that up-shifts (emits `LODIncreased`) from a scale at or below `MIN`,
the new scale is `min (MIN * UP) MAX` when the old scale equals `MIN`; when the old scale is
below `MIN` it is snapped to `MIN` and not multiplied, so the new scale is `min MIN MAX`. -/
theorem autoAdjustLOD_upshift_from_floor (K : Constants) (m : State) (f : Frame)
    (hu : (autoAdjustLOD K m f).emitted = [Signal.LODIncreased])
    (hs : m._octreeSizeScale ≤ K.ADJUST_LOD_MIN_SIZE_SCALE) :
    (autoAdjustLOD K m f).state._octreeSizeScale =
      if m._octreeSizeScale < K.ADJUST_LOD_MIN_SIZE_SCALE then
        min K.ADJUST_LOD_MIN_SIZE_SCALE K.ADJUST_LOD_MAX_SIZE_SCALE
      else min (K.ADJUST_LOD_MIN_SIZE_SCALE * K.ADJUST_LOD_UP_BY) K.ADJUST_LOD_MAX_SIZE_SCALE := by
  rcases autoAdjustLOD_cases K m f with h | h | h
  · rw [h.2.1] at hu; exact absurd hu (by decide)
  · rw [h.2.2.2.2.1] at hu; exact absurd hu (by decide)
  · obtain ⟨-, -, -, -, he, -, -⟩ := h
    rw [he]
    by_cases hlt : m._octreeSizeScale < K.ADJUST_LOD_MIN_SIZE_SCALE
    · rw [if_pos hlt, if_pos hlt]
    · rw [if_neg hlt, if_neg hlt, le_antisymm hs (not_lt.mp hlt)]

/-- C6 amended, on concrete inputs: the up-shift from scale 1/2 ends at `min 1 6553600`. -/
theorem autoAdjustLOD_upshift_from_floor_witness :
    (autoAdjustLOD sampleConstants (sampleState (1 / 2) false 60 60 60)
        (sampleFrame 60 3000000)).state._octreeSizeScale =
      if (sampleState (1 / 2) false 60 60 60)._octreeSizeScale
          < sampleConstants.ADJUST_LOD_MIN_SIZE_SCALE then
        min sampleConstants.ADJUST_LOD_MIN_SIZE_SCALE sampleConstants.ADJUST_LOD_MAX_SIZE_SCALE
      else min (sampleConstants.ADJUST_LOD_MIN_SIZE_SCALE * sampleConstants.ADJUST_LOD_UP_BY)
        sampleConstants.ADJUST_LOD_MAX_SIZE_SCALE :=
  autoAdjustLOD_upshift_from_floor sampleConstants (sampleState (1 / 2) false 60 60 60)
    (sampleFrame 60 3000000)
    (by norm_num [autoAdjustLOD, feedWindows, inWarmup, sampleFed, doDownShift,
        doneDownShifting, stepUp, stepDown, afterChange, calculateAvatarLODDistanceMultiplier,
        elapsedSinceDownShift, elapsedSinceUpShift, elapsedSinceStableOrUpShift, sub64,
        getLODDecreaseFPS, getLODIncreaseFPS, sampleState, sampleFrame, sampleConstants,
        sampleWindow, SimpleMovingAverage.getSampleCount, SimpleMovingAverage.getAverage,
        SimpleMovingAverage.updateAverage, IGNORE_THESE_SAMPLES])
    (by norm_num [sampleState, sampleConstants])

/-! ## Warm-up and disabled adjustment -/

theorem sub64_self (a : Nat) : sub64 a a = 0 := by
  unfold sub64
  rw [Nat.add_sub_cancel' (le_of_lt (Nat.mod_lt _ (by norm_num)))]
  exact Nat.mod_self _

/-- What `feedWindows` does in a warm-up call. -/
theorem feedWindows_warmup (K : Constants) (m : State) (f : Frame) (hw : inWarmup m = true) :
    feedWindows K m f =
      { m with
        _lastStable := f.warmupClock, _lastUpShift := f.warmupClock,
        _lastDownShift := f.warmupClock,
        _fpsAverageStartWindow := m._fpsAverageStartWindow.updateAverage K K.ASSUMED_FPS,
        _fpsAverageDownWindow := m._fpsAverageDownWindow.updateAverage K K.ASSUMED_FPS,
        _fpsAverageUpWindow := m._fpsAverageUpWindow.updateAverage K K.ASSUMED_FPS } := by
  unfold feedWindows sampleFed; simp [hw]

/-- What `feedWindows` does in any call: the three windows get the sample `sampleFed`. -/
theorem feedWindows_windows (K : Constants) (m : State) (f : Frame) :
    (feedWindows K m f)._fpsAverageStartWindow
        = m._fpsAverageStartWindow.updateAverage K (sampleFed K m f)
      ∧ (feedWindows K m f)._fpsAverageDownWindow
        = m._fpsAverageDownWindow.updateAverage K (sampleFed K m f)
      ∧ (feedWindows K m f)._fpsAverageUpWindow
        = m._fpsAverageUpWindow.updateAverage K (sampleFed K m f) := by
  unfold feedWindows; split_ifs <;> exact ⟨rfl, rfl, rfl⟩

/-- After `feedWindows`, the rest of `autoAdjustLOD` writes only the scale, the avatar
multiplier, the dirty flag, the three timestamps and the down-shifting flag. -/
theorem autoAdjustLOD_after_feed (K : Constants) (m : State) (f : Frame) :
    ∃ (scale mult : ℚ) (dirty down : Bool) (tDown tUp tStable : Nat),
      (autoAdjustLOD K m f).state =
        { feedWindows K m f with
          _octreeSizeScale := scale, _avatarLODDistanceMultiplier := mult,
          _shouldRenderTableNeedsRebuilding := dirty, _isDownshifting := down,
          _lastDownShift := tDown, _lastUpShift := tUp, _lastStable := tStable } := by
  have hdone : ∀ m1 : State, ∃ (down : Bool) (tStable : Nat),
      doneDownShifting K m1 f.now f.isHMDMode
        = { m1 with _isDownshifting := down, _lastStable := tStable } := by
    intro m1
    unfold doneDownShifting
    split_ifs
    · exact ⟨_, _, rfl⟩
    all_goals exact ⟨m1._isDownshifting, m1._lastStable, rfl⟩
  have hafter : ∀ (m1 : State) (e : List Signal) (c d : Bool), ∃ (mult : ℚ) (dirty : Bool),
      (afterChange K m1 e c d).state
        = { m1 with _avatarLODDistanceMultiplier := mult,
                    _shouldRenderTableNeedsRebuilding := dirty } := by
    intro m1 e c d
    unfold afterChange calculateAvatarLODDistanceMultiplier
    split_ifs
    · exact ⟨_, _, rfl⟩
    · exact ⟨m1._avatarLODDistanceMultiplier, m1._shouldRenderTableNeedsRebuilding, rfl⟩
  cases ha : m._automaticLODAdjust
  · rw [autoAdjustLOD_disabled K m f ha]
    exact ⟨_, _, _, _, _, _, _, rfl⟩
  · cases hd : doDownShift K (feedWindows K m f) f.now f.isHMDMode
    · obtain ⟨dn, ts, hdn⟩ := hdone (feedWindows K m f)
      by_cases hu : upShiftTriggers K m f = true
          ∧ m._octreeSizeScale < K.ADJUST_LOD_MAX_SIZE_SCALE
      · rw [autoAdjustLOD_up K m f ha hd hu.1 hu.2]
        obtain ⟨a, b, hab⟩ := hafter _ [Signal.LODIncreased] true f.hasLodToolsDialog
        rw [hab, stepUp_fst, hdn]
        exact ⟨_, _, _, _, _, _, _, rfl⟩
      · have hu2 : upShiftTriggers K m f = false
            ∨ K.ADJUST_LOD_MAX_SIZE_SCALE ≤ m._octreeSizeScale := by
          by_cases h : upShiftTriggers K m f = true
          · right; exact not_lt.mp (fun h2 => hu ⟨h, h2⟩)
          · left; simpa using h
        rw [autoAdjustLOD_idle K m f ha hd hu2, hdn]
        exact ⟨_, _, _, _, _, _, _, rfl⟩
    · by_cases hs : m._octreeSizeScale > K.ADJUST_LOD_MIN_SIZE_SCALE
      · rw [autoAdjustLOD_down K m f ha hd hs]
        obtain ⟨a, b, hab⟩ := hafter _ [Signal.LODDecreased] true f.hasLodToolsDialog
        rw [hab, stepDown_fst]
        exact ⟨_, _, _, _, _, _, _, rfl⟩
      · rw [autoAdjustLOD_down_floor K m f ha hd (not_lt.mp hs)]
        exact ⟨_, _, _, _, _, _, _, rfl⟩

/-- In a warm-up call whose two clock readings agree, with non-negative elapsed thresholds,
the whole call is `feedWindows`. -/
theorem warmup_call_eq_feedWindows (K : Constants) (m : State) (f : Frame)
    (hw : inWarmup m = true) (hclock : f.now = f.warmupClock)
    (h1 : 0 ≤ K.START_SHIFT_ELPASED) (h2 : 0 ≤ K.DOWN_SHIFT_ELPASED)
    (h3 : 0 ≤ K.UP_SHIFT_ELPASED) :
    autoAdjustLOD K m f
      = { state := feedWindows K m f, emitted := [], slidersReloaded := false } := by
  cases ha : m._automaticLODAdjust
  · exact autoAdjustLOD_disabled K m f ha
  · have e1 : elapsedSinceDownShift (feedWindows K m f) f.now = 0 := by
      rw [feedWindows_warmup K m f hw, hclock]; exact sub64_self _
    have e2 : elapsedSinceUpShift (feedWindows K m f) f.now = 0 := by
      rw [feedWindows_warmup K m f hw, hclock]; exact sub64_self _
    have e3 : elapsedSinceStableOrUpShift (feedWindows K m f) f.now = 0 := by
      rw [feedWindows_warmup K m f hw, hclock]
      unfold elapsedSinceStableOrUpShift
      simp only [max_self]; exact sub64_self _
    have hd : doDownShift K (feedWindows K m f) f.now f.isHMDMode = false := by
      unfold doDownShift
      rw [e1, e3]
      simp [not_lt.mpr h1, not_lt.mpr h2]
    have hdone : doneDownShifting K (feedWindows K m f) f.now f.isHMDMode
        = feedWindows K m f := by
      unfold doneDownShifting
      rw [e1]
      simp [not_lt.mpr h2]
    have hu : upShiftTriggers K m f = false := by
      unfold upShiftTriggers
      rw [e2]
      simp [not_lt.mpr h3]
    rw [autoAdjustLOD_idle K m f ha hd (Or.inl hu), hdone]

/-- C7: in a call made while the up window holds fewer than 100 samples, all three windows
are fed `ASSUMED_FPS` (not the reported frame rate) and the warm-up sets `_lastStable`,
`_lastUpShift` and `_lastDownShift` to the call time; if moreover the clock does not advance
between the two readings of the call and the three elapsed thresholds are non-negative, the
call leaves the scale and the down-shifting flag unchanged, emits nothing, and the three
timestamps are the call time when it returns. -/
theorem autoAdjustLOD_warmup (K : Constants) (m : State) (f : Frame)
    (hw : m._fpsAverageUpWindow.getSampleCount < IGNORE_THESE_SAMPLES) :
    ((autoAdjustLOD K m f).state._fpsAverageStartWindow
          = m._fpsAverageStartWindow.updateAverage K K.ASSUMED_FPS
        ∧ (autoAdjustLOD K m f).state._fpsAverageDownWindow
          = m._fpsAverageDownWindow.updateAverage K K.ASSUMED_FPS
        ∧ (autoAdjustLOD K m f).state._fpsAverageUpWindow
          = m._fpsAverageUpWindow.updateAverage K K.ASSUMED_FPS)
      ∧ ((feedWindows K m f)._lastStable = f.warmupClock
        ∧ (feedWindows K m f)._lastUpShift = f.warmupClock
        ∧ (feedWindows K m f)._lastDownShift = f.warmupClock)
      ∧ (f.now = f.warmupClock → 0 ≤ K.START_SHIFT_ELPASED → 0 ≤ K.DOWN_SHIFT_ELPASED →
          0 ≤ K.UP_SHIFT_ELPASED →
          (autoAdjustLOD K m f).state._octreeSizeScale = m._octreeSizeScale
            ∧ (autoAdjustLOD K m f).state._isDownshifting = m._isDownshifting
            ∧ (autoAdjustLOD K m f).emitted = []
            ∧ (autoAdjustLOD K m f).state._lastStable = f.warmupClock
            ∧ (autoAdjustLOD K m f).state._lastUpShift = f.warmupClock
            ∧ (autoAdjustLOD K m f).state._lastDownShift = f.warmupClock) := by
  have hw2 : inWarmup m = true := by unfold inWarmup; simpa using hw
  have hfeed := feedWindows_warmup K m f hw2
  refine ⟨?_, ?_, ?_⟩
  · obtain ⟨a, b, c, d, e, g, h, heq⟩ := autoAdjustLOD_after_feed K m f
    rw [heq, hfeed]
    exact ⟨rfl, rfl, rfl⟩
  · rw [hfeed]
    exact ⟨rfl, rfl, rfl⟩
  · intro hclock h1 h2 h3
    rw [warmup_call_eq_feedWindows K m f hw2 hclock h1 h2 h3, hfeed]
    exact ⟨rfl, rfl, rfl, rfl, rfl, rfl⟩

/-- C7 on concrete inputs: the sample controller with an up window of 5 samples and all
windows at 1 FPS, called with 1 FPS at time 7 s (both clock readings): the up window is fed
60 FPS, the scale stays 100 and nothing is emitted. -/
theorem autoAdjustLOD_warmup_witness :
    (autoAdjustLOD sampleConstants
        { sampleState 100 false 1 1 1 with _fpsAverageUpWindow := sampleWindow 150 1 5 }
        (sampleFrame 1 7000000)).state._fpsAverageUpWindow
      = (sampleWindow 150 1 5).updateAverage sampleConstants sampleConstants.ASSUMED_FPS
    ∧ (autoAdjustLOD sampleConstants
        { sampleState 100 false 1 1 1 with _fpsAverageUpWindow := sampleWindow 150 1 5 }
        (sampleFrame 1 7000000)).state._octreeSizeScale = 100
    ∧ (autoAdjustLOD sampleConstants
        { sampleState 100 false 1 1 1 with _fpsAverageUpWindow := sampleWindow 150 1 5 }
        (sampleFrame 1 7000000)).emitted = [] :=
  ⟨(autoAdjustLOD_warmup sampleConstants
      { sampleState 100 false 1 1 1 with _fpsAverageUpWindow := sampleWindow 150 1 5 }
      (sampleFrame 1 7000000)
      (by norm_num [sampleWindow, SimpleMovingAverage.getSampleCount,
          IGNORE_THESE_SAMPLES])).1.2.2,
    ((autoAdjustLOD_warmup sampleConstants
      { sampleState 100 false 1 1 1 with _fpsAverageUpWindow := sampleWindow 150 1 5 }
      (sampleFrame 1 7000000)
      (by norm_num [sampleWindow, SimpleMovingAverage.getSampleCount,
          IGNORE_THESE_SAMPLES])).2.2 rfl (by norm_num [sampleConstants])
        (by norm_num [sampleConstants]) (by norm_num [sampleConstants])).1,
    ((autoAdjustLOD_warmup sampleConstants
      { sampleState 100 false 1 1 1 with _fpsAverageUpWindow := sampleWindow 150 1 5 }
      (sampleFrame 1 7000000)
      (by norm_num [sampleWindow, SimpleMovingAverage.getSampleCount,
          IGNORE_THESE_SAMPLES])).2.2 rfl (by norm_num [sampleConstants])
        (by norm_num [sampleConstants]) (by norm_num [sampleConstants])).2.2.1⟩

/-- C8: with automatic adjustment off, one call feeds exactly one sample (the reported frame
rate, or `ASSUMED_FPS` during warm-up) to each of the start, down and up windows, and leaves
the scale, the down-shifting flag, the avatar distance multiplier and the dirty flag
unchanged; it emits no signal. -/
theorem autoAdjustLOD_disabled_effect (K : Constants) (m : State) (f : Frame)
    (ha : m._automaticLODAdjust = false) :
    ((autoAdjustLOD K m f).state._fpsAverageStartWindow
          = m._fpsAverageStartWindow.updateAverage K (sampleFed K m f)
        ∧ (autoAdjustLOD K m f).state._fpsAverageDownWindow
          = m._fpsAverageDownWindow.updateAverage K (sampleFed K m f)
        ∧ (autoAdjustLOD K m f).state._fpsAverageUpWindow
          = m._fpsAverageUpWindow.updateAverage K (sampleFed K m f))
      ∧ ((autoAdjustLOD K m f).state._fpsAverageStartWindow.getSampleCount
          = m._fpsAverageStartWindow.getSampleCount + 1
        ∧ (autoAdjustLOD K m f).state._fpsAverageDownWindow.getSampleCount
          = m._fpsAverageDownWindow.getSampleCount + 1
        ∧ (autoAdjustLOD K m f).state._fpsAverageUpWindow.getSampleCount
          = m._fpsAverageUpWindow.getSampleCount + 1)
      ∧ (autoAdjustLOD K m f).state._octreeSizeScale = m._octreeSizeScale
      ∧ (autoAdjustLOD K m f).state._isDownshifting = m._isDownshifting
      ∧ (autoAdjustLOD K m f).state._avatarLODDistanceMultiplier = m._avatarLODDistanceMultiplier
      ∧ (autoAdjustLOD K m f).state._shouldRenderTableNeedsRebuilding
          = m._shouldRenderTableNeedsRebuilding
      ∧ (autoAdjustLOD K m f).emitted = []
      ∧ (autoAdjustLOD K m f).slidersReloaded = false := by
  rw [autoAdjustLOD_disabled K m f ha]
  obtain ⟨w1, w2, w3⟩ := feedWindows_windows K m f
  refine ⟨⟨w1, w2, w3⟩, ⟨?_, ?_, ?_⟩, ?_, ?_, ?_, ?_, rfl, rfl⟩
  · simp only [w1]; rfl
  · simp only [w2]; rfl
  · simp only [w3]; rfl
  · simp
  · simp
  · simp
  · simp

/-- C8 on concrete inputs: the sample controller with automatic adjustment switched off, at
scale 100 with windows at 10 FPS, called with 10 FPS after four seconds keeps its scale. -/
theorem autoAdjustLOD_disabled_effect_witness :
    (autoAdjustLOD sampleConstants
        { sampleState 100 false 10 10 10 with _automaticLODAdjust := false }
        (sampleFrame 10 4000000)).state._octreeSizeScale = 100 :=
  (autoAdjustLOD_disabled_effect sampleConstants
    { sampleState 100 false 10 10 10 with _automaticLODAdjust := false }
    (sampleFrame 10 4000000) rfl).2.2.1

/-- C9: with `0 < MIN ≤ MAX` and `0 < DOWN < 1 < UP`, a call emits nothing, or one
`LODDecreased`, or one `LODIncreased`, never both; `LODDecreased` is emitted exactly when the
scale ends strictly smaller than it started, `LODIncreased` exactly when it ends strictly
larger; and the call sets the dirty flag exactly when the scale changed (otherwise the flag
keeps its value). -/
theorem autoAdjustLOD_one_shift (K : Constants) (hK : ConstantsOK K) (m : State) (f : Frame) :
    ((autoAdjustLOD K m f).emitted = [] ∨ (autoAdjustLOD K m f).emitted = [Signal.LODDecreased]
        ∨ (autoAdjustLOD K m f).emitted = [Signal.LODIncreased])
      ∧ (Signal.LODDecreased ∈ (autoAdjustLOD K m f).emitted
          ↔ (autoAdjustLOD K m f).state._octreeSizeScale < m._octreeSizeScale)
      ∧ (Signal.LODIncreased ∈ (autoAdjustLOD K m f).emitted
          ↔ (autoAdjustLOD K m f).state._octreeSizeScale > m._octreeSizeScale)
      ∧ ((autoAdjustLOD K m f).state._octreeSizeScale ≠ m._octreeSizeScale →
          (autoAdjustLOD K m f).state._shouldRenderTableNeedsRebuilding = true)
      ∧ ((autoAdjustLOD K m f).state._octreeSizeScale = m._octreeSizeScale →
          (autoAdjustLOD K m f).state._shouldRenderTableNeedsRebuilding
            = m._shouldRenderTableNeedsRebuilding) := by
  obtain ⟨hmin, hle, hd0, hd1, hu1⟩ := hK
  rcases autoAdjustLOD_cases K m f with h | h | h
  · obtain ⟨h1, h2, h3⟩ := h
    rw [h1, h2, h3]
    simp
  · obtain ⟨-, -, hs, he, hem, hdirty⟩ := h
    have hpos : 0 < m._octreeSizeScale := lt_trans hmin hs
    have hlt : (autoAdjustLOD K m f).state._octreeSizeScale < m._octreeSizeScale := by
      rw [he]; exact max_lt (by nlinarith) hs
    rw [hem]
    refine ⟨Or.inr (Or.inl rfl), ?_, ?_, fun _ => hdirty, fun heq => ?_⟩
    · simp [hlt]
    · simp [not_lt.mpr (le_of_lt hlt)]
    · exact absurd heq (ne_of_lt hlt)
  · obtain ⟨-, -, -, hs, he, hem, hdirty⟩ := h
    have hgt : (autoAdjustLOD K m f).state._octreeSizeScale > m._octreeSizeScale := by
      rw [he]
      by_cases hb : m._octreeSizeScale < K.ADJUST_LOD_MIN_SIZE_SCALE
      · rw [if_pos hb]; exact lt_min hb hs
      · rw [if_neg hb]
        have hpos : 0 < m._octreeSizeScale := lt_of_lt_of_le hmin (not_lt.mp hb)
        exact lt_min (by nlinarith) hs
    rw [hem]
    refine ⟨Or.inr (Or.inr rfl), ?_, ?_, fun _ => hdirty, fun heq => ?_⟩
    · simp [not_lt.mpr (le_of_lt hgt)]
    · simp [hgt]
    · exact absurd heq (ne_of_gt hgt)

/-- C9 on concrete inputs: the sample constants and the stable sample controller at scale 100
with windows at 10 FPS, called with 10 FPS after four seconds: the scale changes, so the table
is dirty after the call. -/
theorem autoAdjustLOD_one_shift_witness :
    ConstantsOK sampleConstants
      ∧ (Signal.LODDecreased ∈ (autoAdjustLOD sampleConstants (sampleState 100 false 10 10 10)
            (sampleFrame 10 4000000)).emitted
          ↔ (autoAdjustLOD sampleConstants (sampleState 100 false 10 10 10)
              (sampleFrame 10 4000000)).state._octreeSizeScale
            < (sampleState 100 false 10 10 10)._octreeSizeScale)
      ∧ (autoAdjustLOD sampleConstants (sampleState 100 false 10 10 10)
            (sampleFrame 10 4000000)).state._shouldRenderTableNeedsRebuilding = true :=
  ⟨sampleConstants_ok,
    (autoAdjustLOD_one_shift sampleConstants sampleConstants_ok
      (sampleState 100 false 10 10 10) (sampleFrame 10 4000000)).2.1,
    (autoAdjustLOD_one_shift sampleConstants sampleConstants_ok
      (sampleState 100 false 10 10 10) (sampleFrame 10 4000000)).2.2.2.1
      (by norm_num [autoAdjustLOD, feedWindows, inWarmup, sampleFed, doDownShift,
        doneDownShifting, stepUp, stepDown, afterChange, calculateAvatarLODDistanceMultiplier,
        elapsedSinceDownShift, elapsedSinceUpShift, elapsedSinceStableOrUpShift, sub64,
        getLODDecreaseFPS, getLODIncreaseFPS, sampleState, sampleFrame, sampleConstants,
        sampleWindow, SimpleMovingAverage.getSampleCount, SimpleMovingAverage.getAverage,
        SimpleMovingAverage.updateAverage, IGNORE_THESE_SAMPLES])⟩

/-- C10 fails as stated: with `DOWN = 9/10` and `UP = 11/10`, a down-shift of scale 100 gives
90, and the up-shift of 90 gives 99, below the scale 100 before the down-shift. -/
theorem recovery_falls_short_of_start :
    sampleConstants.ADJUST_LOD_MIN_SIZE_SCALE < (sampleState 100 false 10 10 10)._octreeSizeScale
      ∧ (sampleState 100 false 10 10 10)._octreeSizeScale
          ≤ sampleConstants.ADJUST_LOD_MAX_SIZE_SCALE
      ∧ (autoAdjustLOD sampleConstants (sampleState 100 false 10 10 10)
          (sampleFrame 10 4000000)).emitted = [Signal.LODDecreased]
      ∧ (sampleState 90 false 60 60 60)._octreeSizeScale
          = (autoAdjustLOD sampleConstants (sampleState 100 false 10 10 10)
              (sampleFrame 10 4000000)).state._octreeSizeScale
      ∧ (autoAdjustLOD sampleConstants (sampleState 90 false 60 60 60)
          (sampleFrame 60 3000000)).emitted = [Signal.LODIncreased]
      ∧ ¬ ((autoAdjustLOD sampleConstants (sampleState 90 false 60 60 60)
            (sampleFrame 60 3000000)).state._octreeSizeScale
          ≥ (sampleState 100 false 10 10 10)._octreeSizeScale) := by
  norm_num [autoAdjustLOD, feedWindows, inWarmup, sampleFed, doDownShift, doneDownShifting,
    stepUp, stepDown, afterChange, calculateAvatarLODDistanceMultiplier, elapsedSinceDownShift,
    elapsedSinceUpShift, elapsedSinceStableOrUpShift, sub64, getLODDecreaseFPS,
    getLODIncreaseFPS, sampleState, sampleFrame, sampleConstants, sampleWindow,
    SimpleMovingAverage.getSampleCount, SimpleMovingAverage.getAverage,
    SimpleMovingAverage.updateAverage, IGNORE_THESE_SAMPLES]

/-- C10 amended: with `0 < MIN ≤ MAX` and `0 < DOWN < 1 < UP`, for a scale `s` in `(MIN, MAX]`,
if one call down-shifts `s` and a later call up-shifts the result (the scale not changed in
between), the scale after the up-shift is `min (max (s * DOWN) MIN * UP) MAX`; it is strictly
larger than the down-shifted scale, and it is at least `s` when `DOWN * UP ≥ 1`. -/
theorem autoAdjustLOD_recovery (K : Constants) (hK : ConstantsOK K) (m m3 : State)
    (f f3 : Frame)
    (hs1 : K.ADJUST_LOD_MIN_SIZE_SCALE < m._octreeSizeScale)
    (hs2 : m._octreeSizeScale ≤ K.ADJUST_LOD_MAX_SIZE_SCALE)
    (hdown : (autoAdjustLOD K m f).emitted = [Signal.LODDecreased])
    (hbetween : m3._octreeSizeScale = (autoAdjustLOD K m f).state._octreeSizeScale)
    (hup : (autoAdjustLOD K m3 f3).emitted = [Signal.LODIncreased]) :
    (autoAdjustLOD K m3 f3).state._octreeSizeScale
        = min (max (m._octreeSizeScale * K.ADJUST_LOD_DOWN_BY) K.ADJUST_LOD_MIN_SIZE_SCALE
            * K.ADJUST_LOD_UP_BY) K.ADJUST_LOD_MAX_SIZE_SCALE
      ∧ (autoAdjustLOD K m3 f3).state._octreeSizeScale > m3._octreeSizeScale
      ∧ (1 ≤ K.ADJUST_LOD_DOWN_BY * K.ADJUST_LOD_UP_BY →
          (autoAdjustLOD K m3 f3).state._octreeSizeScale ≥ m._octreeSizeScale) := by
  obtain ⟨hmin, hle, hd0, hd1, hu1⟩ := hK
  have hpos : 0 < m._octreeSizeScale := lt_trans hmin hs1
  -- the first call is the down-shift path
  have e1 : (autoAdjustLOD K m f).state._octreeSizeScale
      = max (m._octreeSizeScale * K.ADJUST_LOD_DOWN_BY) K.ADJUST_LOD_MIN_SIZE_SCALE := by
    rcases autoAdjustLOD_cases K m f with h | h | h
    · rw [h.2.1] at hdown; exact absurd hdown (by decide)
    · exact h.2.2.2.1
    · rw [h.2.2.2.2.2.1] at hdown; exact absurd hdown (by decide)
  have hfloor : K.ADJUST_LOD_MIN_SIZE_SCALE ≤ m3._octreeSizeScale := by
    rw [hbetween, e1]; exact le_max_right _ _
  -- the second call is the up-shift path
  have e3 : (autoAdjustLOD K m3 f3).state._octreeSizeScale
        = min (m3._octreeSizeScale * K.ADJUST_LOD_UP_BY) K.ADJUST_LOD_MAX_SIZE_SCALE
      ∧ m3._octreeSizeScale < K.ADJUST_LOD_MAX_SIZE_SCALE := by
    rcases autoAdjustLOD_cases K m3 f3 with h | h | h
    · rw [h.2.1] at hup; exact absurd hup (by decide)
    · rw [h.2.2.2.2.1] at hup; exact absurd hup (by decide)
    · obtain ⟨-, -, -, hs, he, -, -⟩ := h
      rw [if_neg (not_lt.mpr hfloor)] at he
      exact ⟨he, hs⟩
  have hpos3 : 0 < m3._octreeSizeScale := lt_of_lt_of_le hmin hfloor
  refine ⟨?_, ?_, ?_⟩
  · rw [e3.1, hbetween, e1]
  · rw [e3.1]; exact lt_min (by nlinarith) e3.2
  · intro hprod
    rw [e3.1]
    refine le_min ?_ hs2
    have h3 : m._octreeSizeScale * K.ADJUST_LOD_DOWN_BY ≤ m3._octreeSizeScale := by
      rw [hbetween, e1]; exact le_max_left _ _
    have hup0 : 0 < K.ADJUST_LOD_UP_BY := lt_trans one_pos hu1
    calc m._octreeSizeScale
        ≤ m._octreeSizeScale * (K.ADJUST_LOD_DOWN_BY * K.ADJUST_LOD_UP_BY) :=
          le_mul_of_one_le_right (le_of_lt hpos) hprod
      _ = m._octreeSizeScale * K.ADJUST_LOD_DOWN_BY * K.ADJUST_LOD_UP_BY := by ring
      _ ≤ m3._octreeSizeScale * K.ADJUST_LOD_UP_BY :=
          mul_le_mul_of_nonneg_right h3 (le_of_lt hup0)

/-- C10 amended, on concrete inputs: with `DOWN = 9/10` and `UP = 5/4`, the down-shift of
scale 100 to 90 followed by the up-shift of 90 ends at or above 100. -/
theorem autoAdjustLOD_recovery_witness :
    (autoAdjustLOD recoveringConstants (sampleState 90 false 60 60 60)
        (sampleFrame 60 3000000)).state._octreeSizeScale
      ≥ (sampleState 100 false 10 10 10)._octreeSizeScale :=
  (autoAdjustLOD_recovery recoveringConstants recoveringConstants_ok
    (sampleState 100 false 10 10 10) (sampleState 90 false 60 60 60)
    (sampleFrame 10 4000000) (sampleFrame 60 3000000)
    (by norm_num [sampleState, sampleConstants, recoveringConstants])
    (by norm_num [sampleState, sampleConstants, recoveringConstants])
    (by norm_num [autoAdjustLOD, feedWindows, inWarmup, sampleFed, doDownShift,
        doneDownShifting, stepUp, stepDown, afterChange, calculateAvatarLODDistanceMultiplier,
        elapsedSinceDownShift, elapsedSinceUpShift, elapsedSinceStableOrUpShift, sub64,
        getLODDecreaseFPS, getLODIncreaseFPS, sampleState, sampleFrame, sampleConstants, recoveringConstants,
        sampleWindow, SimpleMovingAverage.getSampleCount, SimpleMovingAverage.getAverage,
        SimpleMovingAverage.updateAverage, IGNORE_THESE_SAMPLES])
    (by norm_num [autoAdjustLOD, feedWindows, inWarmup, sampleFed, doDownShift,
        doneDownShifting, stepUp, stepDown, afterChange, calculateAvatarLODDistanceMultiplier,
        elapsedSinceDownShift, elapsedSinceUpShift, elapsedSinceStableOrUpShift, sub64,
        getLODDecreaseFPS, getLODIncreaseFPS, sampleState, sampleFrame, sampleConstants, recoveringConstants,
        sampleWindow, SimpleMovingAverage.getSampleCount, SimpleMovingAverage.getAverage,
        SimpleMovingAverage.updateAverage, IGNORE_THESE_SAMPLES])
    (by norm_num [autoAdjustLOD, feedWindows, inWarmup, sampleFed, doDownShift,
        doneDownShifting, stepUp, stepDown, afterChange, calculateAvatarLODDistanceMultiplier,
        elapsedSinceDownShift, elapsedSinceUpShift, elapsedSinceStableOrUpShift, sub64,
        getLODDecreaseFPS, getLODIncreaseFPS, sampleState, sampleFrame, sampleConstants, recoveringConstants,
        sampleWindow, SimpleMovingAverage.getSampleCount, SimpleMovingAverage.getAverage,
        SimpleMovingAverage.updateAverage, IGNORE_THESE_SAMPLES])).2.2
    (by norm_num [sampleConstants, recoveringConstants])

/-! ## The ordered map -/

/-- A key below all keys of the table is inserted in front. -/
theorem mapInsert_front (T : List (ℚ × ℚ)) (k v : ℚ) (h : ∀ e ∈ T, k < e.1) :
    mapInsert T k v = (k, v) :: T := by
  cases T with
  | nil => rfl
  | cons e rest =>
    obtain ⟨k', v'⟩ := e
    have hk : k < k' := h (k', v') (List.mem_cons_self _ _)
    simp [mapInsert, hk]

/-- Inserting commutes with rescaling the values. -/
theorem mapInsert_map (D : ℚ) (T : List (ℚ × ℚ)) (k v : ℚ) :
    mapInsert (T.map (fun e => (e.1, D * e.2))) k (D * v)
      = (mapInsert T k v).map (fun e => (e.1, D * e.2)) := by
  induction T with
  | nil => rfl
  | cons e rest ih =>
    obtain ⟨k', v'⟩ := e
    simp only [List.map_cons, mapInsert]
    split_ifs with h1 h2
    · rfl
    · rfl
    · simp only [List.map_cons]; rw [← ih]

theorem lowerBound_some (T : List (ℚ × ℚ)) (ld : ℚ) (e : ℚ × ℚ)
    (h : lowerBound T ld = some e) : e ∈ T ∧ ld ≤ e.1 := by
  unfold lowerBound at h
  exact ⟨List.mem_of_find?_eq_some h, by simpa using List.find?_some h⟩

theorem lowerBound_none (T : List (ℚ × ℚ)) (ld : ℚ) :
    lowerBound T ld = none ↔ ∀ e ∈ T, e.1 < ld := by
  unfold lowerBound
  simp [List.find?_eq_none]

/-- With ascending keys, the lower bound is the item of least key among those not below
`ld`. -/
theorem lowerBound_least (T : List (ℚ × ℚ)) (ld : ℚ) (e : ℚ × ℚ)
    (hs : T.Pairwise (fun a b => a.1 < b.1)) (h : lowerBound T ld = some e) :
    ∀ e' ∈ T, ld ≤ e'.1 → e.1 ≤ e'.1 := by
  induction T with
  | nil => intro e' he'; simp at he'
  | cons a rest ih =>
    rw [List.pairwise_cons] at hs
    unfold lowerBound at h
    rw [List.find?_cons] at h
    by_cases ha : ld ≤ a.1
    · simp only [ha, decide_True] at h
      have hea : e = a := (Option.some.inj h).symm
      intro e' he' _
      rcases List.mem_cons.mp he' with h1 | h1
      · rw [hea, h1]
      · rw [hea]; exact le_of_lt (hs.1 e' h1)
    · simp only [ha, decide_False] at h
      intro e' he' hle
      rcases List.mem_cons.mp he' with h1 | h1
      · rw [h1] at hle; exact absurd hle ha
      · exact ih hs.2 h e' h1 hle

/-- The lower bound looks at keys only. -/
theorem lowerBound_map (D : ℚ) (T : List (ℚ × ℚ)) (ld : ℚ) :
    lowerBound (T.map (fun e => (e.1, D * e.2))) ld
      = (lowerBound T ld).map (fun e => (e.1, D * e.2)) := by
  unfold lowerBound
  induction T with
  | nil => rfl
  | cons a rest ih =>
    simp only [List.map_cons, List.find?_cons]
    by_cases ha : ld ≤ a.1
    · simp [ha]
    · simp only [ha, decide_False]; exact ih

/-! ## The halving loop -/

theorem halvingLoop_step (s v : ℚ) (T : List (ℚ × ℚ)) (h : s > 1 / 1000) :
    halvingLoop s v T = halvingLoop (s / 2) (v / 2) (mapInsert T (s / 2) (v / 2)) := by
  rw [halvingLoop, if_pos (by unfold SMALLEST_SCALE_IN_TABLE; exact h)]

theorem halvingLoop_stop (s v : ℚ) (T : List (ℚ × ℚ)) (h : ¬ s > 1 / 1000) :
    halvingLoop s v T = T := by
  rw [halvingLoop, if_neg (by unfold SMALLEST_SCALE_IN_TABLE; exact h)]

theorem halvings_step (s : ℚ) (h : s > 1 / 1000) : halvings s = halvings (s / 2) + 1 := by
  rw [halvings, if_pos (by unfold SMALLEST_SCALE_IN_TABLE; exact h)]

theorem halvings_stop (s : ℚ) (h : ¬ s > 1 / 1000) : halvings s = 0 := by
  rw [halvings, if_neg (by unfold SMALLEST_SCALE_IN_TABLE; exact h)]

/-- Induction along the turns of the loop. -/
theorem halvings_cases (s : ℚ) (n : Nat) (h : halvings s = n) :
    (n = 0 ∧ ¬ s > 1 / 1000) ∨ (∃ k, n = k + 1 ∧ s > 1 / 1000 ∧ halvings (s / 2) = k) := by
  by_cases hs : s > 1 / 1000
  · right
    rw [halvings_step s hs] at h
    exact ⟨halvings (s / 2), h.symm, hs, rfl⟩
  · left
    rw [halvings_stop s hs] at h
    exact ⟨h.symm, hs⟩

/-- The loop run on a table whose keys are all at least `s` puts the halved pairs in front. -/
theorem halvingLoop_eq (n : Nat) : ∀ (s v : ℚ) (T : List (ℚ × ℚ)), halvings s = n →
    (∀ e ∈ T, s ≤ e.1) → halvingLoop s v T = halvedPairs n s v ++ T := by
  induction n with
  | zero =>
    intro s v T hn _
    rcases halvings_cases s 0 hn with ⟨-, hs⟩ | ⟨k, hk, -, -⟩
    · rw [halvingLoop_stop s v T hs]; rfl
    · exact absurd hk (by omega)
  | succ n ih =>
    intro s v T hn hT
    rcases halvings_cases s (n + 1) hn with ⟨h0, -⟩ | ⟨k, hk, hs, hrec⟩
    · exact absurd h0 (by omega)
    · have hkn : k = n := by omega
      rw [hkn] at hrec
      have hpos : 0 < s := lt_trans (by norm_num) hs
      have hfront : ∀ e ∈ T, s / 2 < e.1 := fun e he => lt_of_lt_of_le (by linarith) (hT e he)
      rw [halvingLoop_step s v T hs, mapInsert_front T _ _ hfront,
        ih (s / 2) (v / 2) _ hrec]
      · simp [halvedPairs]
      · intro e he
        rcases List.mem_cons.mp he with h1 | h1
        · rw [h1]
        · exact le_of_lt (hfront e h1)

/-- The table built by the loop from an empty table. -/
theorem halvingLoop_nil (s v : ℚ) : halvingLoop s v [] = halvedPairs (halvings s) s v := by
  rw [halvingLoop_eq (halvings s) s v [] rfl (by simp)]; simp

/-- The loop commutes with rescaling the values. -/
theorem halvingLoop_map (D : ℚ) (n : Nat) : ∀ (s v : ℚ) (T : List (ℚ × ℚ)), halvings s = n →
    halvingLoop s (D * v) (T.map (fun e => (e.1, D * e.2)))
      = (halvingLoop s v T).map (fun e => (e.1, D * e.2)) := by
  induction n with
  | zero =>
    intro s v T hn
    rcases halvings_cases s 0 hn with ⟨-, hs⟩ | ⟨k, hk, -, -⟩
    · rw [halvingLoop_stop s _ _ hs, halvingLoop_stop s _ _ hs]
    · exact absurd hk (by omega)
  | succ n ih =>
    intro s v T hn
    rcases halvings_cases s (n + 1) hn with ⟨h0, -⟩ | ⟨k, hk, hs, hrec⟩
    · exact absurd h0 (by omega)
    · have hkn : k = n := by omega
      rw [hkn] at hrec
      rw [halvingLoop_step s _ _ hs, halvingLoop_step s _ _ hs, ← ih (s / 2) (v / 2) _ hrec,
        ← mapInsert_map, mul_div_assoc]

/-- The halved pairs, smallest scale first. -/
theorem halvedPairs_succ (n : Nat) : ∀ (s v : ℚ),
    halvedPairs (n + 1) s v = (s / 2 ^ (n + 1), v / 2 ^ (n + 1)) :: halvedPairs n s v := by
  induction n with
  | zero => intro s v; simp [halvedPairs]
  | succ n ih =>
    intro s v
    have h := ih (s / 2) (v / 2)
    rw [halvedPairs, h, halvedPairs, List.cons_append]
    congr 2
    · rw [div_div, ← pow_succ']
    · rw [div_div, ← pow_succ']

theorem halvedPairs_mem (n : Nat) (s v : ℚ) (e : ℚ × ℚ) :
    e ∈ halvedPairs n s v ↔ ∃ k, 1 ≤ k ∧ k ≤ n ∧ e = (s / 2 ^ k, v / 2 ^ k) := by
  induction n with
  | zero =>
    simp only [halvedPairs, List.not_mem_nil, false_iff]
    rintro ⟨k, h1, h2, -⟩
    omega
  | succ n ih =>
    rw [halvedPairs_succ, List.mem_cons, ih]
    constructor
    · rintro (h | ⟨k, h1, h2, h3⟩)
      · exact ⟨n + 1, by omega, le_refl _, h⟩
      · exact ⟨k, h1, by omega, h3⟩
    · rintro ⟨k, h1, h2, h3⟩
      by_cases hk : k = n + 1
      · left; rw [h3, hk]
      · right; exact ⟨k, h1, by omega, h3⟩

/-- A larger exponent gives a smaller fraction of a positive scale. -/
theorem div_pow_two_lt (s : ℚ) (hs : 0 < s) (j k : Nat) (h : j < k) :
    s / 2 ^ k < s / 2 ^ j := by
  apply div_lt_div_of_pos_left hs (by positivity)
  exact pow_lt_pow_right₀ (by norm_num) h

/-- The halved pairs of a positive scale have strictly ascending keys. -/
theorem halvedPairs_sorted (n : Nat) (s v : ℚ) (hs : 0 < s) :
    (halvedPairs n s v).Pairwise (fun a b => a.1 < b.1) := by
  induction n with
  | zero => exact List.Pairwise.nil
  | succ n ih =>
    rw [halvedPairs_succ, List.pairwise_cons]
    refine ⟨?_, ih⟩
    intro e he
    obtain ⟨k, h1, h2, h3⟩ := (halvedPairs_mem n s v e).mp he
    rw [h3]
    exact div_pow_two_lt s hs k (n + 1) (by omega)

/-- The number of turns is the least `k` with `s / 2 ^ k ≤ 1/1000`. -/
theorem halvings_spec (n : Nat) : ∀ s : ℚ, halvings s = n →
    s / 2 ^ n ≤ 1 / 1000 ∧ ∀ k < n, 1 / 1000 < s / 2 ^ k := by
  induction n with
  | zero =>
    intro s hn
    rcases halvings_cases s 0 hn with ⟨-, hs⟩ | ⟨k, hk, -, -⟩
    · exact ⟨by simpa using not_lt.mp hs, fun k hk => absurd hk (by omega)⟩
    · exact absurd hk (by omega)
  | succ n ih =>
    intro s hn
    rcases halvings_cases s (n + 1) hn with ⟨h0, -⟩ | ⟨k, hk, hs, hrec⟩
    · exact absurd h0 (by omega)
    · have hkn : k = n := by omega
      rw [hkn] at hrec
      obtain ⟨h1, h2⟩ := ih (s / 2) hrec
      refine ⟨?_, ?_⟩
      · rw [pow_succ', ← div_div]; exact h1
      · intro j hj
        cases j with
        | zero => simpa using hs
        | succ j =>
          have := h2 j (by omega)
          rw [pow_succ', ← div_div]; exact this

theorem halvings_unique (s : ℚ) (n : Nat) (h1 : s / 2 ^ n ≤ 1 / 1000)
    (h2 : ∀ k < n, 1 / 1000 < s / 2 ^ k) : halvings s = n := by
  obtain ⟨g1, g2⟩ := halvings_spec (halvings s) s rfl
  rcases Nat.lt_trichotomy (halvings s) n with h | h | h
  · exact absurd (h2 _ h) (not_lt.mpr g1)
  · exact h
  · exact absurd (g2 _ h) (not_lt.mpr h1)

theorem halvings_pos (s : ℚ) (hs : s > 1 / 1000) : 1 ≤ halvings s := by
  rw [halvings_step s hs]; omega

/-- The smallest key of a non-empty table lies in `(1/2000, 1/1000]`. -/
theorem smallest_key_bounds (s : ℚ) (hs : s > 1 / 1000) :
    1 / 2000 < s / 2 ^ halvings s ∧ s / 2 ^ halvings s ≤ 1 / 1000 := by
  obtain ⟨g1, g2⟩ := halvings_spec (halvings s) s rfl
  refine ⟨?_, g1⟩
  have hp := halvings_step s hs
  have h := g2 (halvings (s / 2)) (by omega)
  rw [hp, pow_succ, ← div_div]
  linarith

/-- The number of turns of the loop from the sample world scale 16384. -/
theorem halvings_sample : halvings sampleConstants.TREE_SCALE = 24 := by
  apply halvings_unique
  · norm_num [sampleConstants]
  · intro k hk
    interval_cases k <;> norm_num [sampleConstants]

/-- The table built from an empty table has strictly ascending keys. -/
theorem halvingLoop_nil_sorted (s v : ℚ) :
    (halvingLoop s v []).Pairwise (fun a b => a.1 < b.1) := by
  by_cases hs : s > 1 / 1000
  · rw [halvingLoop_nil]
    exact halvedPairs_sorted _ s v (lt_trans (by norm_num) hs)
  · rw [halvingLoop_stop s v [] hs]
    exact List.Pairwise.nil

/-- All keys of the table built from an empty table are below the starting scale. -/
theorem halvingLoop_nil_keys_lt (s v : ℚ) : ∀ e ∈ halvingLoop s v [], e.1 < s := by
  intro e he
  by_cases hs : s > 1 / 1000
  · rw [halvingLoop_nil, halvedPairs_mem] at he
    obtain ⟨k, h1, -, h3⟩ := he
    rw [h3]
    have := div_pow_two_lt s (lt_trans (by norm_num) hs) 0 k (by omega)
    simpa using this
  · rw [halvingLoop_stop s v [] hs] at he
    simp at he

/-- The factor table is the distance table for distance 1, so the distance table is the factor
table rescaled. -/
theorem halvingLoop_nil_scaled (D s : ℚ) :
    halvingLoop s D [] = (halvingLoop s 1 []).map (fun e => (e.1, D * e.2)) := by
  have h := halvingLoop_map D (halvings s) s 1 [] rfl
  simpa using h

/-! ## `shouldRenderMesh` and `shouldRender` on a usable table -/

/-- On a usable table, `shouldRenderMesh` leaves the fresh table behind, with the flag clear,
and touches nothing else. -/
theorem shouldRenderMesh_state (K : Constants) (B : Int → ℚ → ℚ) (m : State) (ld d : ℚ)
    (hinv : TableInv K B m) :
    (shouldRenderMesh K B m ld d).2
      = { m with _shouldRenderTable := freshTable K B m,
                 _shouldRenderTableNeedsRebuilding := false } := by
  unfold shouldRenderMesh
  cases hd : m._shouldRenderTableNeedsRebuilding
  · have ht := hinv hd
    simp only [Bool.false_eq_true, if_false]
    calc m = { m with _shouldRenderTable := m._shouldRenderTable,
                      _shouldRenderTableNeedsRebuilding :=
                        m._shouldRenderTableNeedsRebuilding } := rfl
      _ = { m with _shouldRenderTable := freshTable K B m,
                   _shouldRenderTableNeedsRebuilding := false } := by rw [ht, hd]
  · simp only [if_true]; rfl

/-- On a usable table, the answer of `shouldRenderMesh` is computed from the fresh table. -/
theorem shouldRenderMesh_result (K : Constants) (B : Int → ℚ → ℚ) (m : State) (ld d : ℚ)
    (hinv : TableInv K B m) :
    (shouldRenderMesh K B m ld d).1
      = decide (d ≤ correctedVisibleDistance
          (closestMeshEntry (freshTable K B m) K.TREE_SCALE
            (visibleDistanceAtMaxScale B m._boundaryLevelAdjust m._octreeSizeScale) ld) ld) := by
  unfold shouldRenderMesh
  cases hd : m._shouldRenderTableNeedsRebuilding
  · have ht := hinv hd
    simp only [Bool.false_eq_true, if_false]
    rw [ht]
  · simp only [if_true]; rfl

/-- With valid statics, `shouldRender` leaves the factor table behind, built. -/
theorem shouldRender_state (K : Constants) (B : Int → ℚ → ℚ) (st : ShouldRenderStatics)
    (sizeScale : ℚ) (bla : Int) (ld d : ℚ) (hinv : StaticsInv K st) :
    (shouldRender K B st sizeScale bla ld d).2
      = { shouldRenderTableNeedsBuilding := false,
          shouldRenderTable := halvingLoop K.TREE_SCALE 1 [] } := by
  unfold shouldRender
  rcases hinv with ⟨h1, h2⟩ | ⟨h1, h2⟩
  · simp only [h1, if_true, h2]
  · simp only [h1, Bool.false_eq_true, if_false]
    cases st
    simp only at h1 h2
    subst h1; subst h2
    rfl

/-- With valid statics, the answer of `shouldRender` is computed from the factor table. -/
theorem shouldRender_result (K : Constants) (B : Int → ℚ → ℚ) (st : ShouldRenderStatics)
    (sizeScale : ℚ) (bla : Int) (ld d : ℚ) (hinv : StaticsInv K st) :
    (shouldRender K B st sizeScale bla ld d).1
      = decide (d ≤ correctedVisibleDistance
          (closestFactorEntry (halvingLoop K.TREE_SCALE 1 []) K.TREE_SCALE
            (visibleDistanceAtMaxScale B bla sizeScale) ld) ld) := by
  unfold shouldRender
  rcases hinv with ⟨h1, h2⟩ | ⟨h1, h2⟩
  · simp only [h1, if_true, h2]
  · simp only [h1, Bool.false_eq_true, if_false, h2]

/-- The two lookups agree when the distance table is the rescaled factor table. -/
theorem closestFactorEntry_eq (D S ld : ℚ) :
    closestFactorEntry (halvingLoop S 1 []) S D ld = closestMeshEntry (halvingLoop S D []) S D ld := by
  unfold closestFactorEntry closestMeshEntry
  rw [halvingLoop_nil_scaled D S, lowerBound_map]
  cases lowerBound (halvingLoop S 1 []) ld <;> rfl

/-- A dirty table is usable: it is rebuilt before it is read. -/
theorem TableInv_of_dirty (K : Constants) (B : Int → ℚ → ℚ) (m : State)
    (h : m._shouldRenderTableNeedsRebuilding = true) : TableInv K B m := by
  intro h2
  rw [h] at h2
  exact absurd h2 (by decide)

/-- The lookup on a table with ascending keys: the item of least key not below `ld` when there
is one, the fallback pair otherwise. -/
theorem closestMeshEntry_spec (T : List (ℚ × ℚ)) (S D ld : ℚ)
    (hs : T.Pairwise (fun a b => a.1 < b.1)) :
    ((∃ e ∈ T, ld ≤ e.1) →
        closestMeshEntry T S D ld ∈ T ∧ ld ≤ (closestMeshEntry T S D ld).1
          ∧ ∀ e ∈ T, ld ≤ e.1 → (closestMeshEntry T S D ld).1 ≤ e.1)
      ∧ ((∀ e ∈ T, e.1 < ld) → closestMeshEntry T S D ld = (S, D)) := by
  unfold closestMeshEntry
  cases hl : lowerBound T ld with
  | none =>
    have hnone := (lowerBound_none T ld).mp hl
    refine ⟨?_, fun _ => rfl⟩
    rintro ⟨e, he, hle⟩
    exact absurd (hnone e he) (not_lt.mpr hle)
  | some a =>
    obtain ⟨hmem, hle⟩ := lowerBound_some T ld a hl
    refine ⟨fun _ => ⟨hmem, hle, lowerBound_least T ld a hs hl⟩, ?_⟩
    intro hall
    exact absurd (hall a hmem) (not_lt.mpr hle)

/-- C11: on a freshly built table (dirty flag set, or cached table equal to the rebuilt one),
`shouldRenderMesh` returns `distanceToCamera ≤ c`, where `c` comes from the looked-up pair:
the pair of the smallest table threshold that is at least `largestDimension`, or, when no
threshold is that large, the world scale with `visibleDistanceAtMaxScale`; the distance of
the pair is doubled when its scale is strictly smaller than `largestDimension`. -/
theorem shouldRenderMesh_decision (K : Constants) (B : Int → ℚ → ℚ) (m : State) (ld d : ℚ)
    (hinv : TableInv K B m) :
    (shouldRenderMesh K B m ld d).1
        = decide (d ≤ correctedVisibleDistance
            (closestMeshEntry (freshTable K B m) K.TREE_SCALE
              (visibleDistanceAtMaxScale B m._boundaryLevelAdjust m._octreeSizeScale) ld) ld)
      ∧ ((∃ e ∈ freshTable K B m, ld ≤ e.1) →
          closestMeshEntry (freshTable K B m) K.TREE_SCALE
              (visibleDistanceAtMaxScale B m._boundaryLevelAdjust m._octreeSizeScale) ld
            ∈ freshTable K B m
          ∧ ld ≤ (closestMeshEntry (freshTable K B m) K.TREE_SCALE
              (visibleDistanceAtMaxScale B m._boundaryLevelAdjust m._octreeSizeScale) ld).1
          ∧ ∀ e ∈ freshTable K B m, ld ≤ e.1 →
              (closestMeshEntry (freshTable K B m) K.TREE_SCALE
                (visibleDistanceAtMaxScale B m._boundaryLevelAdjust m._octreeSizeScale) ld).1
                ≤ e.1)
      ∧ ((∀ e ∈ freshTable K B m, e.1 < ld) →
          closestMeshEntry (freshTable K B m) K.TREE_SCALE
              (visibleDistanceAtMaxScale B m._boundaryLevelAdjust m._octreeSizeScale) ld
            = (K.TREE_SCALE,
                visibleDistanceAtMaxScale B m._boundaryLevelAdjust m._octreeSizeScale))
      ∧ (∀ e : ℚ × ℚ,
          correctedVisibleDistance e ld = if e.1 < ld then 2 * e.2 else e.2) := by
  have hsorted : (freshTable K B m).Pairwise (fun a b => a.1 < b.1) :=
    halvingLoop_nil_sorted _ _
  obtain ⟨h1, h2⟩ := closestMeshEntry_spec (freshTable K B m) K.TREE_SCALE
    (visibleDistanceAtMaxScale B m._boundaryLevelAdjust m._octreeSizeScale) ld hsorted
  refine ⟨shouldRenderMesh_result K B m ld d hinv, h1, h2, ?_⟩
  intro e
  unfold correctedVisibleDistance
  split_ifs
  · ring
  · rfl

/-- C11 on concrete inputs: the sample controller at scale 6553600 with a dirty table; an
object of size 3 at distance 10, and an object of size 20000, above every threshold, which
falls back to the world scale 16384. -/
theorem shouldRenderMesh_decision_witness :
    (shouldRenderMesh sampleConstants sampleBoundaryDistance
        (sampleState 6553600 false 60 60 60) 3 10).1
      = decide ((10 : ℚ) ≤ correctedVisibleDistance
          (closestMeshEntry
            (freshTable sampleConstants sampleBoundaryDistance
              (sampleState 6553600 false 60 60 60))
            sampleConstants.TREE_SCALE
            (visibleDistanceAtMaxScale sampleBoundaryDistance
              (sampleState 6553600 false 60 60 60)._boundaryLevelAdjust
              (sampleState 6553600 false 60 60 60)._octreeSizeScale) 3) 3)
    ∧ closestMeshEntry
        (freshTable sampleConstants sampleBoundaryDistance
          (sampleState 6553600 false 60 60 60))
        sampleConstants.TREE_SCALE
        (visibleDistanceAtMaxScale sampleBoundaryDistance
          (sampleState 6553600 false 60 60 60)._boundaryLevelAdjust
          (sampleState 6553600 false 60 60 60)._octreeSizeScale) 20000
      = (sampleConstants.TREE_SCALE,
          visibleDistanceAtMaxScale sampleBoundaryDistance
            (sampleState 6553600 false 60 60 60)._boundaryLevelAdjust
            (sampleState 6553600 false 60 60 60)._octreeSizeScale) :=
  ⟨(shouldRenderMesh_decision sampleConstants sampleBoundaryDistance
      (sampleState 6553600 false 60 60 60) 3 10
      (TableInv_of_dirty _ _ _ rfl)).1,
    (shouldRenderMesh_decision sampleConstants sampleBoundaryDistance
      (sampleState 6553600 false 60 60 60) 20000 10
      (TableInv_of_dirty _ _ _ rfl)).2.2.1
      (fun e he => lt_trans (halvingLoop_nil_keys_lt _ _ e he)
        (by norm_num [sampleConstants]))⟩

theorem feedWindows_table (K : Constants) (m : State) (f : Frame) :
    (feedWindows K m f)._shouldRenderTable = m._shouldRenderTable
      ∧ (feedWindows K m f)._boundaryLevelAdjust = m._boundaryLevelAdjust := by
  unfold feedWindows; split_ifs <;> exact ⟨rfl, rfl⟩

/-- `autoAdjustLOD` never writes the table or the boundary level adjust. -/
theorem autoAdjustLOD_table (K : Constants) (m : State) (f : Frame) :
    (autoAdjustLOD K m f).state._shouldRenderTable = m._shouldRenderTable
      ∧ (autoAdjustLOD K m f).state._boundaryLevelAdjust = m._boundaryLevelAdjust := by
  obtain ⟨a, b, c, d, e, g, h, heq⟩ := autoAdjustLOD_after_feed K m f
  rw [heq]
  exact feedWindows_table K m f

/-- The rebuilt table depends on the scale and the boundary level adjust only. -/
theorem freshTable_congr (K : Constants) (B : Int → ℚ → ℚ) (m m' : State)
    (h1 : m'._octreeSizeScale = m._octreeSizeScale)
    (h2 : m'._boundaryLevelAdjust = m._boundaryLevelAdjust) :
    freshTable K B m' = freshTable K B m := by
  unfold freshTable; rw [h1, h2]

/-- Every call keeps the cached table usable. -/
theorem applyCall_TableInv (K : Constants) (B : Int → ℚ → ℚ) (m : State) (c : Call)
    (hinv : TableInv K B m) : TableInv K B (applyCall K B m c) := by
  cases c with
  | setOctreeSizeScale x => exact TableInv_of_dirty _ _ _ rfl
  | setBoundaryLevelAdjust b => exact TableInv_of_dirty _ _ _ rfl
  | autoAdjustLOD f =>
    intro hclean
    simp only [applyCall] at hclean ⊢
    obtain ⟨ht, hb⟩ := autoAdjustLOD_table K m f
    rcases autoAdjustLOD_cases K m f with h | h | h
    · obtain ⟨hs, -, hd⟩ := h
      rw [hd] at hclean
      rw [ht, freshTable_congr K B m _ hs hb]
      exact hinv hclean
    · rw [h.2.2.2.2.2] at hclean; exact absurd hclean (by decide)
    · rw [h.2.2.2.2.2.2] at hclean; exact absurd hclean (by decide)
  | shouldRenderMesh ld d =>
    intro _
    simp only [applyCall]
    rw [shouldRenderMesh_state K B m ld d hinv]
    rfl

theorem applyCalls_TableInv (K : Constants) (B : Int → ℚ → ℚ) (calls : List Call) :
    ∀ m : State, TableInv K B m → TableInv K B (applyCalls K B m calls) := by
  induction calls with
  | nil => intro m h; exact h
  | cons c cs ih =>
    intro m h
    exact ih _ (applyCall_TableInv K B m c h)

/-- On a usable table the answer is the one a forced rebuild gives. -/
theorem shouldRenderMesh_as_rebuilt (K : Constants) (B : Int → ℚ → ℚ) (m : State) (ld d : ℚ)
    (hinv : TableInv K B m) :
    (shouldRenderMesh K B m ld d).1
      = (shouldRenderMesh K B { m with _shouldRenderTableNeedsRebuilding := true } ld d).1 := by
  rw [shouldRenderMesh_result K B m ld d hinv,
    shouldRenderMesh_result K B _ ld d (TableInv_of_dirty K B _ rfl)]
  rfl

/-- C13: starting from a state whose dirty flag is set, after every sequence of
`setOctreeSizeScale`, `setBoundaryLevelAdjust`, `autoAdjustLOD` and `shouldRenderMesh` calls,
whenever the dirty flag is clear the cached table is the table a rebuild would produce from
the current scale and boundary level adjust. Both setters set the flag, every call of
`autoAdjustLOD` that emits a signal or changes the scale sets it, `setBoundaryLevelAdjust`
keeps the scale, and `shouldRenderMesh` answers as after a forced rebuild. -/
theorem table_never_stale (K : Constants) (B : Int → ℚ → ℚ) (m : State)
    (hdirty : m._shouldRenderTableNeedsRebuilding = true) :
    (∀ calls : List Call,
        (applyCalls K B m calls)._shouldRenderTableNeedsRebuilding = false →
          (applyCalls K B m calls)._shouldRenderTable
            = freshTable K B (applyCalls K B m calls))
      ∧ (∀ (m' : State) (x : ℚ),
          (setOctreeSizeScale K m' x)._shouldRenderTableNeedsRebuilding = true)
      ∧ (∀ (m' : State) (b : Int),
          (setBoundaryLevelAdjust m' b)._shouldRenderTableNeedsRebuilding = true
            ∧ (setBoundaryLevelAdjust m' b)._octreeSizeScale = m'._octreeSizeScale)
      ∧ (∀ (m' : State) (f : Frame),
          ((autoAdjustLOD K m' f).emitted ≠ []
              ∨ (autoAdjustLOD K m' f).state._octreeSizeScale ≠ m'._octreeSizeScale) →
            (autoAdjustLOD K m' f).state._shouldRenderTableNeedsRebuilding = true)
      ∧ (∀ (calls : List Call) (ld d : ℚ),
          (shouldRenderMesh K B (applyCalls K B m calls) ld d).1
            = (shouldRenderMesh K B
                { applyCalls K B m calls with _shouldRenderTableNeedsRebuilding := true }
                ld d).1) := by
  have hinv : ∀ calls : List Call, TableInv K B (applyCalls K B m calls) :=
    fun calls => applyCalls_TableInv K B calls m (TableInv_of_dirty K B m hdirty)
  refine ⟨hinv, fun _ _ => rfl, fun _ _ => ⟨rfl, rfl⟩, ?_, ?_⟩
  · intro m' f hshift
    rcases autoAdjustLOD_cases K m' f with h | h | h
    · rcases hshift with h1 | h1
      · exact absurd h.2.1 h1
      · exact absurd h.1 h1
    · exact h.2.2.2.2.2
    · exact h.2.2.2.2.2.2
  · intro calls ld d
    exact shouldRenderMesh_as_rebuilt K B _ ld d (hinv calls)

/-- C13 on concrete inputs: the sample controller with a dirty table, after a visibility
query, a change of the boundary level adjust to 2, and a second query: the flag is clear and
the cached table is the one rebuilt for the new boundary level adjust. -/
theorem table_never_stale_witness :
    (applyCalls sampleConstants sampleBoundaryDistance (sampleState 6553600 false 60 60 60)
        [Call.shouldRenderMesh 3 10, Call.setBoundaryLevelAdjust 2,
          Call.shouldRenderMesh 3 10])._shouldRenderTable
      = freshTable sampleConstants sampleBoundaryDistance
          (applyCalls sampleConstants sampleBoundaryDistance
            (sampleState 6553600 false 60 60 60)
            [Call.shouldRenderMesh 3 10, Call.setBoundaryLevelAdjust 2,
              Call.shouldRenderMesh 3 10]) :=
  (table_never_stale sampleConstants sampleBoundaryDistance
    (sampleState 6553600 false 60 60 60) rfl).1
    [Call.shouldRenderMesh 3 10, Call.setBoundaryLevelAdjust 2, Call.shouldRenderMesh 3 10]
    (by
      simp only [applyCalls, applyCall]
      rw [shouldRenderMesh_state _ _ _ _ _ (TableInv_of_dirty _ _ _ rfl)])

/-- C14: with the statics of `shouldRender` as its calls leave them and a usable table in the
`LODManager`, `shouldRender` called with the manager's size scale and boundary level adjust
returns the same boolean as `shouldRenderMesh`, for every largest dimension and camera
distance (arithmetic over the rationals). -/
theorem shouldRender_agrees (K : Constants) (B : Int → ℚ → ℚ) (st : ShouldRenderStatics)
    (m : State) (ld d : ℚ) (hst : StaticsInv K st) (hinv : TableInv K B m) :
    (shouldRender K B st m._octreeSizeScale m._boundaryLevelAdjust ld d).1
      = (shouldRenderMesh K B m ld d).1 := by
  rw [shouldRender_result K B st _ _ ld d hst, shouldRenderMesh_result K B m ld d hinv,
    closestFactorEntry_eq]
  rfl

/-- C14 on concrete inputs: the first call of `shouldRender` and the sample controller with a
dirty table, at size scale 6553600, for an object of size 3 at distance 10. -/
theorem shouldRender_agrees_witness :
    (shouldRender sampleConstants sampleBoundaryDistance ShouldRenderStatics.initial
        (sampleState 6553600 false 60 60 60)._octreeSizeScale
        (sampleState 6553600 false 60 60 60)._boundaryLevelAdjust 3 10).1
      = (shouldRenderMesh sampleConstants sampleBoundaryDistance
          (sampleState 6553600 false 60 60 60) 3 10).1 :=
  shouldRender_agrees sampleConstants sampleBoundaryDistance ShouldRenderStatics.initial
    (sampleState 6553600 false 60 60 60) 3 10 (Or.inl ⟨rfl, rfl⟩)
    (TableInv_of_dirty _ _ _ rfl)

/-! ## Small and large objects -/

/-- An object not larger than the smallest threshold matches the smallest-threshold row. -/
theorem closestMeshEntry_floor (S D D' ld : ℚ) (hS : S > 1 / 1000)
    (hld : ld ≤ S / 2 ^ halvings S) :
    (halvingLoop S D []).head? = some (S / 2 ^ halvings S, D / 2 ^ halvings S)
      ∧ closestMeshEntry (halvingLoop S D []) S D' ld
          = (S / 2 ^ halvings S, D / 2 ^ halvings S)
      ∧ correctedVisibleDistance (S / 2 ^ halvings S, D / 2 ^ halvings S) ld
          = D / 2 ^ halvings S := by
  have hn := halvings_pos S hS
  obtain ⟨j, hj⟩ : ∃ j, halvings S = j + 1 := ⟨halvings S - 1, by omega⟩
  have htab : halvingLoop S D []
      = (S / 2 ^ halvings S, D / 2 ^ halvings S) :: halvedPairs j S D := by
    rw [halvingLoop_nil, hj, halvedPairs_succ]
  refine ⟨by rw [htab]; rfl, ?_, ?_⟩
  · unfold closestMeshEntry lowerBound
    rw [htab, List.find?_cons]
    simp [hld]
  · unfold correctedVisibleDistance
    simp [not_lt.mpr hld]

/-- The answers of both functions for an object not larger than the smallest threshold. -/
theorem below_floor_result (K : Constants) (B : Int → ℚ → ℚ) (st : ShouldRenderStatics)
    (m : State) (ld d : ℚ) (hS : K.TREE_SCALE > 1 / 1000) (hst : StaticsInv K st)
    (hinv : TableInv K B m) (hld : ld ≤ K.TREE_SCALE / 2 ^ halvings K.TREE_SCALE) :
    (shouldRenderMesh K B m ld d).1
        = decide (d ≤ visibleDistanceAtMaxScale B m._boundaryLevelAdjust m._octreeSizeScale
            / 2 ^ halvings K.TREE_SCALE)
      ∧ (shouldRender K B st m._octreeSizeScale m._boundaryLevelAdjust ld d).1
        = decide (d ≤ visibleDistanceAtMaxScale B m._boundaryLevelAdjust m._octreeSizeScale
            / 2 ^ halvings K.TREE_SCALE) := by
  obtain ⟨-, h2, h3⟩ := closestMeshEntry_floor K.TREE_SCALE
    (visibleDistanceAtMaxScale B m._boundaryLevelAdjust m._octreeSizeScale)
    (visibleDistanceAtMaxScale B m._boundaryLevelAdjust m._octreeSizeScale) ld hS hld
  have hmesh : (shouldRenderMesh K B m ld d).1
      = decide (d ≤ visibleDistanceAtMaxScale B m._boundaryLevelAdjust m._octreeSizeScale
          / 2 ^ halvings K.TREE_SCALE) := by
    rw [shouldRenderMesh_result K B m ld d hinv]
    unfold freshTable
    rw [h2, h3]
  refine ⟨hmesh, ?_⟩
  rw [← hmesh]
  rw [shouldRender_result K B st _ _ ld d hst, shouldRenderMesh_result K B m ld d hinv,
    closestFactorEntry_eq]
  rfl

/-- The lookup on the built table: a found row has its scale at least `ld` and below the
world scale; the fallback is the world scale. -/
theorem closestMeshEntry_cases (S D ld : ℚ) :
    (ld ≤ S → ld ≤ (closestMeshEntry (halvingLoop S D []) S D ld).1
        ∧ correctedVisibleDistance (closestMeshEntry (halvingLoop S D []) S D ld) ld
            = (closestMeshEntry (halvingLoop S D []) S D ld).2)
      ∧ (S < ld → closestMeshEntry (halvingLoop S D []) S D ld = (S, D)
        ∧ correctedVisibleDistance (closestMeshEntry (halvingLoop S D []) S D ld) ld = 2 * D)
      ∧ ((closestMeshEntry (halvingLoop S D []) S D ld).1 < ld ↔ S < ld) := by
  unfold closestMeshEntry correctedVisibleDistance
  cases hl : lowerBound (halvingLoop S D []) ld with
  | none =>
    dsimp only
    refine ⟨fun h => ⟨h, by rw [if_neg (not_lt.mpr h)]⟩,
      fun h => ⟨rfl, by rw [if_pos h]; ring⟩, Iff.rfl⟩
  | some a =>
    obtain ⟨hmem, hle⟩ := lowerBound_some _ ld a hl
    have hlt := halvingLoop_nil_keys_lt S D a hmem
    dsimp only
    refine ⟨fun _ => ⟨hle, by rw [if_neg (not_lt.mpr hle)]⟩, fun h => ?_, ?_⟩
    · exact absurd (lt_of_le_of_lt hle hlt) (not_lt.mpr (le_of_lt h))
    · constructor
      · intro h; exact absurd h (not_lt.mpr hle)
      · intro h; exact absurd (lt_of_le_of_lt hle hlt) (not_lt.mpr (le_of_lt h))

/-- The answers of both functions for an object larger than the world scale. -/
theorem above_world_result (K : Constants) (B : Int → ℚ → ℚ) (st : ShouldRenderStatics)
    (m : State) (ld d : ℚ) (hst : StaticsInv K st) (hinv : TableInv K B m)
    (hld : K.TREE_SCALE < ld) :
    (shouldRenderMesh K B m ld d).1
        = decide (d ≤ 2 * visibleDistanceAtMaxScale B m._boundaryLevelAdjust m._octreeSizeScale)
      ∧ (shouldRender K B st m._octreeSizeScale m._boundaryLevelAdjust ld d).1
        = decide (d ≤ 2 * visibleDistanceAtMaxScale B m._boundaryLevelAdjust
            m._octreeSizeScale) := by
  have h := ((closestMeshEntry_cases K.TREE_SCALE
    (visibleDistanceAtMaxScale B m._boundaryLevelAdjust m._octreeSizeScale) ld).2.1 hld).2
  refine ⟨?_, ?_⟩
  · rw [shouldRenderMesh_result K B m ld d hinv]
    unfold freshTable
    rw [h]
  · rw [shouldRender_result K B st _ _ ld d hst, closestFactorEntry_eq, h]

/-- C15 fails as stated: with the sample constants (world scale 16384) at the maximum scale
6553600 and boundary level adjust 0, the closest-range row has distance `25/256`, and an
object of size 0.0005 at distance 1000 is reported not visible by both functions. -/
theorem subfloor_object_hidden_at_1000 :
    scaleInBounds sampleConstants (sampleState 6553600 false 60 60 60)
      ∧ 0 ≤ (sampleState 6553600 false 60 60 60)._boundaryLevelAdjust
      ∧ (shouldRenderMesh sampleConstants sampleBoundaryDistance
          (sampleState 6553600 false 60 60 60) (1 / 2000) 1000).1 = false
      ∧ (shouldRender sampleConstants sampleBoundaryDistance ShouldRenderStatics.initial
          (sampleState 6553600 false 60 60 60)._octreeSizeScale
          (sampleState 6553600 false 60 60 60)._boundaryLevelAdjust (1 / 2000) 1000).1
        = false := by
  have hS : sampleConstants.TREE_SCALE > 1 / 1000 := by norm_num [sampleConstants]
  obtain ⟨h1, h2⟩ := below_floor_result sampleConstants sampleBoundaryDistance
    ShouldRenderStatics.initial (sampleState 6553600 false 60 60 60) (1 / 2000) 1000 hS
    (Or.inl ⟨rfl, rfl⟩) (TableInv_of_dirty _ _ _ rfl)
    (le_of_lt (smallest_key_bounds _ hS).1)
  rw [h1, h2, halvings_sample]
  norm_num [scaleInBounds, sampleState, sampleConstants, visibleDistanceAtMaxScale,
    sampleBoundaryDistance]

/-- C15 amended: with `TREE_SCALE > 1/1000`, for every scale and boundary level adjust an
object of size 0.0005 matches the closest-range row (the smallest threshold `S / 2 ^ n`), and
at distance 1000 it is reported visible by `shouldRenderMesh` and by `shouldRender` exactly
when the distance of that row, `visibleDistanceAtMaxScale / 2 ^ n`, is at least 1000. -/
theorem subfloor_object_visibility (K : Constants) (B : Int → ℚ → ℚ)
    (st : ShouldRenderStatics) (m : State) (hS : K.TREE_SCALE > 1 / 1000)
    (hst : StaticsInv K st) (hinv : TableInv K B m) :
    closestMeshEntry (freshTable K B m) K.TREE_SCALE
        (visibleDistanceAtMaxScale B m._boundaryLevelAdjust m._octreeSizeScale) (1 / 2000)
      = (K.TREE_SCALE / 2 ^ halvings K.TREE_SCALE,
          visibleDistanceAtMaxScale B m._boundaryLevelAdjust m._octreeSizeScale
            / 2 ^ halvings K.TREE_SCALE)
    ∧ (shouldRenderMesh K B m (1 / 2000) 1000).1
        = decide (1000 ≤ visibleDistanceAtMaxScale B m._boundaryLevelAdjust m._octreeSizeScale
            / 2 ^ halvings K.TREE_SCALE)
    ∧ (shouldRender K B st m._octreeSizeScale m._boundaryLevelAdjust (1 / 2000) 1000).1
        = decide (1000 ≤ visibleDistanceAtMaxScale B m._boundaryLevelAdjust m._octreeSizeScale
            / 2 ^ halvings K.TREE_SCALE) := by
  have hld : (1 / 2000 : ℚ) ≤ K.TREE_SCALE / 2 ^ halvings K.TREE_SCALE :=
    le_of_lt (smallest_key_bounds _ hS).1
  obtain ⟨h1, h2⟩ := below_floor_result K B st m (1 / 2000) 1000 hS hst hinv hld
  exact ⟨(closestMeshEntry_floor K.TREE_SCALE _ _ (1 / 2000) hS hld).2.1, h1, h2⟩

/-- C15 amended, on concrete inputs: the sample constants at scale 6553600. -/
theorem subfloor_object_visibility_witness :
    (shouldRenderMesh sampleConstants sampleBoundaryDistance
        (sampleState 6553600 false 60 60 60) (1 / 2000) 1000).1
      = decide (1000 ≤ visibleDistanceAtMaxScale sampleBoundaryDistance
          (sampleState 6553600 false 60 60 60)._boundaryLevelAdjust
          (sampleState 6553600 false 60 60 60)._octreeSizeScale
            / 2 ^ halvings sampleConstants.TREE_SCALE) :=
  (subfloor_object_visibility sampleConstants sampleBoundaryDistance
    ShouldRenderStatics.initial (sampleState 6553600 false 60 60 60)
    (by norm_num [sampleConstants]) (Or.inl ⟨rfl, rfl⟩) (TableInv_of_dirty _ _ _ rfl)).2.1

/-- C16: with `TREE_SCALE > 1/1000`, the smallest threshold `S / 2 ^ n` is positive, and for
every `largestDimension` not above it (so for every `largestDimension ≤ 0`) and every
distance, the lookup of `shouldRenderMesh` and of `shouldRender` finds the smallest-threshold
row, the first of the table, applies no doubling, and the functions return
`distance ≤ visibleDistanceAtMaxScale / 2 ^ n`, the distance of that row. -/
theorem lookup_below_floor (K : Constants) (B : Int → ℚ → ℚ) (st : ShouldRenderStatics)
    (m : State) (ld d : ℚ) (hS : K.TREE_SCALE > 1 / 1000) (hst : StaticsInv K st)
    (hinv : TableInv K B m) (hld : ld ≤ K.TREE_SCALE / 2 ^ halvings K.TREE_SCALE) :
    0 < K.TREE_SCALE / 2 ^ halvings K.TREE_SCALE
      ∧ (freshTable K B m).head?
          = some (K.TREE_SCALE / 2 ^ halvings K.TREE_SCALE,
              visibleDistanceAtMaxScale B m._boundaryLevelAdjust m._octreeSizeScale
                / 2 ^ halvings K.TREE_SCALE)
      ∧ closestMeshEntry (freshTable K B m) K.TREE_SCALE
            (visibleDistanceAtMaxScale B m._boundaryLevelAdjust m._octreeSizeScale) ld
          = (K.TREE_SCALE / 2 ^ halvings K.TREE_SCALE,
              visibleDistanceAtMaxScale B m._boundaryLevelAdjust m._octreeSizeScale
                / 2 ^ halvings K.TREE_SCALE)
      ∧ closestFactorEntry (halvingLoop K.TREE_SCALE 1 []) K.TREE_SCALE
            (visibleDistanceAtMaxScale B m._boundaryLevelAdjust m._octreeSizeScale) ld
          = (K.TREE_SCALE / 2 ^ halvings K.TREE_SCALE,
              visibleDistanceAtMaxScale B m._boundaryLevelAdjust m._octreeSizeScale
                / 2 ^ halvings K.TREE_SCALE)
      ∧ correctedVisibleDistance (K.TREE_SCALE / 2 ^ halvings K.TREE_SCALE,
              visibleDistanceAtMaxScale B m._boundaryLevelAdjust m._octreeSizeScale
                / 2 ^ halvings K.TREE_SCALE) ld
          = visibleDistanceAtMaxScale B m._boundaryLevelAdjust m._octreeSizeScale
              / 2 ^ halvings K.TREE_SCALE
      ∧ (shouldRenderMesh K B m ld d).1
          = decide (d ≤ visibleDistanceAtMaxScale B m._boundaryLevelAdjust m._octreeSizeScale
              / 2 ^ halvings K.TREE_SCALE)
      ∧ (shouldRender K B st m._octreeSizeScale m._boundaryLevelAdjust ld d).1
          = decide (d ≤ visibleDistanceAtMaxScale B m._boundaryLevelAdjust m._octreeSizeScale
              / 2 ^ halvings K.TREE_SCALE) := by
  obtain ⟨g1, g2, g3⟩ := closestMeshEntry_floor K.TREE_SCALE
    (visibleDistanceAtMaxScale B m._boundaryLevelAdjust m._octreeSizeScale)
    (visibleDistanceAtMaxScale B m._boundaryLevelAdjust m._octreeSizeScale) ld hS hld
  obtain ⟨h1, h2⟩ := below_floor_result K B st m ld d hS hst hinv hld
  refine ⟨lt_trans (by norm_num) (smallest_key_bounds _ hS).1, g1, g2, ?_, g3, h1, h2⟩
  rw [closestFactorEntry_eq]; exact g2

/-- C16 on concrete inputs: the sample constants at scale 6553600, an object of size 0 at
distance 0. -/
theorem lookup_below_floor_witness :
    (shouldRenderMesh sampleConstants sampleBoundaryDistance
        (sampleState 6553600 false 60 60 60) 0 0).1
      = decide ((0 : ℚ) ≤ visibleDistanceAtMaxScale sampleBoundaryDistance
          (sampleState 6553600 false 60 60 60)._boundaryLevelAdjust
          (sampleState 6553600 false 60 60 60)._octreeSizeScale
            / 2 ^ halvings sampleConstants.TREE_SCALE) :=
  (lookup_below_floor sampleConstants sampleBoundaryDistance
    ShouldRenderStatics.initial (sampleState 6553600 false 60 60 60) 0 0
    (by norm_num [sampleConstants]) (Or.inl ⟨rfl, rfl⟩) (TableInv_of_dirty _ _ _ rfl)
    (by rw [halvings_sample]; norm_num [sampleConstants])).2.2.2.2.2.1

/-! ## Monotonicity and idempotence -/

/-- A second query on the state a first query leaves answers as on the state before. -/
theorem shouldRenderMesh_again (K : Constants) (B : Int → ℚ → ℚ) (m : State)
    (ld d ld' d' : ℚ) :
    (shouldRenderMesh K B (shouldRenderMesh K B m ld d).2 ld' d').1
      = (shouldRenderMesh K B m ld' d').1 := by
  unfold shouldRenderMesh
  cases hd : m._shouldRenderTableNeedsRebuilding
  · simp [hd]
  · simp

theorem shouldRender_again (K : Constants) (B : Int → ℚ → ℚ) (st : ShouldRenderStatics)
    (sizeScale : ℚ) (bla : Int) (ld d ld' d' : ℚ) :
    (shouldRender K B (shouldRender K B st sizeScale bla ld d).2 sizeScale bla ld' d').1
      = (shouldRender K B st sizeScale bla ld' d').1 := by
  unfold shouldRender
  cases hd : st.shouldRenderTableNeedsBuilding
  · simp [hd]
  · simp

/-- The answer of `shouldRenderMesh` compares the distance with a bound that does not depend
on the distance. -/
theorem shouldRenderMesh_bound (K : Constants) (B : Int → ℚ → ℚ) (m : State) (ld : ℚ) :
    ∃ c : ℚ, ∀ d : ℚ, (shouldRenderMesh K B m ld d).1 = decide (d ≤ c) :=
  ⟨_, fun _ => rfl⟩

theorem shouldRender_bound (K : Constants) (B : Int → ℚ → ℚ) (st : ShouldRenderStatics)
    (sizeScale : ℚ) (bla : Int) (ld : ℚ) :
    ∃ c : ℚ, ∀ d : ℚ, (shouldRender K B st sizeScale bla ld d).1 = decide (d ≤ c) :=
  ⟨_, fun _ => rfl⟩

/-- C17: for a fixed scale, boundary level adjust and object size, and distances `d2 < d1`,
if `shouldRenderMesh` reports the object visible at `d1` then it reports it visible at `d2`,
on the same state and also on the state the first query leaves; the same holds for
`shouldRender` and its statics. -/
theorem visibility_monotone_in_distance (K : Constants) (B : Int → ℚ → ℚ) (m : State)
    (st : ShouldRenderStatics) (sizeScale : ℚ) (bla : Int) (ld d1 d2 : ℚ) (h : d2 < d1) :
    ((shouldRenderMesh K B m ld d1).1 = true →
        (shouldRenderMesh K B m ld d2).1 = true
          ∧ (shouldRenderMesh K B (shouldRenderMesh K B m ld d1).2 ld d2).1 = true)
      ∧ ((shouldRender K B st sizeScale bla ld d1).1 = true →
        (shouldRender K B st sizeScale bla ld d2).1 = true
          ∧ (shouldRender K B (shouldRender K B st sizeScale bla ld d1).2
              sizeScale bla ld d2).1 = true) := by
  obtain ⟨c, hc⟩ := shouldRenderMesh_bound K B m ld
  obtain ⟨c', hc'⟩ := shouldRender_bound K B st sizeScale bla ld
  refine ⟨fun hvis => ?_, fun hvis => ?_⟩
  · rw [hc d1] at hvis
    have hle : d1 ≤ c := of_decide_eq_true hvis
    have h2 : (shouldRenderMesh K B m ld d2).1 = true := by
      rw [hc d2]; exact decide_eq_true (le_trans (le_of_lt h) hle)
    exact ⟨h2, by rw [shouldRenderMesh_again]; exact h2⟩
  · rw [hc' d1] at hvis
    have hle : d1 ≤ c' := of_decide_eq_true hvis
    have h2 : (shouldRender K B st sizeScale bla ld d2).1 = true := by
      rw [hc' d2]; exact decide_eq_true (le_trans (le_of_lt h) hle)
    exact ⟨h2, by rw [shouldRender_again]; exact h2⟩

/-- C17 on concrete inputs: the sample controller at scale 6553600, an object of size 20000
(above the world scale) visible at distance 10, hence at distance 5. -/
theorem visibility_monotone_in_distance_witness :
    (shouldRenderMesh sampleConstants sampleBoundaryDistance
        (sampleState 6553600 false 60 60 60) 20000 5).1 = true :=
  ((visibility_monotone_in_distance sampleConstants sampleBoundaryDistance
    (sampleState 6553600 false 60 60 60) ShouldRenderStatics.initial 6553600 0 20000 10 5
    (by norm_num)).1
    (by
      rw [(above_world_result sampleConstants sampleBoundaryDistance
        ShouldRenderStatics.initial (sampleState 6553600 false 60 60 60) 20000 10
        (Or.inl ⟨rfl, rfl⟩) (TableInv_of_dirty _ _ _ rfl)
        (by norm_num [sampleConstants])).1]
      norm_num [visibleDistanceAtMaxScale, sampleBoundaryDistance, sampleState])).1

/-- C18: a forced rebuild in `shouldRenderMesh` produces the table determined by the scale and
the boundary level adjust, whatever the table held before and whatever is queried; forcing
the rebuild a second time, with those two values unchanged, produces the identical table. -/
theorem rebuild_idempotent (K : Constants) (B : Int → ℚ → ℚ) (m : State)
    (ld d ld' d' : ℚ) :
    (∀ T : List (ℚ × ℚ),
        (shouldRenderMesh K B
          { m with _shouldRenderTable := T, _shouldRenderTableNeedsRebuilding := true }
          ld d).2._shouldRenderTable = freshTable K B m)
      ∧ (shouldRenderMesh K B
          { (shouldRenderMesh K B { m with _shouldRenderTableNeedsRebuilding := true }
              ld d).2 with _shouldRenderTableNeedsRebuilding := true }
          ld' d').2._shouldRenderTable
        = (shouldRenderMesh K B { m with _shouldRenderTableNeedsRebuilding := true }
            ld d).2._shouldRenderTable := by
  refine ⟨fun T => ?_, ?_⟩
  · rw [shouldRenderMesh_state K B _ ld d (TableInv_of_dirty K B _ rfl)]
    rfl
  · rw [shouldRenderMesh_state K B _ ld' d' (TableInv_of_dirty K B _ rfl),
      shouldRenderMesh_state K B _ ld d (TableInv_of_dirty K B _ rfl)]
    rfl

/-- C20: on a usable table and valid statics, both functions look up the same pair. For
`largestDimension ≤ TREE_SCALE` the scale of the pair is at least `largestDimension` and the
distance is not doubled; when a threshold at least `largestDimension` exists the pair is the
row of the least such threshold. The distance is doubled exactly when
`largestDimension > TREE_SCALE`, and it is then `2 * visibleDistanceAtMaxScale`. -/
theorem doubling_only_above_world (K : Constants) (B : Int → ℚ → ℚ)
    (st : ShouldRenderStatics) (m : State) (ld d : ℚ) (hst : StaticsInv K st)
    (hinv : TableInv K B m) :
    closestFactorEntry (halvingLoop K.TREE_SCALE 1 []) K.TREE_SCALE
        (visibleDistanceAtMaxScale B m._boundaryLevelAdjust m._octreeSizeScale) ld
      = closestMeshEntry (freshTable K B m) K.TREE_SCALE
          (visibleDistanceAtMaxScale B m._boundaryLevelAdjust m._octreeSizeScale) ld
    ∧ (ld ≤ K.TREE_SCALE →
        ld ≤ (closestMeshEntry (freshTable K B m) K.TREE_SCALE
            (visibleDistanceAtMaxScale B m._boundaryLevelAdjust m._octreeSizeScale) ld).1
        ∧ correctedVisibleDistance (closestMeshEntry (freshTable K B m) K.TREE_SCALE
            (visibleDistanceAtMaxScale B m._boundaryLevelAdjust m._octreeSizeScale) ld) ld
          = (closestMeshEntry (freshTable K B m) K.TREE_SCALE
            (visibleDistanceAtMaxScale B m._boundaryLevelAdjust m._octreeSizeScale) ld).2)
    ∧ ((∃ e ∈ freshTable K B m, ld ≤ e.1) →
        closestMeshEntry (freshTable K B m) K.TREE_SCALE
            (visibleDistanceAtMaxScale B m._boundaryLevelAdjust m._octreeSizeScale) ld
          ∈ freshTable K B m
        ∧ ∀ e ∈ freshTable K B m, ld ≤ e.1 →
            (closestMeshEntry (freshTable K B m) K.TREE_SCALE
              (visibleDistanceAtMaxScale B m._boundaryLevelAdjust m._octreeSizeScale) ld).1
              ≤ e.1)
    ∧ (K.TREE_SCALE < ld →
        closestMeshEntry (freshTable K B m) K.TREE_SCALE
            (visibleDistanceAtMaxScale B m._boundaryLevelAdjust m._octreeSizeScale) ld
          = (K.TREE_SCALE,
              visibleDistanceAtMaxScale B m._boundaryLevelAdjust m._octreeSizeScale)
        ∧ correctedVisibleDistance (closestMeshEntry (freshTable K B m) K.TREE_SCALE
            (visibleDistanceAtMaxScale B m._boundaryLevelAdjust m._octreeSizeScale) ld) ld
          = 2 * visibleDistanceAtMaxScale B m._boundaryLevelAdjust m._octreeSizeScale)
    ∧ ((closestMeshEntry (freshTable K B m) K.TREE_SCALE
          (visibleDistanceAtMaxScale B m._boundaryLevelAdjust m._octreeSizeScale) ld).1 < ld
        ↔ K.TREE_SCALE < ld)
    ∧ (shouldRenderMesh K B m ld d).1
        = decide (d ≤ correctedVisibleDistance (closestMeshEntry (freshTable K B m)
            K.TREE_SCALE
            (visibleDistanceAtMaxScale B m._boundaryLevelAdjust m._octreeSizeScale) ld) ld)
    ∧ (shouldRender K B st m._octreeSizeScale m._boundaryLevelAdjust ld d).1
        = decide (d ≤ correctedVisibleDistance (closestMeshEntry (freshTable K B m)
            K.TREE_SCALE
            (visibleDistanceAtMaxScale B m._boundaryLevelAdjust m._octreeSizeScale) ld) ld) := by
  obtain ⟨c1, c2, c3⟩ := closestMeshEntry_cases K.TREE_SCALE
    (visibleDistanceAtMaxScale B m._boundaryLevelAdjust m._octreeSizeScale) ld
  obtain ⟨s1, -⟩ := closestMeshEntry_spec (freshTable K B m) K.TREE_SCALE
    (visibleDistanceAtMaxScale B m._boundaryLevelAdjust m._octreeSizeScale) ld
    (halvingLoop_nil_sorted _ _)
  have hmesh := shouldRenderMesh_result K B m ld d hinv
  refine ⟨closestFactorEntry_eq _ _ _, c1, fun hex => ⟨(s1 hex).1, (s1 hex).2.2⟩, c2, c3,
    hmesh, ?_⟩
  rw [shouldRender_result K B st _ _ ld d hst, closestFactorEntry_eq]
  rfl

/-- C20 on concrete inputs: the sample constants at scale 6553600, an object of size 20000
at distance 10. -/
theorem doubling_only_above_world_witness :
    correctedVisibleDistance (closestMeshEntry
        (freshTable sampleConstants sampleBoundaryDistance
          (sampleState 6553600 false 60 60 60)) sampleConstants.TREE_SCALE
        (visibleDistanceAtMaxScale sampleBoundaryDistance
          (sampleState 6553600 false 60 60 60)._boundaryLevelAdjust
          (sampleState 6553600 false 60 60 60)._octreeSizeScale) 20000) 20000
      = 2 * visibleDistanceAtMaxScale sampleBoundaryDistance
          (sampleState 6553600 false 60 60 60)._boundaryLevelAdjust
          (sampleState 6553600 false 60 60 60)._octreeSizeScale :=
  ((doubling_only_above_world sampleConstants sampleBoundaryDistance
    ShouldRenderStatics.initial (sampleState 6553600 false 60 60 60) 20000 10
    (Or.inl ⟨rfl, rfl⟩) (TableInv_of_dirty _ _ _ rfl)).2.2.2.1
    (by norm_num [sampleConstants])).2

/-! ## A down-shift request at the floor -/

/-- The three timestamps after `feedWindows`: the warm-up reading during warm-up, the old
values otherwise. -/
theorem feedWindows_timestamps (K : Constants) (m : State) (f : Frame) :
    (feedWindows K m f)._lastUpShift
        = (if inWarmup m = true then f.warmupClock else m._lastUpShift)
      ∧ (feedWindows K m f)._lastDownShift
        = (if inWarmup m = true then f.warmupClock else m._lastDownShift)
      ∧ (feedWindows K m f)._lastStable
        = (if inWarmup m = true then f.warmupClock else m._lastStable) := by
  unfold feedWindows
  cases hw : inWarmup m <;> simp

/-- C19 fails as stated: in a warm-up call whose second clock reading is four seconds after
the first, with windows at 60 FPS below a decrease threshold of 100 FPS and the scale at the
minimum, the down-shift condition holds at the floor, and the call changes `_lastUpShift`,
`_lastDownShift` and `_lastStable` from 0 to the warm-up reading 7000000. -/
theorem floor_downshift_in_warmup_moves_timestamps :
    sampleWarmupState._automaticLODAdjust = true
      ∧ doDownShift sampleConstants (feedWindows sampleConstants sampleWarmupState
          sampleStalledFrame) sampleStalledFrame.now sampleStalledFrame.isHMDMode = true
      ∧ sampleWarmupState._octreeSizeScale ≤ sampleConstants.ADJUST_LOD_MIN_SIZE_SCALE
      ∧ (autoAdjustLOD sampleConstants sampleWarmupState sampleStalledFrame).state._lastUpShift
          ≠ sampleWarmupState._lastUpShift
      ∧ (autoAdjustLOD sampleConstants sampleWarmupState
          sampleStalledFrame).state._lastDownShift ≠ sampleWarmupState._lastDownShift
      ∧ (autoAdjustLOD sampleConstants sampleWarmupState sampleStalledFrame).state._lastStable
          ≠ sampleWarmupState._lastStable := by
  norm_num [autoAdjustLOD, feedWindows, inWarmup, sampleFed, doDownShift, doneDownShifting,
    stepUp, stepDown, afterChange, calculateAvatarLODDistanceMultiplier, elapsedSinceDownShift,
    elapsedSinceUpShift, elapsedSinceStableOrUpShift, sub64, getLODDecreaseFPS,
    getLODIncreaseFPS, sampleState, sampleFrame, sampleConstants, sampleWindow,
    sampleWarmupState, sampleStalledFrame,
    SimpleMovingAverage.getSampleCount, SimpleMovingAverage.getAverage,
    SimpleMovingAverage.updateAverage, IGNORE_THESE_SAMPLES]

/-- C19 amended: with automatic adjustment on, in a call whose down-shift condition holds
while the scale is at or below `MIN`, the up-shift branch is not evaluated: the call leaves
the scale, the down-shifting flag and the dirty flag unchanged and emits nothing, whatever
the up window and the up cool-down are; `_lastUpShift`, `_lastDownShift` and `_lastStable`
are unchanged when the call is past the warm-up, and are the warm-up clock reading when the
call is a warm-up call. -/
theorem floor_downshift_blocks_upshift (K : Constants) (m : State) (f : Frame)
    (ha : m._automaticLODAdjust = true)
    (hd : doDownShift K (feedWindows K m f) f.now f.isHMDMode = true)
    (hs : m._octreeSizeScale ≤ K.ADJUST_LOD_MIN_SIZE_SCALE) :
    (autoAdjustLOD K m f).state._octreeSizeScale = m._octreeSizeScale
      ∧ (autoAdjustLOD K m f).state._isDownshifting = m._isDownshifting
      ∧ (autoAdjustLOD K m f).state._shouldRenderTableNeedsRebuilding
          = m._shouldRenderTableNeedsRebuilding
      ∧ (autoAdjustLOD K m f).emitted = []
      ∧ (autoAdjustLOD K m f).state._lastUpShift
          = (if inWarmup m = true then f.warmupClock else m._lastUpShift)
      ∧ (autoAdjustLOD K m f).state._lastDownShift
          = (if inWarmup m = true then f.warmupClock else m._lastDownShift)
      ∧ (autoAdjustLOD K m f).state._lastStable
          = (if inWarmup m = true then f.warmupClock else m._lastStable) := by
  obtain ⟨t1, t2, t3⟩ := feedWindows_timestamps K m f
  rw [autoAdjustLOD_down_floor K m f ha hd hs]
  exact ⟨feedWindows_scale K m f, feedWindows_isDownshifting K m f, feedWindows_dirty K m f,
    rfl, t1, t2, t3⟩

/-- C19 amended, on concrete inputs: the stable sample controller at the minimum scale 1, past
warm-up, with a start window at 10 FPS and an up window at 60 FPS, called four seconds after
its last shifts: nothing is emitted although the up-shift trigger holds. -/
theorem floor_downshift_blocks_upshift_witness :
    upShiftTriggers sampleConstants (sampleState 1 false 10 10 60) (sampleFrame 10 4000000)
        = true
      ∧ (autoAdjustLOD sampleConstants (sampleState 1 false 10 10 60)
          (sampleFrame 10 4000000)).emitted = [] :=
  ⟨by norm_num [upShiftTriggers, feedWindows, inWarmup, sampleFed, elapsedSinceUpShift, sub64,
      getLODIncreaseFPS, sampleState, sampleFrame, sampleConstants, sampleWindow,
      SimpleMovingAverage.getSampleCount, SimpleMovingAverage.getAverage,
      SimpleMovingAverage.updateAverage, IGNORE_THESE_SAMPLES],
    (floor_downshift_blocks_upshift sampleConstants (sampleState 1 false 10 10 60)
      (sampleFrame 10 4000000) rfl
      (by norm_num [doDownShift, elapsedSinceStableOrUpShift, feedWindows, inWarmup,
          sampleState, sampleFrame, sampleFed, sampleConstants, sampleWindow,
          SimpleMovingAverage.getSampleCount, SimpleMovingAverage.getAverage,
          SimpleMovingAverage.updateAverage, IGNORE_THESE_SAMPLES, getLODDecreaseFPS, sub64])
      (by norm_num [sampleState, sampleConstants])).2.2.2.1⟩

/-! ## The avatar distance multiplier -/

@[simp] theorem doneDownShifting_multiplier (K : Constants) (m : State) (now : Nat)
    (h : Bool) :
    (doneDownShifting K m now h)._avatarLODDistanceMultiplier
      = m._avatarLODDistanceMultiplier := by
  unfold doneDownShifting; split_ifs <;> rfl

/-- The `if (changed)` block with `changed` set recomputes the multiplier from the scale it
finds. -/
theorem afterChange_true_multiplier (K : Constants) (m : State) (e : List Signal) (d : Bool) :
    MultiplierInv K (afterChange K m e true d).state := by
  unfold MultiplierInv afterChange calculateAvatarLODDistanceMultiplier
  simp

/-- A call of `autoAdjustLOD` either leaves the scale and the multiplier as they were, or
recomputes the multiplier from the new scale. -/
theorem autoAdjustLOD_multiplier_cases (K : Constants) (m : State) (f : Frame) :
    ((autoAdjustLOD K m f).state._octreeSizeScale = m._octreeSizeScale
        ∧ (autoAdjustLOD K m f).state._avatarLODDistanceMultiplier
            = m._avatarLODDistanceMultiplier)
      ∨ ((autoAdjustLOD K m f).emitted ≠ [] ∧ MultiplierInv K (autoAdjustLOD K m f).state) := by
  cases ha : m._automaticLODAdjust
  · left
    rw [autoAdjustLOD_disabled K m f ha]; simp
  · cases hd : doDownShift K (feedWindows K m f) f.now f.isHMDMode
    · by_cases hu : upShiftTriggers K m f = true
          ∧ m._octreeSizeScale < K.ADJUST_LOD_MAX_SIZE_SCALE
      · right
        rw [autoAdjustLOD_up K m f ha hd hu.1 hu.2]
        exact ⟨by simp, afterChange_true_multiplier K _ _ _⟩
      · left
        have hu2 : upShiftTriggers K m f = false
            ∨ K.ADJUST_LOD_MAX_SIZE_SCALE ≤ m._octreeSizeScale := by
          by_cases h : upShiftTriggers K m f = true
          · right; exact not_lt.mp (fun h2 => hu ⟨h, h2⟩)
          · left; simpa using h
        rw [autoAdjustLOD_idle K m f ha hd hu2]; simp
    · by_cases hs : m._octreeSizeScale > K.ADJUST_LOD_MIN_SIZE_SCALE
      · right
        rw [autoAdjustLOD_down K m f ha hd hs]
        exact ⟨by simp, afterChange_true_multiplier K _ _ _⟩
      · left
        rw [autoAdjustLOD_down_floor K m f ha hd (not_lt.mp hs)]; simp

theorem autoAdjustLOD_MultiplierInv (K : Constants) (m : State) (f : Frame)
    (h : MultiplierInv K m) : MultiplierInv K (autoAdjustLOD K m f).state := by
  rcases autoAdjustLOD_multiplier_cases K m f with ⟨h1, h2⟩ | ⟨-, h2⟩
  · unfold MultiplierInv at h ⊢
    rw [h1, h2]; exact h
  · exact h2

/-- Every call keeps the multiplier in step with the scale. -/
theorem applyCall_MultiplierInv (K : Constants) (B : Int → ℚ → ℚ) (m : State) (c : Call)
    (h : MultiplierInv K m) : MultiplierInv K (applyCall K B m c) := by
  cases c with
  | setOctreeSizeScale x => rfl
  | setBoundaryLevelAdjust b => exact h
  | autoAdjustLOD f => exact autoAdjustLOD_MultiplierInv K m f h
  | shouldRenderMesh ld d =>
    unfold MultiplierInv at h ⊢
    simp only [applyCall, shouldRenderMesh]
    split_ifs <;> exact h

theorem applyCalls_MultiplierInv (K : Constants) (B : Int → ℚ → ℚ) (calls : List Call) :
    ∀ m : State, MultiplierInv K m → MultiplierInv K (applyCalls K B m calls) := by
  induction calls with
  | nil => intro m h; exact h
  | cons c cs ih =>
    intro m h
    exact ih _ (applyCall_MultiplierInv K B m c h)

/-- C21: after construction, and after every sequence of `setOctreeSizeScale`,
`setBoundaryLevelAdjust`, `autoAdjustLOD` and `shouldRenderMesh` calls that follows it,
`_avatarLODDistanceMultiplier` equals
`AVATAR_TO_ENTITY_RATIO / (_octreeSizeScale / DEFAULT_OCTREE_SIZE_SCALE)` for the current
scale. `setOctreeSizeScale` recomputes it from the new scale; a call of `autoAdjustLOD`
either keeps the scale and the multiplier or recomputes the multiplier from the new scale;
`setBoundaryLevelAdjust`, `shouldRenderMesh` and `resetLODAdjust` write neither. -/
theorem multiplier_tracks_scale (K : Constants) (B : Int → ℚ → ℚ) (init : State)
    (calls : List Call) :
    (construct K init)._avatarLODDistanceMultiplier
        = K.AVATAR_TO_ENTITY_RATIO
            / ((construct K init)._octreeSizeScale / K.DEFAULT_OCTREE_SIZE_SCALE)
      ∧ (applyCalls K B (construct K init) calls)._avatarLODDistanceMultiplier
        = K.AVATAR_TO_ENTITY_RATIO
            / ((applyCalls K B (construct K init) calls)._octreeSizeScale
                / K.DEFAULT_OCTREE_SIZE_SCALE)
      ∧ (∀ (m : State) (x : ℚ),
          (setOctreeSizeScale K m x)._avatarLODDistanceMultiplier
            = K.AVATAR_TO_ENTITY_RATIO / (x / K.DEFAULT_OCTREE_SIZE_SCALE))
      ∧ (∀ (m : State) (f : Frame),
          ((autoAdjustLOD K m f).state._octreeSizeScale = m._octreeSizeScale
            ∧ (autoAdjustLOD K m f).state._avatarLODDistanceMultiplier
                = m._avatarLODDistanceMultiplier)
          ∨ (autoAdjustLOD K m f).state._avatarLODDistanceMultiplier
              = K.AVATAR_TO_ENTITY_RATIO
                  / ((autoAdjustLOD K m f).state._octreeSizeScale
                      / K.DEFAULT_OCTREE_SIZE_SCALE))
      ∧ (∀ (m : State) (b : Int) (ld d : ℚ) (clock : Nat),
          ((setBoundaryLevelAdjust m b)._octreeSizeScale = m._octreeSizeScale
            ∧ (setBoundaryLevelAdjust m b)._avatarLODDistanceMultiplier
                = m._avatarLODDistanceMultiplier)
          ∧ ((shouldRenderMesh K B m ld d).2._octreeSizeScale = m._octreeSizeScale
            ∧ (shouldRenderMesh K B m ld d).2._avatarLODDistanceMultiplier
                = m._avatarLODDistanceMultiplier)
          ∧ ((resetLODAdjust m clock)._octreeSizeScale = m._octreeSizeScale
            ∧ (resetLODAdjust m clock)._avatarLODDistanceMultiplier
                = m._avatarLODDistanceMultiplier)) := by
  have h0 : MultiplierInv K (construct K init) := rfl
  refine ⟨h0, applyCalls_MultiplierInv K B calls _ h0, fun _ _ => rfl, ?_, ?_⟩
  · intro m f
    rcases autoAdjustLOD_multiplier_cases K m f with h | ⟨-, h⟩
    · exact Or.inl h
    · exact Or.inr h
  · intro m b ld d clock
    refine ⟨⟨rfl, rfl⟩, ?_, ⟨rfl, rfl⟩⟩
    unfold shouldRenderMesh
    cases m._shouldRenderTableNeedsRebuilding <;> exact ⟨rfl, rfl⟩

/-! ## The shift rules on the member variables -/

/-- The locals of a call written on the member variables before the call and the inputs of
the call: the three elapsed times (unsigned 64-bit differences from the timestamps, which a
warm-up call first sets to its clock reading), the three window averages after the sample of
the call (`ASSUMED_FPS` in a warm-up call), and the two thresholds of the display mode. -/
theorem locals_on_members (K : Constants) (m : State) (f : Frame) :
    elapsedSinceDownShift (feedWindows K m f) f.now
        = (f.now % 2 ^ 64 + (2 ^ 64
            - (if m._fpsAverageUpWindow.numSamples < 100 then f.warmupClock
                else m._lastDownShift) % 2 ^ 64)) % 2 ^ 64
      ∧ elapsedSinceUpShift (feedWindows K m f) f.now
        = (f.now % 2 ^ 64 + (2 ^ 64
            - (if m._fpsAverageUpWindow.numSamples < 100 then f.warmupClock
                else m._lastUpShift) % 2 ^ 64)) % 2 ^ 64
      ∧ elapsedSinceStableOrUpShift (feedWindows K m f) f.now
        = (f.now % 2 ^ 64 + (2 ^ 64
            - max (if m._fpsAverageUpWindow.numSamples < 100 then f.warmupClock
                    else m._lastUpShift)
                (if m._fpsAverageUpWindow.numSamples < 100 then f.warmupClock
                    else m._lastStable) % 2 ^ 64)) % 2 ^ 64
      ∧ (feedWindows K m f)._fpsAverageStartWindow.getAverage
        = K.incorporate m._fpsAverageStartWindow.span m._fpsAverageStartWindow.average
            m._fpsAverageStartWindow.numSamples
            (if m._fpsAverageUpWindow.numSamples < 100 then K.ASSUMED_FPS else f.currentFPS)
      ∧ (feedWindows K m f)._fpsAverageDownWindow.getAverage
        = K.incorporate m._fpsAverageDownWindow.span m._fpsAverageDownWindow.average
            m._fpsAverageDownWindow.numSamples
            (if m._fpsAverageUpWindow.numSamples < 100 then K.ASSUMED_FPS else f.currentFPS)
      ∧ (feedWindows K m f)._fpsAverageUpWindow.getAverage
        = K.incorporate m._fpsAverageUpWindow.span m._fpsAverageUpWindow.average
            m._fpsAverageUpWindow.numSamples
            (if m._fpsAverageUpWindow.numSamples < 100 then K.ASSUMED_FPS else f.currentFPS)
      ∧ getLODDecreaseFPS (feedWindows K m f) f.isHMDMode
        = (if f.isHMDMode = true then m.hmdLODDecreaseFPS else m.desktopLODDecreaseFPS)
      ∧ getLODIncreaseFPS (feedWindows K m f) f.isHMDMode
        = (if f.isHMDMode = true then m.hmdLODIncreaseFPS else m.desktopLODIncreaseFPS) := by
  by_cases hw : m._fpsAverageUpWindow.numSamples < 100
  · simp [elapsedSinceDownShift, elapsedSinceUpShift, elapsedSinceStableOrUpShift, sub64,
      feedWindows, inWarmup, sampleFed, SimpleMovingAverage.getSampleCount,
      SimpleMovingAverage.getAverage, SimpleMovingAverage.updateAverage,
      IGNORE_THESE_SAMPLES, getLODDecreaseFPS, getLODIncreaseFPS, hw]
  · simp [elapsedSinceDownShift, elapsedSinceUpShift, elapsedSinceStableOrUpShift, sub64,
      feedWindows, inWarmup, sampleFed, SimpleMovingAverage.getSampleCount,
      SimpleMovingAverage.getAverage, SimpleMovingAverage.updateAverage,
      IGNORE_THESE_SAMPLES, getLODDecreaseFPS, getLODIncreaseFPS, hw]

/-- C3: with automatic adjustment on (and `0 < MIN ≤ MAX`, `0 < DOWN < 1 < UP`), a call makes
the scale smaller exactly when the scale is above `MIN` and either the controller is stable,
the time from the later of `_lastStable` and `_lastUpShift` to the call time `now` exceeds
`START_SHIFT_ELPASED` and the start window average is below the decrease threshold, or it is
down-shifting, the time from `_lastDownShift` to `now` exceeds `DOWN_SHIFT_ELPASED` and the
down window average is below the decrease threshold. Times are unsigned 64-bit differences;
in a warm-up call (up window below 100 samples) the timestamps are first set to the warm-up
clock reading and the sample is `ASSUMED_FPS`; the averages are those after the sample of the
call; the threshold is the HMD or the desktop one by the display mode. The new scale is then
`max (old * DOWN) MIN`, the controller is down-shifting, `_lastDownShift` is `now`, the table
is dirty and `LODDecreased` is emitted once. -/
theorem autoAdjustLOD_downshift_rule (K : Constants) (hK : ConstantsOK K) (m : State)
    (f : Frame) (ha : m._automaticLODAdjust = true) :
    ((autoAdjustLOD K m f).state._octreeSizeScale < m._octreeSizeScale ↔
        m._octreeSizeScale > K.ADJUST_LOD_MIN_SIZE_SCALE
        ∧ ((m._isDownshifting = false
            ∧ (((f.now % 2 ^ 64 + (2 ^ 64
                  - max (if m._fpsAverageUpWindow.numSamples < 100 then f.warmupClock
                          else m._lastUpShift)
                      (if m._fpsAverageUpWindow.numSamples < 100 then f.warmupClock
                          else m._lastStable) % 2 ^ 64)) % 2 ^ 64 : ℕ) : ℚ)
                > K.START_SHIFT_ELPASED
            ∧ K.incorporate m._fpsAverageStartWindow.span m._fpsAverageStartWindow.average
                  m._fpsAverageStartWindow.numSamples
                  (if m._fpsAverageUpWindow.numSamples < 100 then K.ASSUMED_FPS
                    else f.currentFPS)
                < (if f.isHMDMode = true then m.hmdLODDecreaseFPS
                    else m.desktopLODDecreaseFPS))
          ∨ (m._isDownshifting = true
            ∧ (((f.now % 2 ^ 64 + (2 ^ 64
                  - (if m._fpsAverageUpWindow.numSamples < 100 then f.warmupClock
                      else m._lastDownShift) % 2 ^ 64)) % 2 ^ 64 : ℕ) : ℚ)
                > K.DOWN_SHIFT_ELPASED
            ∧ K.incorporate m._fpsAverageDownWindow.span m._fpsAverageDownWindow.average
                  m._fpsAverageDownWindow.numSamples
                  (if m._fpsAverageUpWindow.numSamples < 100 then K.ASSUMED_FPS
                    else f.currentFPS)
                < (if f.isHMDMode = true then m.hmdLODDecreaseFPS
                    else m.desktopLODDecreaseFPS))))
    ∧ ((autoAdjustLOD K m f).state._octreeSizeScale < m._octreeSizeScale →
        (autoAdjustLOD K m f).state._octreeSizeScale
            = max (m._octreeSizeScale * K.ADJUST_LOD_DOWN_BY) K.ADJUST_LOD_MIN_SIZE_SCALE
        ∧ (autoAdjustLOD K m f).state._isDownshifting = true
        ∧ (autoAdjustLOD K m f).state._lastDownShift = f.now
        ∧ (autoAdjustLOD K m f).state._shouldRenderTableNeedsRebuilding = true
        ∧ (autoAdjustLOD K m f).emitted = [Signal.LODDecreased]) := by
  have old := downshift_by_locals K hK m f ha
  by_cases hw : m._fpsAverageUpWindow.numSamples < 100
  · simp only [elapsedSinceDownShift, elapsedSinceStableOrUpShift, sub64, feedWindows,
      inWarmup, sampleFed, SimpleMovingAverage.getSampleCount, SimpleMovingAverage.getAverage,
      SimpleMovingAverage.updateAverage, IGNORE_THESE_SAMPLES, getLODDecreaseFPS, hw,
      decide_True, if_true] at old ⊢
    exact old
  · simp only [elapsedSinceDownShift, elapsedSinceStableOrUpShift, sub64, feedWindows,
      inWarmup, sampleFed, SimpleMovingAverage.getSampleCount, SimpleMovingAverage.getAverage,
      SimpleMovingAverage.updateAverage, IGNORE_THESE_SAMPLES, getLODDecreaseFPS, hw,
      decide_False, if_false, Bool.false_eq_true] at old ⊢
    exact old

/-- C3 on concrete inputs, with `_lastDownShift` = 2 s, `_lastUpShift` = 5 s and
`_lastStable` = 1 s at scale 100. Stable with windows at 10 FPS: a call at 8.5 s (3.5 s
after the up-shift) steps down to 90 and emits `LODDecreased`, a call at 7 s (2 s after the
up-shift, 6 s after the stable time) does not. Down-shifting with windows at 10 FPS: a call
at 5.2 s (3.2 s after the down-shift, 0.2 s after the up-shift) steps down. Stable with
windows at 20 FPS at 8.5 s: the HMD threshold 30 steps down, the desktop threshold 15 does
not. The last four parts evaluate the same calls directly. -/
theorem autoAdjustLOD_downshift_rule_witness :
    (autoAdjustLOD sampleConstants
        (sampleTimedState 100 false 10 10 10 2000000 5000000 1000000)
        (sampleFrame 10 8500000)).state._octreeSizeScale = 90
      ∧ (autoAdjustLOD sampleConstants
        (sampleTimedState 100 false 10 10 10 2000000 5000000 1000000)
        (sampleFrame 10 8500000)).emitted = [Signal.LODDecreased]
      ∧ ¬ ((autoAdjustLOD sampleConstants
        (sampleTimedState 100 false 10 10 10 2000000 5000000 1000000)
        (sampleFrame 10 7000000)).state._octreeSizeScale < 100)
      ∧ (autoAdjustLOD sampleConstants
        (sampleTimedState 100 true 10 10 10 2000000 5000000 1000000)
        (sampleFrame 10 5200000)).state._octreeSizeScale < 100
      ∧ (autoAdjustLOD sampleConstants
        (sampleTimedState 100 false 20 20 20 2000000 5000000 1000000)
        (sampleHMDFrame 20 8500000)).state._octreeSizeScale < 100
      ∧ ¬ ((autoAdjustLOD sampleConstants
        (sampleTimedState 100 false 20 20 20 2000000 5000000 1000000)
        (sampleFrame 20 8500000)).state._octreeSizeScale < 100)
      ∧ (autoAdjustLOD sampleConstants
        (sampleTimedState 100 false 10 10 10 2000000 5000000 1000000)
        (sampleFrame 10 7000000)).state._octreeSizeScale = 100
      ∧ (autoAdjustLOD sampleConstants
        (sampleTimedState 100 true 10 10 10 2000000 5000000 1000000)
        (sampleFrame 10 5200000)).state._octreeSizeScale = 90
      ∧ (autoAdjustLOD sampleConstants
        (sampleTimedState 100 false 20 20 20 2000000 5000000 1000000)
        (sampleHMDFrame 20 8500000)).state._octreeSizeScale = 90
      ∧ (autoAdjustLOD sampleConstants
        (sampleTimedState 100 false 20 20 20 2000000 5000000 1000000)
        (sampleFrame 20 8500000)).state._octreeSizeScale = 100 := by
  have hA := autoAdjustLOD_downshift_rule sampleConstants sampleConstants_ok
    (sampleTimedState 100 false 10 10 10 2000000 5000000 1000000) (sampleFrame 10 8500000) rfl
  have hB := autoAdjustLOD_downshift_rule sampleConstants sampleConstants_ok
    (sampleTimedState 100 false 10 10 10 2000000 5000000 1000000) (sampleFrame 10 7000000) rfl
  have hC := autoAdjustLOD_downshift_rule sampleConstants sampleConstants_ok
    (sampleTimedState 100 true 10 10 10 2000000 5000000 1000000) (sampleFrame 10 5200000) rfl
  have hD := autoAdjustLOD_downshift_rule sampleConstants sampleConstants_ok
    (sampleTimedState 100 false 20 20 20 2000000 5000000 1000000)
    (sampleHMDFrame 20 8500000) rfl
  have hE := autoAdjustLOD_downshift_rule sampleConstants sampleConstants_ok
    (sampleTimedState 100 false 20 20 20 2000000 5000000 1000000) (sampleFrame 20 8500000) rfl
  have hAlt := hA.1.mpr (by
    norm_num [sampleTimedState, sampleState, sampleFrame, sampleConstants, sampleWindow])
  have hAeff := hA.2 hAlt
  refine ⟨?_, hAeff.2.2.2.2, ?_, ?_, ?_, ?_, ?_, ?_, ?_, ?_⟩
  rotate_left 5
  · norm_num [autoAdjustLOD, feedWindows, inWarmup, sampleFed, doDownShift,
      doneDownShifting, stepUp, stepDown, afterChange, calculateAvatarLODDistanceMultiplier,
      elapsedSinceDownShift, elapsedSinceUpShift, elapsedSinceStableOrUpShift, sub64,
      getLODDecreaseFPS, getLODIncreaseFPS, sampleTimedState, sampleState, sampleFrame,
      sampleHMDFrame, sampleConstants, sampleWindow, SimpleMovingAverage.getSampleCount,
      SimpleMovingAverage.getAverage, SimpleMovingAverage.updateAverage,
      IGNORE_THESE_SAMPLES]
  · norm_num [autoAdjustLOD, feedWindows, inWarmup, sampleFed, doDownShift,
      doneDownShifting, stepUp, stepDown, afterChange, calculateAvatarLODDistanceMultiplier,
      elapsedSinceDownShift, elapsedSinceUpShift, elapsedSinceStableOrUpShift, sub64,
      getLODDecreaseFPS, getLODIncreaseFPS, sampleTimedState, sampleState, sampleFrame,
      sampleHMDFrame, sampleConstants, sampleWindow, SimpleMovingAverage.getSampleCount,
      SimpleMovingAverage.getAverage, SimpleMovingAverage.updateAverage,
      IGNORE_THESE_SAMPLES]
  · norm_num [autoAdjustLOD, feedWindows, inWarmup, sampleFed, doDownShift,
      doneDownShifting, stepUp, stepDown, afterChange, calculateAvatarLODDistanceMultiplier,
      elapsedSinceDownShift, elapsedSinceUpShift, elapsedSinceStableOrUpShift, sub64,
      getLODDecreaseFPS, getLODIncreaseFPS, sampleTimedState, sampleState, sampleFrame,
      sampleHMDFrame, sampleConstants, sampleWindow, SimpleMovingAverage.getSampleCount,
      SimpleMovingAverage.getAverage, SimpleMovingAverage.updateAverage,
      IGNORE_THESE_SAMPLES]
  · norm_num [autoAdjustLOD, feedWindows, inWarmup, sampleFed, doDownShift,
      doneDownShifting, stepUp, stepDown, afterChange, calculateAvatarLODDistanceMultiplier,
      elapsedSinceDownShift, elapsedSinceUpShift, elapsedSinceStableOrUpShift, sub64,
      getLODDecreaseFPS, getLODIncreaseFPS, sampleTimedState, sampleState, sampleFrame,
      sampleHMDFrame, sampleConstants, sampleWindow, SimpleMovingAverage.getSampleCount,
      SimpleMovingAverage.getAverage, SimpleMovingAverage.updateAverage,
      IGNORE_THESE_SAMPLES]
  · rw [hAeff.1]
    norm_num [sampleTimedState, sampleState, sampleConstants]
  · intro h
    have h2 := hB.1.mp h
    norm_num [sampleTimedState, sampleState, sampleFrame, sampleConstants, sampleWindow] at h2
  · exact hC.1.mpr (by
      norm_num [sampleTimedState, sampleState, sampleFrame, sampleConstants, sampleWindow])
  · exact hD.1.mpr (by
      norm_num [sampleTimedState, sampleState, sampleFrame, sampleHMDFrame, sampleConstants,
        sampleWindow])
  · intro h
    have h2 := hE.1.mp h
    norm_num [sampleTimedState, sampleState, sampleFrame, sampleConstants, sampleWindow] at h2

/-- C5: with automatic adjustment on (and `0 < MIN ≤ MAX`, `0 < DOWN < 1 < UP`), in a call
whose down-shift condition does not hold (neither stable with the start delay elapsed and the
start window below the decrease threshold, nor down-shifting with the down cool-down elapsed
and the down window below it), the scale grows exactly when the time from `_lastUpShift` to
the call time `now` exceeds `UP_SHIFT_ELPASED`, the up window average is above the increase
threshold of the display mode and the scale is below `MAX`. Times are unsigned 64-bit
differences; in a warm-up call the timestamps are first set to the warm-up clock reading and
the sample is `ASSUMED_FPS`; the averages are those after the sample of the call. The
controller is then stable, `_lastUpShift` is `now`, the table is dirty, `LODIncreased` is
emitted once, and for `MIN ≤ old` the new scale is `min (old * UP) MAX`. -/
theorem autoAdjustLOD_upshift_rule (K : Constants) (hK : ConstantsOK K) (m : State)
    (f : Frame) (ha : m._automaticLODAdjust = true)
    (hd : ¬ ((m._isDownshifting = false
            ∧ (((f.now % 2 ^ 64 + (2 ^ 64
                  - max (if m._fpsAverageUpWindow.numSamples < 100 then f.warmupClock
                          else m._lastUpShift)
                      (if m._fpsAverageUpWindow.numSamples < 100 then f.warmupClock
                          else m._lastStable) % 2 ^ 64)) % 2 ^ 64 : ℕ) : ℚ)
                > K.START_SHIFT_ELPASED
            ∧ K.incorporate m._fpsAverageStartWindow.span m._fpsAverageStartWindow.average
                  m._fpsAverageStartWindow.numSamples
                  (if m._fpsAverageUpWindow.numSamples < 100 then K.ASSUMED_FPS
                    else f.currentFPS)
                < (if f.isHMDMode = true then m.hmdLODDecreaseFPS
                    else m.desktopLODDecreaseFPS))
          ∨ (m._isDownshifting = true
            ∧ (((f.now % 2 ^ 64 + (2 ^ 64
                  - (if m._fpsAverageUpWindow.numSamples < 100 then f.warmupClock
                      else m._lastDownShift) % 2 ^ 64)) % 2 ^ 64 : ℕ) : ℚ)
                > K.DOWN_SHIFT_ELPASED
            ∧ K.incorporate m._fpsAverageDownWindow.span m._fpsAverageDownWindow.average
                  m._fpsAverageDownWindow.numSamples
                  (if m._fpsAverageUpWindow.numSamples < 100 then K.ASSUMED_FPS
                    else f.currentFPS)
                < (if f.isHMDMode = true then m.hmdLODDecreaseFPS
                    else m.desktopLODDecreaseFPS)))) :
    ((autoAdjustLOD K m f).state._octreeSizeScale > m._octreeSizeScale ↔
        (((f.now % 2 ^ 64 + (2 ^ 64
              - (if m._fpsAverageUpWindow.numSamples < 100 then f.warmupClock
                  else m._lastUpShift) % 2 ^ 64)) % 2 ^ 64 : ℕ) : ℚ)
            > K.UP_SHIFT_ELPASED
        ∧ K.incorporate m._fpsAverageUpWindow.span m._fpsAverageUpWindow.average
              m._fpsAverageUpWindow.numSamples
              (if m._fpsAverageUpWindow.numSamples < 100 then K.ASSUMED_FPS
                else f.currentFPS)
            > (if f.isHMDMode = true then m.hmdLODIncreaseFPS
                else m.desktopLODIncreaseFPS)
        ∧ m._octreeSizeScale < K.ADJUST_LOD_MAX_SIZE_SCALE)
    ∧ ((autoAdjustLOD K m f).state._octreeSizeScale > m._octreeSizeScale →
        (K.ADJUST_LOD_MIN_SIZE_SCALE ≤ m._octreeSizeScale →
          (autoAdjustLOD K m f).state._octreeSizeScale
            = min (m._octreeSizeScale * K.ADJUST_LOD_UP_BY) K.ADJUST_LOD_MAX_SIZE_SCALE)
        ∧ (autoAdjustLOD K m f).state._isDownshifting = false
        ∧ (autoAdjustLOD K m f).state._lastUpShift = f.now
        ∧ (autoAdjustLOD K m f).state._shouldRenderTableNeedsRebuilding = true
        ∧ (autoAdjustLOD K m f).emitted = [Signal.LODIncreased]) := by
  have hd2 : doDownShift K (feedWindows K m f) f.now f.isHMDMode = false := by
    cases hdd : doDownShift K (feedWindows K m f) f.now f.isHMDMode
    · rfl
    · exfalso
      apply hd
      have h := (doDownShift_iff K (feedWindows K m f) f.now f.isHMDMode).mp hdd
      rw [feedWindows_isDownshifting] at h
      by_cases hw : m._fpsAverageUpWindow.numSamples < 100
      · simp only [elapsedSinceDownShift, elapsedSinceStableOrUpShift, sub64, feedWindows,
          inWarmup, sampleFed, SimpleMovingAverage.getSampleCount,
          SimpleMovingAverage.getAverage, SimpleMovingAverage.updateAverage,
          IGNORE_THESE_SAMPLES, getLODDecreaseFPS, hw, decide_True, if_true] at h ⊢
        exact h
      · simp only [elapsedSinceDownShift, elapsedSinceStableOrUpShift, sub64, feedWindows,
          inWarmup, sampleFed, SimpleMovingAverage.getSampleCount,
          SimpleMovingAverage.getAverage, SimpleMovingAverage.updateAverage,
          IGNORE_THESE_SAMPLES, getLODDecreaseFPS, hw, decide_False, if_false,
          Bool.false_eq_true] at h ⊢
        exact h
  have old := upshift_by_locals K hK m f ha hd2
  by_cases hw : m._fpsAverageUpWindow.numSamples < 100
  · simp only [elapsedSinceUpShift, sub64, feedWindows, inWarmup, sampleFed,
      SimpleMovingAverage.getSampleCount, SimpleMovingAverage.getAverage,
      SimpleMovingAverage.updateAverage, IGNORE_THESE_SAMPLES, getLODIncreaseFPS, hw,
      decide_True, if_true] at old ⊢
    exact old
  · simp only [elapsedSinceUpShift, sub64, feedWindows, inWarmup, sampleFed,
      SimpleMovingAverage.getSampleCount, SimpleMovingAverage.getAverage,
      SimpleMovingAverage.updateAverage, IGNORE_THESE_SAMPLES, getLODIncreaseFPS, hw,
      decide_False, if_false, Bool.false_eq_true] at old ⊢
    exact old

/-- C5 on concrete inputs, with `_lastDownShift` = 1 s, `_lastUpShift` = 5 s and
`_lastStable` = 2 s at scale 100, stable. Windows at 60 FPS: a call at 7.6 s (2.6 s after
the up-shift) steps up to 110 and emits `LODIncreased`, a call at 7 s (2 s after the
up-shift, 6 s after the down-shift) does not. Up window at 40 FPS at 7.6 s: the desktop
increase threshold 30 steps up, the HMD threshold 45 does not. The last three parts evaluate
the same calls directly. -/
theorem autoAdjustLOD_upshift_rule_witness :
    (autoAdjustLOD sampleConstants
        (sampleTimedState 100 false 60 60 60 1000000 5000000 2000000)
        (sampleFrame 60 7600000)).state._octreeSizeScale = 110
      ∧ (autoAdjustLOD sampleConstants
        (sampleTimedState 100 false 60 60 60 1000000 5000000 2000000)
        (sampleFrame 60 7600000)).emitted = [Signal.LODIncreased]
      ∧ ¬ ((autoAdjustLOD sampleConstants
        (sampleTimedState 100 false 60 60 60 1000000 5000000 2000000)
        (sampleFrame 60 7000000)).state._octreeSizeScale > 100)
      ∧ (autoAdjustLOD sampleConstants
        (sampleTimedState 100 false 60 60 40 1000000 5000000 2000000)
        (sampleFrame 60 7600000)).state._octreeSizeScale > 100
      ∧ ¬ ((autoAdjustLOD sampleConstants
        (sampleTimedState 100 false 60 60 40 1000000 5000000 2000000)
        (sampleHMDFrame 60 7600000)).state._octreeSizeScale > 100)
      ∧ (autoAdjustLOD sampleConstants
        (sampleTimedState 100 false 60 60 60 1000000 5000000 2000000)
        (sampleFrame 60 7000000)).state._octreeSizeScale = 100
      ∧ (autoAdjustLOD sampleConstants
        (sampleTimedState 100 false 60 60 40 1000000 5000000 2000000)
        (sampleFrame 60 7600000)).state._octreeSizeScale = 110
      ∧ (autoAdjustLOD sampleConstants
        (sampleTimedState 100 false 60 60 40 1000000 5000000 2000000)
        (sampleHMDFrame 60 7600000)).state._octreeSizeScale = 100 := by
  have hA := autoAdjustLOD_upshift_rule sampleConstants sampleConstants_ok
    (sampleTimedState 100 false 60 60 60 1000000 5000000 2000000) (sampleFrame 60 7600000)
    rfl (by
      norm_num [sampleTimedState, sampleState, sampleFrame, sampleConstants, sampleWindow])
  have hB := autoAdjustLOD_upshift_rule sampleConstants sampleConstants_ok
    (sampleTimedState 100 false 60 60 60 1000000 5000000 2000000) (sampleFrame 60 7000000)
    rfl (by
      norm_num [sampleTimedState, sampleState, sampleFrame, sampleConstants, sampleWindow])
  have hC := autoAdjustLOD_upshift_rule sampleConstants sampleConstants_ok
    (sampleTimedState 100 false 60 60 40 1000000 5000000 2000000) (sampleFrame 60 7600000)
    rfl (by
      norm_num [sampleTimedState, sampleState, sampleFrame, sampleConstants, sampleWindow])
  have hD := autoAdjustLOD_upshift_rule sampleConstants sampleConstants_ok
    (sampleTimedState 100 false 60 60 40 1000000 5000000 2000000)
    (sampleHMDFrame 60 7600000)
    rfl (by
      norm_num [sampleTimedState, sampleState, sampleFrame, sampleHMDFrame, sampleConstants,
        sampleWindow])
  have hAgt := hA.1.mpr (by
    norm_num [sampleTimedState, sampleState, sampleFrame, sampleConstants, sampleWindow])
  have hAeff := hA.2 hAgt
  refine ⟨?_, hAeff.2.2.2.2, ?_, ?_, ?_, ?_, ?_, ?_⟩
  rotate_left 4
  · norm_num [autoAdjustLOD, feedWindows, inWarmup, sampleFed, doDownShift,
      doneDownShifting, stepUp, stepDown, afterChange, calculateAvatarLODDistanceMultiplier,
      elapsedSinceDownShift, elapsedSinceUpShift, elapsedSinceStableOrUpShift, sub64,
      getLODDecreaseFPS, getLODIncreaseFPS, sampleTimedState, sampleState, sampleFrame,
      sampleHMDFrame, sampleConstants, sampleWindow, SimpleMovingAverage.getSampleCount,
      SimpleMovingAverage.getAverage, SimpleMovingAverage.updateAverage,
      IGNORE_THESE_SAMPLES]
  · norm_num [autoAdjustLOD, feedWindows, inWarmup, sampleFed, doDownShift,
      doneDownShifting, stepUp, stepDown, afterChange, calculateAvatarLODDistanceMultiplier,
      elapsedSinceDownShift, elapsedSinceUpShift, elapsedSinceStableOrUpShift, sub64,
      getLODDecreaseFPS, getLODIncreaseFPS, sampleTimedState, sampleState, sampleFrame,
      sampleHMDFrame, sampleConstants, sampleWindow, SimpleMovingAverage.getSampleCount,
      SimpleMovingAverage.getAverage, SimpleMovingAverage.updateAverage,
      IGNORE_THESE_SAMPLES]
  · norm_num [autoAdjustLOD, feedWindows, inWarmup, sampleFed, doDownShift,
      doneDownShifting, stepUp, stepDown, afterChange, calculateAvatarLODDistanceMultiplier,
      elapsedSinceDownShift, elapsedSinceUpShift, elapsedSinceStableOrUpShift, sub64,
      getLODDecreaseFPS, getLODIncreaseFPS, sampleTimedState, sampleState, sampleFrame,
      sampleHMDFrame, sampleConstants, sampleWindow, SimpleMovingAverage.getSampleCount,
      SimpleMovingAverage.getAverage, SimpleMovingAverage.updateAverage,
      IGNORE_THESE_SAMPLES]
  · rw [hAeff.1 (by norm_num [sampleTimedState, sampleState, sampleConstants])]
    norm_num [sampleTimedState, sampleState, sampleConstants]
  · intro h
    have h2 := hB.1.mp h
    norm_num [sampleTimedState, sampleState, sampleFrame, sampleConstants, sampleWindow] at h2
  · exact hC.1.mpr (by
      norm_num [sampleTimedState, sampleState, sampleFrame, sampleConstants, sampleWindow])
  · intro h
    have h2 := hD.1.mp h
    norm_num [sampleTimedState, sampleState, sampleFrame, sampleHMDFrame, sampleConstants,
      sampleWindow] at h2

end LODManager

namespace ObjectAction

/-- The rigid body after an update through the pointer. -/
theorem getRigidBody_updateRigidBody (a : ObjectAction) (f : btRigidBody → btRigidBody) :
    (a.updateRigidBody f).getRigidBody = a.getRigidBody.map f := by
  unfold updateRigidBody getRigidBody
  cases h1 : a._ownerEntity with
  | none => simp [h1]
  | some e =>
    cases h2 : e.physicsInfo with
    | none => simp [h1, h2]
    | some ms => simp [h2]

/-- For every argument, `setLinearVelocity` leaves the body with the converted zero vector as
its linear velocity. -/
theorem setLinearVelocity_body (U : BulletUtil) (a : ObjectAction) (v : Vec3)
    (body : btRigidBody) (h : a.getRigidBody = some body) :
    (setLinearVelocity U a v).getRigidBody
        = some { body with linearVelocity := U.glmToBullet Vec3.zero, active := true }
      ∧ getLinearVelocity U (setLinearVelocity U a v)
        = U.bulletToGLM (U.glmToBullet Vec3.zero) := by
  have hb : (setLinearVelocity U a v).getRigidBody
      = some { body with linearVelocity := U.glmToBullet Vec3.zero, active := true } := by
    unfold setLinearVelocity
    rw [h]
    simp only [getRigidBody_updateRigidBody, h, Option.map_some']
    rfl
  refine ⟨hb, ?_⟩
  unfold getLinearVelocity
  rw [hb]
  rfl

/-- The angular velocity round trip: with conversions that undo each other, the angular
velocity read after `setAngularVelocity w` is `w`. -/
theorem setAngularVelocity_roundtrip (U : BulletUtil) (a : ObjectAction) (w : Vec3)
    (body : btRigidBody) (h : a.getRigidBody = some body)
    (hU : ∀ v, U.bulletToGLM (U.glmToBullet v) = v) :
    (setAngularVelocity U a w).getRigidBody
        = some { body with angularVelocity := U.glmToBullet w, active := true }
      ∧ getAngularVelocity U (setAngularVelocity U a w) = w := by
  have hb : (setAngularVelocity U a w).getRigidBody
      = some { body with angularVelocity := U.glmToBullet w, active := true } := by
    unfold setAngularVelocity
    rw [h]
    simp only [getRigidBody_updateRigidBody, h, Option.map_some']
    rfl
  refine ⟨hb, ?_⟩
  unfold getAngularVelocity
  rw [hb]
  exact hU w

/-- Without a rigid body (no owner entity, no physics info, or no body) the setters change
nothing and the getters return the zero vector. -/
theorem no_rigid_body (U : BulletUtil) (a : ObjectAction) (v : Vec3)
    (h : a.getRigidBody = none) :
    setLinearVelocity U a v = a ∧ setAngularVelocity U a v = a
      ∧ getLinearVelocity U a = Vec3.zero ∧ getAngularVelocity U a = Vec3.zero := by
  unfold setLinearVelocity setAngularVelocity getLinearVelocity getAngularVelocity
  rw [h]
  exact ⟨rfl, rfl, rfl, rfl⟩

/-- C22, the code at the failing input: on the sample action, whose owner entity has a rigid
body, `setLinearVelocity (1, 2, 3)` leaves the body with linear velocity `(0, 0, 0)`, so
`getLinearVelocity` returns `(0, 0, 0)` and not `(1, 2, 3)`; `setAngularVelocity (1, 2, 3)`
followed by `getAngularVelocity` does return `(1, 2, 3)`. -/
theorem setLinearVelocity_drops_argument :
    sampleAction.getRigidBody
        = some { linearVelocity := Vec3.zero, angularVelocity := Vec3.zero, active := false }
      ∧ (setLinearVelocity BulletUtil.componentwise sampleAction
          { x := 1, y := 2, z := 3 }).getRigidBody
        = some { linearVelocity := Vec3.zero, angularVelocity := Vec3.zero, active := true }
      ∧ getLinearVelocity BulletUtil.componentwise
          (setLinearVelocity BulletUtil.componentwise sampleAction { x := 1, y := 2, z := 3 })
        = Vec3.zero
      ∧ getLinearVelocity BulletUtil.componentwise
          (setLinearVelocity BulletUtil.componentwise sampleAction { x := 1, y := 2, z := 3 })
        ≠ { x := 1, y := 2, z := 3 }
      ∧ getAngularVelocity BulletUtil.componentwise
          (setAngularVelocity BulletUtil.componentwise sampleAction { x := 1, y := 2, z := 3 })
        = { x := 1, y := 2, z := 3 } := by
  have h0 : sampleAction.getRigidBody
      = some { linearVelocity := Vec3.zero, angularVelocity := Vec3.zero, active := false } :=
    rfl
  obtain ⟨h1, h2⟩ := setLinearVelocity_body BulletUtil.componentwise sampleAction
    { x := 1, y := 2, z := 3 } _ h0
  obtain ⟨-, h3⟩ := setAngularVelocity_roundtrip BulletUtil.componentwise sampleAction
    { x := 1, y := 2, z := 3 } _ h0 (fun _ => rfl)
  refine ⟨h0, h1, h2, ?_, h3⟩
  rw [h2]
  intro hne
  have hx := congrArg Vec3.x hne
  norm_num [BulletUtil.componentwise, Vec3.zero] at hx

end ObjectAction
